import Mathlib

/-! TCPCI driver (driver/tcpm/tcpci.c): shallow embedding.

The driver talks to a TCPC chip over a register bus. Every externally visible
effect (bus transfer, bus lock, low-power hand-off, event post) is appended to
a chronological trace; the chip is an arbitrary function from the trace so far
(ending with the current transfer) to a reply, so a statement quantified over
the chip covers every behaviour of the device, failing transfers included.

C `int` return codes are `Int`; register values, bytes and the 32-bit ring
counters are `Nat` with explicit reduction modulo the width.
-/

namespace Tcpci

/-! ## Constants of headers that are not part of the sources -/

/-- Modelled from the spec: the error kinds of section 7 (`enum ec_error_list`
is declared in a header that is not under the sources). Success is zero. -/
def EC_SUCCESS : Int := 0

/-- Modelled from the spec: UNKNOWN, "any bus error or framing-size violation". -/
def EC_ERROR_UNKNOWN : Int := 1

/-- Modelled from the spec: OVERFLOW, "ring full". -/
def EC_ERROR_OVERFLOW : Int := 3

/-- Modelled from the spec: BUSY, "ring empty on dequeue". -/
def EC_ERROR_BUSY : Int := 6

/-- Modelled from the spec: the wake token of the task event system
(`TASK_EVENT_WAKE`, declared in the absent task header). -/
def TASK_EVENT_WAKE : Nat := 2 ^ 29

/-! ## Trace of effects and the chip -/

/-- One externally visible effect of the driver. `read8` .. `xfer` are the chip
accesses (bus transfers); the others are calls to collaborators. -/
inductive Access where
  | read8 (port reg : Nat)
  | read16 (port reg : Nat)
  | write8 (port reg val : Nat)
  | write16 (port reg val : Nat)
  | read_block (port reg size : Nat)
  | write_block (port reg : Nat) (out : List Nat)
  | xfer (port : Nat) (out : List Nat) (in_size : Nat) (flags : Nat)
  | lock (port : Nat) (l : Nat)
  | wait_exit_low_power (port : Nat)
  | device_accessed (port : Nat)
  | task_set_event (port : Nat) (event : Nat)
  | msleep (ms : Nat)
  | pd_transmit_complete (port : Nat) (status : Nat)
  | pd_set_suspend (port : Nat) (suspend : Nat)
  | pd_deferred_resume (port : Nat)
  | pd_execute_hard_reset (port : Nat)
  | pd_got_frs_signal (port : Nat)
  | usb_charger_vbus_change (port : Nat) (vbus : Nat)
deriving DecidableEq, Repr

/-- Whether the effect is a transfer on the register bus. -/
def Access.isChip : Access → Bool
  | .read8 _ _ => true
  | .read16 _ _ => true
  | .write8 _ _ _ => true
  | .write16 _ _ _ => true
  | .read_block _ _ _ => true
  | .write_block _ _ _ => true
  | .xfer _ _ _ _ => true
  | _ => false

/-- Number of bytes a transfer asks the chip to send back. -/
def Access.readSize : Access → Nat
  | .read8 _ _ => 1
  | .read16 _ _ => 2
  | .read_block _ _ size => size
  | .xfer _ _ in_size _ => in_size
  | _ => 0

/-- What a bus transfer gives back: the return code of the bus driver (zero is
success) and the data read. A successful read stores the data at the
destination; a failed read stores whatever part of `data` there is (nothing
when it is empty). -/
structure Reply where
  rv : Int
  data : List Nat
deriving DecidableEq, Repr

/-- The chip together with the bus driver: the reply to the last transfer of a
trace, as an arbitrary function of the whole trace. -/
abbrev Chip := List Access → Reply

/-- Build-time and board configuration that gates code paths. -/
structure Config where
  /-- `CONFIG_USB_PD_TCPC_LOW_POWER` -/
  low_power : Bool
  /-- `CONFIG_USB_PD_DECODE_SOP` -/
  decode_sop : Bool
  /-- `tcpc_config[port].flags & TCPC_FLAGS_TCPCI_V2_0` -/
  tcpci_v2_0 : Nat → Bool
  /-- `CONFIG_USB_PD_VBUS_DETECT_TCPC` -/
  vbus_detect_tcpc : Bool := false
  /-- `CONFIG_USB_CHARGER` -/
  usb_charger : Bool := false
  /-- `CONFIG_USB_TYPEC_PD_FAST_ROLE_SWAP` -/
  fast_role_swap : Bool := false
  /-- `board_get_usb_pd_port_count()` -/
  port_count : Nat := 1
  /-- `PD_RETRY_COUNT`, the retry field of the TRANSMIT register. -/
  pd_retry_count : Nat := 3

/-- Connection polarity as reported by the PD stack. Modelled from the spec:
`enum tcpc_cc_polarity` is declared in an absent header; the spec names CC1,
CC2, "none" and the debug-accessory variants. -/
inductive tcpc_cc_polarity where
  | POLARITY_CC1
  | POLARITY_CC2
  | POLARITY_CC1_DTS
  | POLARITY_CC2_DTS
  | POLARITY_NONE
deriving DecidableEq, Repr

/-- The environment of one driver call. -/
structure Env where
  cfg : Config
  chip : Chip
  /-- `pd_get_polarity(port)`, a hook of the PD stack. -/
  pd_get_polarity : Nat → tcpc_cc_polarity

/-- The driver's own state apart from the message rings: the trace and the
per-port shadow cells (`cached_rp`, `cached_pull`, `tcpc_vbus`, `vconn_en`,
`rx_en`). -/
structure Tcpc where
  log : List Access
  cached_rp : Nat → Int
  cached_pull : Nat → Int
  tcpc_vbus : Nat → Int
  vconn_en : Nat → Int
  rx_en : Nat → Int

/-- Zero-initialised driver state, as at boot. -/
def Tcpc.boot : Tcpc :=
  { log := [], cached_rp := fun _ => 0, cached_pull := fun _ => 0,
    tcpc_vbus := fun _ => 0, vconn_en := fun _ => 0, rx_en := fun _ => 0 }

/-- Append one effect to the trace. -/
def Tcpc.emit (t : Tcpc) (a : Access) : Tcpc :=
  { t with log := t.log ++ [a] }

/-- The chip accesses of a trace, in order. -/
def chipOps (l : List Access) : List Access :=
  l.filter Access.isChip

/-! ## Bus access wrapper (lines 37-179)

With `CONFIG_USB_PD_TCPC_LOW_POWER` every primitive is
`pd_wait_exit_low_power; transfer; pd_device_accessed`; without it the
primitive is the transfer alone. -/

/-- One wrapped bus transfer: returns the chip's reply. -/
def bus_access (e : Env) (port : Nat) (a : Access) (t : Tcpc) : Reply × Tcpc :=
  let t1 := if e.cfg.low_power then t.emit (.wait_exit_low_power port) else t
  let t2 := t1.emit a
  let r := e.chip t2.log
  let t3 := if e.cfg.low_power then t2.emit (.device_accessed port) else t2
  (r, t3)

/-- Value left in an `int` destination that held `old` by an 8-bit read. -/
def load8 (old : Nat) (r : Reply) : Nat :=
  if r.rv = 0 then r.data.headD 0 % 256
  else match r.data with
    | [] => old
    | v :: _ => v % 256

/-- Value left in an `int` destination that held `old` by a 16-bit read. -/
def load16 (old : Nat) (r : Reply) : Nat :=
  if r.rv = 0 then r.data.headD 0 % 65536
  else match r.data with
    | [] => old
    | v :: _ => v % 65536

/-- Bytes left in a destination buffer `old` by a block read of `size` bytes. -/
def load_block (old : List Nat) (size : Nat) (r : Reply) : List Nat :=
  let src := if r.rv = 0 then r.data ++ List.replicate size 0 else r.data
  let got := (src.take size).map (fun b => b % 256)
  got ++ old.drop got.length

/-- `tcpc_read(port, reg, &val)`: return code, new value of `val`. -/
def tcpc_read (e : Env) (port reg : Nat) (old : Nat) (t : Tcpc) : Int × Nat × Tcpc :=
  let (r, t1) := bus_access e port (.read8 port reg) t
  (r.rv, load8 old r, t1)

/-- `tcpc_read16(port, reg, &val)`. -/
def tcpc_read16 (e : Env) (port reg : Nat) (old : Nat) (t : Tcpc) : Int × Nat × Tcpc :=
  let (r, t1) := bus_access e port (.read16 port reg) t
  (r.rv, load16 old r, t1)

/-- `tcpc_write(port, reg, val)`. -/
def tcpc_write (e : Env) (port reg val : Nat) (t : Tcpc) : Int × Tcpc :=
  let (r, t1) := bus_access e port (.write8 port reg val) t
  (r.rv, t1)

/-- `tcpc_write16(port, reg, val)`. -/
def tcpc_write16 (e : Env) (port reg val : Nat) (t : Tcpc) : Int × Tcpc :=
  let (r, t1) := bus_access e port (.write16 port reg val) t
  (r.rv, t1)

/-- `tcpc_read_block(port, reg, in, size)`. -/
def tcpc_read_block (e : Env) (port reg : Nat) (old : List Nat) (size : Nat) (t : Tcpc) :
    Int × List Nat × Tcpc :=
  let (r, t1) := bus_access e port (.read_block port reg size) t
  (r.rv, load_block old size r, t1)

/-- `tcpc_xfer_unlocked(port, out, out_size, in, in_size, flags)`. -/
def tcpc_xfer_unlocked (e : Env) (port : Nat) (out : List Nat) (old : List Nat)
    (in_size : Nat) (flags : Nat) (t : Tcpc) : Int × List Nat × Tcpc :=
  let (r, t1) := bus_access e port (.xfer port out in_size flags) t
  (r.rv, load_block old in_size r, t1)

/-- `tcpc_lock(port, l)`: take or release the bus lock. -/
def tcpc_lock (port l : Nat) (t : Tcpc) : Tcpc :=
  t.emit (.lock port l)

/-- Assignment to one cell of a per-port array or of a ring buffer. -/
def setAt {α : Type} (f : Nat → α) (i : Nat) (v : α) : Nat → α :=
  fun j => if j = i then v else f j

/-! ## Received-message ring (lines 547-550, 655-740) -/

/-- `struct cached_tcpm_message`: the 32-bit header and the 7-word payload,
the latter kept as its 28 bytes (the ring only clears and copies it). -/
structure cached_tcpm_message where
  header : Nat
  payload : List Nat
deriving DecidableEq, Repr

/-- A slot after `memset(head, 0, sizeof(*head))`. -/
def cached_tcpm_message.zero : cached_tcpm_message :=
  { header := 0, payload := List.replicate 28 0 }

/-- `CACHE_DEPTH`, `BIT(2)`. -/
def CACHE_DEPTH : Nat := 4

/-- `CACHE_DEPTH_MASK`. -/
def CACHE_DEPTH_MASK : Nat := CACHE_DEPTH - 1

/-- Difference of two `uint32_t` values. -/
def sub32 (a b : Nat) : Nat :=
  (a + (4294967296 - b % 4294967296)) % 4294967296

/-- `struct queue`; `buffer` is indexed by a masked counter. -/
structure queue where
  head : Nat
  tail : Nat
  buffer : Nat → cached_tcpm_message

/-- Zero-initialised ring. -/
def queue.boot : queue :=
  { head := 0, tail := 0, buffer := fun _ => cached_tcpm_message.zero }

/-- Whole driver state: `cached_messages[]` and the rest. -/
structure State where
  tcpc : Tcpc
  cached_messages : Nat → queue

/-- State at boot. -/
def State.boot : State :=
  { tcpc := Tcpc.boot, cached_messages := fun _ => queue.boot }

/-- The `get_message_raw` entry of a port's driver table: given the port and
the (blanked) slot it returns a code and the slot as it left it. -/
abbrev RawRead := Nat → cached_tcpm_message → Tcpc → Int × cached_tcpm_message × Tcpc

/-- `tcpm_enqueue_message(port)`. Console output is not modelled. -/
def tcpm_enqueue_message (raw : RawRead) (port : Nat) (s : State) : Int × State :=
  let q := s.cached_messages port
  let head := q.head &&& CACHE_DEPTH_MASK
  if sub32 q.head q.tail = CACHE_DEPTH then
    (EC_ERROR_OVERFLOW, s)
  else
    let (rv, msg, t1) := raw port cached_tcpm_message.zero s.tcpc
    let q1 : queue := { q with buffer := setAt q.buffer head msg }
    if rv ≠ 0 then
      (rv, { tcpc := t1, cached_messages := setAt s.cached_messages port q1 })
    else
      let q2 : queue := { q1 with head := (q1.head + 1) % 4294967296 }
      let t2 := t1.emit (.task_set_event port TASK_EVENT_WAKE)
      (EC_SUCCESS, { tcpc := t2, cached_messages := setAt s.cached_messages port q2 })

/-- `tcpm_has_pending_message(port)`. -/
def tcpm_has_pending_message (port : Nat) (s : State) : Bool :=
  let q := s.cached_messages port
  q.head != q.tail

/-- `tcpm_dequeue_message(port, payload, header)`: the caller's buffers go in
and come out. -/
def tcpm_dequeue_message (port : Nat) (payload : List Nat) (header : Nat) (s : State) :
    Int × List Nat × Nat × State :=
  let q := s.cached_messages port
  let tail := q.buffer (q.tail &&& CACHE_DEPTH_MASK)
  if !tcpm_has_pending_message port s then
    (EC_ERROR_BUSY, payload, header, s)
  else
    let q1 : queue := { q with tail := (q.tail + 1) % 4294967296 }
    (EC_SUCCESS, tail.payload, tail.header,
      { s with cached_messages := setAt s.cached_messages port q1 })

/-- `tcpm_clear_pending_messages(port)`. -/
def tcpm_clear_pending_messages (port : Nat) (s : State) : State :=
  let q := s.cached_messages port
  { s with cached_messages := setAt s.cached_messages port { q with tail := q.head } }

/-! ## Call sequences on the rings -/

/-- One call of the ring interface. Each enqueue carries the raw read its
driver table holds at that moment; each dequeue carries the caller's buffers. -/
inductive QueueOp where
  | enqueue (raw : RawRead) (port : Nat)
  | dequeue (port : Nat) (payload : List Nat) (header : Nat)
  | clear (port : Nat)

/-- Whether the call is `tcpm_clear_pending_messages`. -/
def QueueOp.isClear : QueueOp → Bool
  | .clear _ => true
  | _ => false

/-- State after one call. -/
def QueueOp.next (op : QueueOp) (s : State) : State :=
  match op with
  | .enqueue raw port => (tcpm_enqueue_message raw port s).2
  | .dequeue port payload header => (tcpm_dequeue_message port payload header s).2.2.2
  | .clear port => tcpm_clear_pending_messages port s

/-- State after a sequence of calls. -/
def runOps : List QueueOp → State → State
  | [], s => s
  | op :: ops, s => runOps ops (op.next s)

/-- What the raw read of a call produced, when the call is an enqueue on
`port` that returned `EC_SUCCESS`. -/
def QueueOp.stored (port : Nat) (op : QueueOp) (s : State) : List cached_tcpm_message :=
  match op with
  | .enqueue raw p =>
    if p = port ∧ (tcpm_enqueue_message raw p s).1 = EC_SUCCESS then
      [(raw p cached_tcpm_message.zero s.tcpc).2.1]
    else []
  | _ => []

/-- What a call handed to its caller, as (header, payload), when the call is a
dequeue on `port` that returned `EC_SUCCESS`. -/
def QueueOp.fetched (port : Nat) (op : QueueOp) (s : State) : List cached_tcpm_message :=
  match op with
  | .dequeue p payload header =>
    let r := tcpm_dequeue_message p payload header s
    if p = port ∧ r.1 = EC_SUCCESS then [{ header := r.2.2.1, payload := r.2.1 }] else []
  | _ => []

/-- Messages of the successful enqueues on `port` during a run, in order. -/
def enqueued (port : Nat) : List QueueOp → State → List cached_tcpm_message
  | [], _ => []
  | op :: ops, s => op.stored port s ++ enqueued port ops (op.next s)

/-- Messages returned by the successful dequeues on `port` during a run, in order. -/
def dequeued (port : Nat) : List QueueOp → State → List cached_tcpm_message
  | [], _ => []
  | op :: ops, s => op.fetched port s ++ dequeued port ops (op.next s)

/-- The `n` messages of a ring buffer starting at counter `tail`, oldest first. -/
def pendingFrom (buffer : Nat → cached_tcpm_message) : Nat → Nat → List cached_tcpm_message
  | _, 0 => []
  | tail, n + 1 => buffer (tail &&& CACHE_DEPTH_MASK) :: pendingFrom buffer ((tail + 1) % 4294967296) n

/-- The messages a ring holds for the consumer, oldest first. -/
def queue.pending (q : queue) : List cached_tcpm_message :=
  pendingFrom q.buffer q.tail (sub32 q.head q.tail)

/-- Ring well-formedness: both counters are 32-bit and at most `CACHE_DEPTH`
messages are pending. -/
def queue.wf (q : queue) : Prop :=
  q.head < 4294967296 ∧ q.tail < 4294967296 ∧ sub32 q.head q.tail ≤ CACHE_DEPTH

/-- Successive enqueues on one port, one raw read each: the return codes and
the final state. -/
def enqueueAll : List RawRead → Nat → State → List Int × State
  | [], _, s => ([], s)
  | raw :: raws, port, s =>
    let r := tcpm_enqueue_message raw port s
    let rest := enqueueAll raws port r.2
    (r.1 :: rest.1, rest.2)

/-- Successive dequeues on one port, `n` of them, into the caller's buffers:
the return codes and the final state. -/
def dequeueN : Nat → Nat → List Nat → Nat → State → List Int × State
  | 0, _, _, _, s => ([], s)
  | n + 1, port, payload, header, s =>
    let r := tcpm_dequeue_message port payload header s
    let rest := dequeueN n port r.2.1 r.2.2.1 r.2.2.2
    (r.1 :: rest.1, rest.2)

/-- A raw read that always delivers message `m` with return code `rv`. -/
def constRaw (rv : Int) (m : cached_tcpm_message) : RawRead :=
  fun _ _ t => (rv, m, t)

/-- A sample message with the given header. -/
def sampleMsg (h : Nat) : cached_tcpm_message :=
  { header := h, payload := List.replicate 28 h }

/-- A run that mixes successes, a failing raw read and an overflow. -/
def fifoDemo : List QueueOp :=
  [.enqueue (constRaw 0 (sampleMsg 1)) 0, .enqueue (constRaw 1 (sampleMsg 2)) 0,
   .enqueue (constRaw 0 (sampleMsg 3)) 0, .dequeue 0 [] 0,
   .enqueue (constRaw 0 (sampleMsg 4)) 0, .enqueue (constRaw 0 (sampleMsg 5)) 0,
   .enqueue (constRaw 0 (sampleMsg 6)) 0, .enqueue (constRaw 0 (sampleMsg 7)) 0,
   .dequeue 0 [] 0, .dequeue 0 [] 0]

/-- Four raw reads that succeed with distinct messages. -/
def fourRaws : List RawRead :=
  [constRaw 0 (sampleMsg 1), constRaw 0 (sampleMsg 2), constRaw 0 (sampleMsg 3),
   constRaw 0 (sampleMsg 4)]

/-! ## Register map (absent header `tcpci.h`)

Register offsets and bit layouts are those the TCPCI specification fixes. -/

/-- Modelled from the spec: ROLE_CTRL register offset (section 6; the value is
fixed by the TCPCI register map). -/
def TCPC_REG_ROLE_CTRL : Nat := 0x1a

/-- Modelled from the spec: CC_STATUS register offset. -/
def TCPC_REG_CC_STATUS : Nat := 0x1d

/-- Modelled from the spec: "ROLE_CTRL's DRP bit", bit 6 of the register. -/
def TCPC_REG_ROLE_CTRL_DRP_MASK : Nat := 0x40

/-- Modelled from the spec: the Rp field of ROLE_CTRL, bits 5:4. -/
def TCPC_REG_ROLE_CTRL_RP_MASK : Nat := 0x30

/-- Modelled from the spec: the CC2 field of ROLE_CTRL, bits 3:2. -/
def TCPC_REG_ROLE_CTRL_CC2_MASK : Nat := 0x0c

/-- Modelled from the spec: the CC1 field of ROLE_CTRL, bits 1:0. -/
def TCPC_REG_ROLE_CTRL_CC1_MASK : Nat := 0x03

/-- Modelled from the spec: `TCPC_REG_ROLE_CTRL_SET(drp, rp, cc1, cc2)`, the
macro that packs the four fields of ROLE_CTRL, each masked to its field. -/
def TCPC_REG_ROLE_CTRL_SET (drp rp cc1 cc2 : Int) : Int :=
  Int.lor (Int.lor (Int.lor (Int.land (drp <<< (6 : Int)) TCPC_REG_ROLE_CTRL_DRP_MASK)
    (Int.land (rp <<< (4 : Int)) TCPC_REG_ROLE_CTRL_RP_MASK))
    (Int.land (cc2 <<< (2 : Int)) TCPC_REG_ROLE_CTRL_CC2_MASK))
    (Int.land cc1 TCPC_REG_ROLE_CTRL_CC1_MASK)

/-- Modelled from the spec: `TCPC_REG_ROLE_CTRL_RP(reg)`. -/
def TCPC_REG_ROLE_CTRL_RP (reg : Nat) : Nat :=
  (reg &&& TCPC_REG_ROLE_CTRL_RP_MASK) >>> 4

/-- Modelled from the spec: `TCPC_REG_ROLE_CTRL_CC2(reg)`. -/
def TCPC_REG_ROLE_CTRL_CC2 (reg : Nat) : Nat :=
  (reg &&& TCPC_REG_ROLE_CTRL_CC2_MASK) >>> 2

/-- Modelled from the spec: `TCPC_REG_ROLE_CTRL_CC1(reg)`. -/
def TCPC_REG_ROLE_CTRL_CC1 (reg : Nat) : Nat :=
  reg &&& TCPC_REG_ROLE_CTRL_CC1_MASK

/-- Modelled from the spec: `TCPC_REG_CC_STATUS_TERM(reg)`, the ConnectResult
bit (bit 4) of CC_STATUS. -/
def TCPC_REG_CC_STATUS_TERM (reg : Nat) : Nat :=
  (reg &&& 0x10) >>> 4

/-- Modelled from the spec: `TCPC_REG_CC_STATUS_CC2(reg)`, bits 3:2. -/
def TCPC_REG_CC_STATUS_CC2 (reg : Nat) : Nat :=
  (reg &&& 0xc) >>> 2

/-- Modelled from the spec: `TCPC_REG_CC_STATUS_CC1(reg)`, bits 1:0. -/
def TCPC_REG_CC_STATUS_CC1 (reg : Nat) : Nat :=
  reg &&& 0x3

/-- Modelled from the spec: `enum tcpc_cc_pull`, "open / Rp / Rd / RA", with
the encodings of the ROLE_CTRL CC fields. -/
def TYPEC_CC_RA : Int := 0

/-- Modelled from the spec: see `TYPEC_CC_RA`. -/
def TYPEC_CC_RP : Int := 1

/-- Modelled from the spec: see `TYPEC_CC_RA`. -/
def TYPEC_CC_RD : Int := 2

/-- Modelled from the spec: see `TYPEC_CC_RA`. -/
def TYPEC_CC_OPEN : Int := 3

/-- Modelled from the spec: `enum tcpc_cc_voltage_status`; the low two bits are
the CC_STATUS line state and bit 2 is the "presenting Rd" flag. -/
def TYPEC_CC_VOLT_OPEN : Nat := 0

/-- Modelled from the spec: Rp-default seen while presenting Rd (state 1, bit 2 set). -/
def TYPEC_CC_VOLT_RP_DEF : Nat := 5

/-! ## Cached shadow state and CC operations (lines 188-206, 268-274, 297-384) -/

/-- `tcpci_set_cached_rp(port, rp)`. -/
def tcpci_set_cached_rp (port : Nat) (rp : Int) (t : Tcpc) : Tcpc :=
  { t with cached_rp := setAt t.cached_rp port rp }

/-- `tcpci_get_cached_rp(port)`. -/
def tcpci_get_cached_rp (port : Nat) (t : Tcpc) : Int :=
  t.cached_rp port

/-- `tcpci_set_cached_pull(port, pull)`. -/
def tcpci_set_cached_pull (port : Nat) (pull : Int) (t : Tcpc) : Tcpc :=
  { t with cached_pull := setAt t.cached_pull port pull }

/-- `tcpci_get_cached_pull(port)`. -/
def tcpci_get_cached_pull (port : Nat) (t : Tcpc) : Int :=
  t.cached_pull port

/-- `tcpci_tcpm_select_rp_value(port, rp)`. -/
def tcpci_tcpm_select_rp_value (port : Nat) (rp : Int) (t : Tcpc) : Int × Tcpc :=
  (EC_SUCCESS, tcpci_set_cached_rp port rp t)

/-- The byte an `int` register value puts on the bus. -/
def wire8 (val : Int) : Nat :=
  (val % 256).toNat

/-- `tcpci_tcpm_get_cc(port, &cc1, &cc2)`: return code, `*cc1`, `*cc2`. -/
def tcpci_tcpm_get_cc (e : Env) (port : Nat) (t : Tcpc) : Int × Nat × Nat × Tcpc :=
  let cc1 := TYPEC_CC_VOLT_OPEN
  let cc2 := TYPEC_CC_VOLT_OPEN
  let (rv, role, t1) := tcpc_read e port TCPC_REG_ROLE_CTRL 0 t
  if rv ≠ 0 then (rv, cc1, cc2, t1)
  else
    let (rv, status, t2) := tcpc_read e port TCPC_REG_CC_STATUS 0 t1
    if rv ≠ 0 then (rv, cc1, cc2, t2)
    else
      let cc1 := TCPC_REG_CC_STATUS_CC1 status
      let cc2 := TCPC_REG_CC_STATUS_CC2 status
      let present :=
        if role &&& TCPC_REG_ROLE_CTRL_DRP_MASK ≠ 0 then
          let term := TCPC_REG_CC_STATUS_TERM status
          (if cc1 ≠ TYPEC_CC_VOLT_OPEN then term else 0,
           if cc2 ≠ TYPEC_CC_VOLT_OPEN then term else 0)
        else
          let role_cc1 := TCPC_REG_ROLE_CTRL_CC1 role
          let role_cc2 := TCPC_REG_ROLE_CTRL_CC2 role
          (if cc1 ≠ TYPEC_CC_VOLT_OPEN then (if (role_cc1 : Int) = TYPEC_CC_RD then 1 else 0) else 0,
           if cc2 ≠ TYPEC_CC_VOLT_OPEN then (if (role_cc2 : Int) = TYPEC_CC_RD then 1 else 0) else 0)
      (rv, cc1 ||| (present.1 <<< 2), cc2 ||| (present.2 <<< 2), t2)

/-- `tcpci_tcpm_set_cc(port, pull)`. -/
def tcpci_tcpm_set_cc (e : Env) (port : Nat) (pull : Int) (t : Tcpc) : Int × Tcpc :=
  let cc1 := pull
  let cc2 := pull
  let t1 := tcpci_set_cached_pull port pull t
  let polarity := e.pd_get_polarity port
  let cc :=
    if polarity = .POLARITY_CC1 then (cc1, TYPEC_CC_OPEN)
    else if polarity = .POLARITY_CC2 then (TYPEC_CC_OPEN, cc2)
    else (cc1, cc2)
  tcpc_write e port TCPC_REG_ROLE_CTRL
    (wire8 (TCPC_REG_ROLE_CTRL_SET 0 (tcpci_get_cached_rp port t1) cc.1 cc.2)) t1

/-- A chip whose registers always read the same: ROLE_CTRL as `role`,
CC_STATUS as `status`, everything else as zero; every transfer succeeds. -/
def fixedChip (role status : Nat) : Chip :=
  fun log =>
    match log.getLast? with
    | some (.read8 _ reg) =>
      if reg = TCPC_REG_ROLE_CTRL then ⟨0, [role]⟩
      else if reg = TCPC_REG_CC_STATUS then ⟨0, [status]⟩
      else ⟨0, [0]⟩
    | _ => ⟨0, [0]⟩

/-- A board without low-power mode or SOP decoding, TCPCI v1.0 ports. -/
def plainConfig : Config :=
  { low_power := false, decode_sop := false, tcpci_v2_0 := fun _ => false }

/-- An environment around `fixedChip` with the given polarity on every port. -/
def fixedEnv (role status : Nat) (pol : tcpc_cc_polarity) : Env :=
  { cfg := plainConfig, chip := fixedChip role status, pd_get_polarity := fun _ => pol }

/-! ## Receive path (lines 552-653) -/

/-- Modelled from the spec: ALERT register offset (TCPCI register map). -/
def TCPC_REG_ALERT : Nat := 0x10

/-- Modelled from the spec: "the ALERT RX_STATUS bit", bit 2 of ALERT. -/
def TCPC_REG_ALERT_RX_STATUS : Nat := 4

/-- Modelled from the spec: RX_BYTE_CNT register offset. -/
def TCPC_REG_RX_BYTE_CNT : Nat := 0x30

/-- Modelled from the spec: RX_BUFFER register offset (v2.0; shares 0x30). -/
def TCPC_REG_RX_BUFFER : Nat := 0x30

/-- Modelled from the spec: RX_BUF_FRAME_TYPE register offset. -/
def TCPC_REG_RX_BUF_FRAME_TYPE : Nat := 0x31

/-- Modelled from the spec: RX_HDR register offset. -/
def TCPC_REG_RX_HDR : Nat := 0x32

/-- Modelled from the spec: RX_DATA register offset. -/
def TCPC_REG_RX_DATA : Nat := 0x34

/-- Modelled from the spec: the START flag of a multi-segment transfer
(`I2C_XFER_START`, from the absent bus header). -/
def I2C_XFER_START : Nat := 1

/-- Modelled from the spec: the STOP flag of a multi-segment transfer. -/
def I2C_XFER_STOP : Nat := 2

/-- Modelled from the spec: `PD_HEADER_SOP(n)`, the frame-type tag "in the top
nibble" of the 32-bit header word. -/
def PD_HEADER_SOP (n : Nat) : Nat :=
  (n &&& 0xf) <<< 28

/-- Modelled from the spec: `member_size(struct cached_tcpm_message, payload)`,
the size in bytes of seven 32-bit objects, an unsigned `size_t`. -/
def PAYLOAD_SIZE : Nat := 28

/-- `cnt > member_size(...)` for an `int cnt`: the usual arithmetic conversions
turn `cnt` into the unsigned 32-bit `size_t`. -/
def exceeds_payload (cnt : Int) : Bool :=
  decide (PAYLOAD_SIZE < (cnt % 4294967296).toNat)

/-- The four bytes of a 32-bit word in memory (little-endian target). -/
def bytes_of_word (w : Nat) : List Nat :=
  [w % 256, w / 256 % 256, w / 65536 % 256, w / 16777216 % 256]

/-- The 32-bit word held by four bytes of memory (little-endian target). -/
def word_of_bytes (b : List Nat) : Nat :=
  b.getD 0 0 + 256 * b.getD 1 0 + 65536 * b.getD 2 0 + 16777216 * b.getD 3 0

/-- The `clear:` label of the v2.0 path: release the bus lock, acknowledge
RX_STATUS, return `rv`. -/
def v2_0_clear (e : Env) (port : Nat) (rv : Int) (m : cached_tcpm_message) (t : Tcpc) :
    Int × cached_tcpm_message × Tcpc :=
  let t1 := tcpc_lock port 0 t
  let (_, t2) := tcpc_write16 e port TCPC_REG_ALERT TCPC_REG_ALERT_RX_STATUS t1
  (rv, m, t2)

/-- `tcpci_v2_0_tcpm_get_message_raw(port, payload, head)`; `m` holds `*head`
and `payload[]` and is returned as the call left them. -/
def tcpci_v2_0_tcpm_get_message_raw (e : Env) (port : Nat) (m : cached_tcpm_message)
    (t : Tcpc) : Int × cached_tcpm_message × Tcpc :=
  let reg := TCPC_REG_RX_BUFFER
  let t1 := tcpc_lock port 1 t
  let (rv, tmp, t2) := tcpc_xfer_unlocked e port [reg % 256] [0, 0] 2 I2C_XFER_START t1
  if rv ≠ 0 then
    v2_0_clear e port EC_ERROR_UNKNOWN m t2
  else
    let cnt : Int := (tmp.getD 0 0 : Nat)
    let frm := tmp.getD 1 0
    let cnt := cnt - 3
    if exceeds_payload cnt then
      v2_0_clear e port EC_ERROR_UNKNOWN m t2
    else
      let (rv, hb, t3) := tcpc_xfer_unlocked e port [] (bytes_of_word m.header) 2
        (if cnt ≠ 0 then 0 else I2C_XFER_STOP) t2
      let head := word_of_bytes hb
      let head := head &&& 0x0000ffff
      let head := head ||| PD_HEADER_SOP (frm &&& 7)
      if rv = EC_SUCCESS ∧ cnt > 0 then
        let (_, payload, t4) := tcpc_xfer_unlocked e port [] m.payload cnt.toNat I2C_XFER_STOP t3
        v2_0_clear e port rv { header := head, payload := payload } t4
      else
        v2_0_clear e port rv { header := head, payload := m.payload } t3

/-- The `clear:` label of the v1.0 path: acknowledge RX_STATUS, return `rv`. -/
def v1_0_clear (e : Env) (port : Nat) (rv : Int) (m : cached_tcpm_message) (t : Tcpc) :
    Int × cached_tcpm_message × Tcpc :=
  let (_, t1) := tcpc_write16 e port TCPC_REG_ALERT TCPC_REG_ALERT_RX_STATUS t
  (rv, m, t1)

/-- The tail of the v1.0 path from the header read on; `frm` is the frame type
when SOP decoding is compiled in. -/
def v1_0_header_and_payload (e : Env) (port : Nat) (m : cached_tcpm_message) (cnt : Int)
    (frm : Nat) (t : Tcpc) : Int × cached_tcpm_message × Tcpc :=
  let reg := TCPC_REG_RX_DATA
  let (rv, head, t1) := tcpc_read16 e port TCPC_REG_RX_HDR m.header t
  let head :=
    if e.cfg.decode_sop then (head &&& 0x0000ffff) ||| PD_HEADER_SOP (frm &&& 7) else head
  if rv = EC_SUCCESS ∧ cnt > 0 then
    let (_, payload, t2) := tcpc_read_block e port reg m.payload cnt.toNat t1
    v1_0_clear e port rv { header := head, payload := payload } t2
  else
    v1_0_clear e port rv { header := head, payload := m.payload } t1

/-- `tcpci_v1_0_tcpm_get_message_raw(port, payload, head)`. -/
def tcpci_v1_0_tcpm_get_message_raw (e : Env) (port : Nat) (m : cached_tcpm_message)
    (t : Tcpc) : Int × cached_tcpm_message × Tcpc :=
  let (rv, cnt, t1) := tcpc_read e port TCPC_REG_RX_BYTE_CNT 0 t
  if rv ≠ EC_SUCCESS ∨ cnt < 3 then
    v1_0_clear e port EC_ERROR_UNKNOWN m t1
  else
    let cnt : Int := (cnt : Int) - 3
    if exceeds_payload cnt then
      v1_0_clear e port EC_ERROR_UNKNOWN m t1
    else if e.cfg.decode_sop then
      let (rv, frm, t2) := tcpc_read e port TCPC_REG_RX_BUF_FRAME_TYPE 0 t1
      if rv ≠ EC_SUCCESS then
        v1_0_clear e port EC_ERROR_UNKNOWN m t2
      else
        v1_0_header_and_payload e port m cnt frm t2
    else
      v1_0_header_and_payload e port m cnt 0 t1

/-- `tcpci_tcpm_get_message_raw(port, payload, head)`. -/
def tcpci_tcpm_get_message_raw (e : Env) : RawRead :=
  fun port m t =>
    if e.cfg.tcpci_v2_0 port then tcpci_v2_0_tcpm_get_message_raw e port m t
    else tcpci_v1_0_tcpm_get_message_raw e port m t

/-- Whether a transfer addresses the ALERT register for writing. -/
def Access.writesAlert : Access → Bool
  | .write8 _ reg _ => reg == TCPC_REG_ALERT
  | .write16 _ reg _ => reg == TCPC_REG_ALERT
  | .write_block _ reg _ => reg == TCPC_REG_ALERT
  | .xfer _ out _ _ => out.head? == some TCPC_REG_ALERT
  | _ => false

/-- The effects of one wrapped bus transfer, in order. -/
def wrapped (e : Env) (port : Nat) (a : Access) : List Access :=
  (if e.cfg.low_power then [.wait_exit_low_power port] else []) ++ [a] ++
    (if e.cfg.low_power then [.device_accessed port] else [])

/-- The part of a later trace that was added to an earlier one. -/
def added (before after : Tcpc) : List Access :=
  after.log.drop before.log.length

/-- The chip's reply to one wrapped bus transfer issued in state `t`. -/
def chipReply (e : Env) (port : Nat) (a : Access) (t : Tcpc) : Reply :=
  e.chip (t.log ++ (if e.cfg.low_power then [.wait_exit_low_power port] else []) ++ [a])

/-- A chip for the receive path: the byte count reads `count` (frame type 0),
the header reads `header`, and a payload read returns `payload_rv` with no
data when that code is non-zero; every other transfer succeeds. -/
def rxChip (count header : Nat) (payload_rv : Int) : Chip :=
  fun log =>
    match log.getLast? with
    | some (.read8 _ reg) => if reg = TCPC_REG_RX_BYTE_CNT then ⟨0, [count]⟩ else ⟨0, [0]⟩
    | some (.read16 _ _) => ⟨0, [header]⟩
    | some (.read_block _ _ size) =>
      if payload_rv = 0 then ⟨0, List.replicate size 0xab⟩ else ⟨payload_rv, []⟩
    | some (.xfer _ out size _) =>
      if out = [TCPC_REG_RX_BUFFER] then ⟨0, [count, 0]⟩
      else if size = 2 then ⟨0, [header % 256, header / 256]⟩
      else if payload_rv = 0 then ⟨0, List.replicate size 0xab⟩ else ⟨payload_rv, []⟩
    | _ => ⟨0, []⟩

/-- An environment around `rxChip`; `v2` selects the TCPCI v2.0 framing. -/
def rxEnv (count header : Nat) (payload_rv : Int) (v2 : Bool) : Env :=
  { cfg := { low_power := false, decode_sop := false, tcpci_v2_0 := fun _ => v2 },
    chip := rxChip count header payload_rv,
    pd_get_polarity := fun _ => .POLARITY_NONE }

/-! ## Polarity, VCONN, RX enable (lines 415-482, 502-526) -/

/-- Modelled from the spec: TCPC_CTRL register offset (TCPCI register map). -/
def TCPC_REG_TCPC_CTRL : Nat := 0x19

/-- Modelled from the spec: `TCPC_REG_TCPC_CTRL_SET(polarity)`, "TCPC_CTRL's
polarity bit", bit 0. -/
def TCPC_REG_TCPC_CTRL_SET (polarity : Nat) : Nat := polarity

/-- Modelled from the spec: POWER_CTRL register offset. -/
def TCPC_REG_POWER_CTRL : Nat := 0x1c

/-- Modelled from the spec: `TCPC_REG_POWER_CTRL_VCONN(x)`, "the VCONN bit in
POWER_CTRL", bit 0. -/
def TCPC_REG_POWER_CTRL_VCONN (x : Int) : Nat :=
  (Int.land x 1).toNat

/-- Modelled from the spec: RX_DETECT register offset. -/
def TCPC_REG_RX_DETECT : Nat := 0x2f

/-- Modelled from the spec: the RX_DETECT mask "only SOP + hard-reset". -/
def TCPC_REG_RX_DETECT_SOP_HRST_MASK : Nat := 0x21

/-- Modelled from the spec: the RX_DETECT mask "SOP + SOP' + SOP''" (with
hard-reset). -/
def TCPC_REG_RX_DETECT_SOP_SOPP_SOPPP_HRST_MASK : Nat := 0x27

/-- `reg & ~mask` on an `int` holding a non-negative register value. -/
def clear_bits (reg mask : Nat) : Nat :=
  reg &&& (0xffffffff ^^^ mask)

/-- One bus transfer without the low-power wrapper. -/
def i2c_transfer (e : Env) (a : Access) (t : Tcpc) : Reply × Tcpc :=
  let t1 := t.emit a
  (e.chip t1.log, t1)

/-- Modelled from the spec: `tcpc_update8(port, reg, mask, action)`, the
"read-modify-write on masks" of the bus wrapper (the bus driver's update helper
is not under the sources): read the register, set (`set`) or clear the mask
bits, write it back; the whole is wrapped once by the low-power hand-off. -/
def tcpc_update8 (e : Env) (port reg mask : Nat) (set : Bool) (t : Tcpc) : Int × Tcpc :=
  let t1 := if e.cfg.low_power then t.emit (.wait_exit_low_power port) else t
  let (r, t2) := i2c_transfer e (.read8 port reg) t1
  let res :=
    if r.rv ≠ 0 then (r.rv, t2)
    else
      let val := load8 0 r
      let val := if set then val ||| mask else clear_bits val mask
      let (w, t3) := i2c_transfer e (.write8 port reg val) t2
      (w.rv, t3)
  (res.1, if e.cfg.low_power then res.2.emit (.device_accessed port) else res.2)

/-- Modelled from the spec: `polarity_rm_dts(polarity)`, the polarity "with
debug-accessory flag masked off". -/
def polarity_rm_dts : tcpc_cc_polarity → tcpc_cc_polarity
  | .POLARITY_CC1_DTS => .POLARITY_CC1
  | .POLARITY_CC2_DTS => .POLARITY_CC2
  | p => p

/-- `tcpci_tcpm_set_polarity(port, polarity)`; `tcpm_set_cc` is the `set_cc`
entry of the driver table, `tcpci_tcpm_set_cc`. -/
def tcpci_tcpm_set_polarity (e : Env) (port : Nat) (polarity : tcpc_cc_polarity) (t : Tcpc) :
    Int × Tcpc :=
  let (rv, t1) := tcpci_tcpm_set_cc e port (tcpci_get_cached_pull port t) t
  if rv ≠ 0 then (rv, t1)
  else if polarity = .POLARITY_NONE then (EC_SUCCESS, t1)
  else
    tcpc_update8 e port TCPC_REG_TCPC_CTRL (TCPC_REG_TCPC_CTRL_SET 1)
      (decide (polarity_rm_dts polarity = .POLARITY_CC2)) t1

/-- `tcpci_tcpm_set_vconn(port, enable)`. -/
def tcpci_tcpm_set_vconn (e : Env) (port : Nat) (enable : Int) (t : Tcpc) : Int × Tcpc :=
  let (rv, reg, t1) := tcpc_read e port TCPC_REG_POWER_CTRL 0 t
  if rv ≠ 0 then (rv, t1)
  else
    let t2 :=
      if e.cfg.decode_sop then
        let t1a : Tcpc := { t1 with vconn_en := setAt t1.vconn_en port enable }
        if t1a.rx_en port ≠ 0 then
          let detect_sop_en :=
            if enable ≠ 0 then TCPC_REG_RX_DETECT_SOP_SOPP_SOPPP_HRST_MASK
            else TCPC_REG_RX_DETECT_SOP_HRST_MASK
          (tcpc_write e port TCPC_REG_RX_DETECT detect_sop_en t1a).2
        else t1a
      else t1
    let reg := clear_bits reg (TCPC_REG_POWER_CTRL_VCONN 1)
    let reg := reg ||| TCPC_REG_POWER_CTRL_VCONN enable
    tcpc_write e port TCPC_REG_POWER_CTRL reg t2

/-- `tcpci_tcpm_set_rx_enable(port, enable)`. -/
def tcpci_tcpm_set_rx_enable (e : Env) (port : Nat) (enable : Int) (t : Tcpc) : Int × Tcpc :=
  let r : Nat × Tcpc :=
    if enable ≠ 0 then
      if e.cfg.decode_sop then
        let t1 : Tcpc := { t with rx_en := setAt t.rx_en port enable }
        (if t1.vconn_en port ≠ 0 then TCPC_REG_RX_DETECT_SOP_SOPP_SOPPP_HRST_MASK
          else TCPC_REG_RX_DETECT_SOP_HRST_MASK, t1)
      else (TCPC_REG_RX_DETECT_SOP_HRST_MASK, t)
    else (0, t)
  tcpc_write e port TCPC_REG_RX_DETECT r.1 r.2

/-! ## Transmit (lines 742-812) -/

/-- Modelled from the spec: TRANSMIT register offset. -/
def TCPC_REG_TRANSMIT : Nat := 0x50

/-- Modelled from the spec: TX_BYTE_CNT register offset. -/
def TCPC_REG_TX_BYTE_CNT : Nat := 0x51

/-- Modelled from the spec: TX_BUFFER register offset (v2.0; "TX_BYTE_CNT and
the TX buffer share a register"). -/
def TCPC_REG_TX_BUFFER : Nat := 0x51

/-- Modelled from the spec: TX_HDR register offset. -/
def TCPC_REG_TX_HDR : Nat := 0x52

/-- Modelled from the spec: TX_DATA register offset. -/
def TCPC_REG_TX_DATA : Nat := 0x54

/-- Modelled from the spec: `enum tcpm_transmit_type`, SOP. -/
def TCPC_TX_SOP : Nat := 0

/-- Modelled from the spec: `enum tcpm_transmit_type`, SOP'. -/
def TCPC_TX_SOP_PRIME : Nat := 1

/-- Modelled from the spec: `NUM_SOP_STAR_TYPES`, the size of "the SOP* range"
(SOP, SOP', SOP'', SOP'_debug, SOP''_debug). -/
def NUM_SOP_STAR_TYPES : Nat := 5

/-- Modelled from the spec: `TCPC_REG_TRANSMIT_SET_WITH_RETRY(type)`, the
"WITH_RETRY encoding": the retry count above the type. -/
def TCPC_REG_TRANSMIT_SET_WITH_RETRY (e : Env) (type : Nat) : Nat :=
  (e.cfg.pd_retry_count <<< 4) ||| type

/-- Modelled from the spec: `TCPC_REG_TRANSMIT_SET_WITHOUT_RETRY(type)`, the
"WITHOUT_RETRY encoding": the type alone. -/
def TCPC_REG_TRANSMIT_SET_WITHOUT_RETRY (type : Nat) : Nat := type

/-- Modelled from the spec: `PD_HEADER_CNT(header)`, the "data-object-count"
field of the message header (bits 14:12). -/
def PD_HEADER_CNT (header : Nat) : Nat :=
  (header >>> 12) &&& 7

/-- `tcpc_write_block(port, reg, out, size)`; `out` holds the `size` bytes. -/
def tcpc_write_block (e : Env) (port reg : Nat) (out : List Nat) (t : Tcpc) : Int × Tcpc :=
  let (r, t1) := bus_access e port (.write_block port reg out) t
  (r.rv, t1)

/-- The first `size` bytes of the memory holding the 32-bit objects `data`. -/
def data_bytes (data : List Nat) (size : Nat) : List Nat :=
  ((data.map bytes_of_word).flatten).take size

/-- `tcpci_tcpm_transmit(port, type, header, data)`. -/
def tcpci_tcpm_transmit (e : Env) (port : Nat) (type : Nat) (header : Nat) (data : List Nat)
    (t : Tcpc) : Int × Tcpc :=
  let reg := TCPC_REG_TX_DATA
  let cnt := 4 * PD_HEADER_CNT header
  if type ≥ NUM_SOP_STAR_TYPES then
    tcpc_write e port TCPC_REG_TRANSMIT (TCPC_REG_TRANSMIT_SET_WITHOUT_RETRY type) t
  else
    let staged : Int × Tcpc :=
      if e.cfg.tcpci_v2_0 port then
        let reg := TCPC_REG_TX_BUFFER
        let cnt := cnt + 2
        let t1 := tcpc_lock port 1 t
        let (rv1, _, t2) := tcpc_xfer_unlocked e port [reg % 256] [] 0 I2C_XFER_START t1
        let (rv2, _, t3) := tcpc_xfer_unlocked e port [cnt % 256] [] 0 0 t2
        let (rv3, _, t4) :=
          tcpc_xfer_unlocked e port [header % 256, header / 256 % 256] [] 0 0 t3
        let (rv4, _, t5) :=
          tcpc_xfer_unlocked e port (data_bytes data (cnt - 2)) [] 0 I2C_XFER_STOP t4
        let t6 := tcpc_lock port 0 t5
        (Int.lor (Int.lor (Int.lor rv1 rv2) rv3) rv4, t6)
      else
        let (rv1, t1) := tcpc_write e port TCPC_REG_TX_BYTE_CNT (cnt + 2) t
        let (rv2, t2) := tcpc_write16 e port TCPC_REG_TX_HDR (header % 65536) t1
        let rv := Int.lor rv1 rv2
        if rv ≠ 0 then (rv, t2)
        else if cnt > 0 then tcpc_write_block e port reg (data_bytes data cnt) t2
        else (rv, t2)
    if staged.1 ≠ 0 then staged
    else
      tcpc_write e port TCPC_REG_TRANSMIT
        (if type = TCPC_TX_SOP_PRIME then TCPC_REG_TRANSMIT_SET_WITHOUT_RETRY type
          else TCPC_REG_TRANSMIT_SET_WITH_RETRY e type) staged.2

/-! ## Init (lines 208-266, 978-1113) -/

/-- Modelled from the spec: TIMEOUT, "init wait exhausted". -/
def EC_ERROR_TIMEOUT : Int := 4

/-- Modelled from the spec: INVAL, "port out of range". -/
def EC_ERROR_INVAL : Int := 5

/-- Modelled from the spec: VENDOR_ID register offset. -/
def TCPC_REG_VENDOR_ID : Nat := 0x0

/-- Modelled from the spec: PRODUCT_ID register offset. -/
def TCPC_REG_PRODUCT_ID : Nat := 0x2

/-- Modelled from the spec: BCD_DEV register offset. -/
def TCPC_REG_BCD_DEV : Nat := 0x4

/-- Modelled from the spec: ALERT_MASK register offset. -/
def TCPC_REG_ALERT_MASK : Nat := 0x12

/-- Modelled from the spec: POWER_STATUS_MASK register offset. -/
def TCPC_REG_POWER_STATUS_MASK : Nat := 0x14

/-- Modelled from the spec: POWER_STATUS register offset. -/
def TCPC_REG_POWER_STATUS : Nat := 0x1e

/-- Modelled from the spec: FAULT_STATUS register offset. -/
def TCPC_REG_FAULT_STATUS : Nat := 0x1f

/-- Modelled from the spec: ALERT_EXT register offset. -/
def TCPC_REG_ALERT_EXT : Nat := 0x21

/-- Modelled from the spec: the "uninitialized" bit of POWER_STATUS, bit 6. -/
def TCPC_REG_POWER_STATUS_UNINIT : Nat := 0x40

/-- Modelled from the spec: the VBUS-present bit of POWER_STATUS, bit 2. -/
def TCPC_REG_POWER_STATUS_VBUS_PRES : Nat := 0x04

/-- Modelled from the spec: TCPC_CTRL's "enable Look4Connection alert" bit, bit 6. -/
def TCPC_REG_TCPC_CTRL_EN_LOOK4CONNECTION_ALERT : Nat := 0x40

/-- Modelled from the spec: ALERT bit CC_STATUS, bit 0. -/
def TCPC_REG_ALERT_CC_STATUS : Nat := 0x0001

/-- Modelled from the spec: ALERT bit POWER_STATUS, bit 1. -/
def TCPC_REG_ALERT_POWER_STATUS : Nat := 0x0002

/-- Modelled from the spec: ALERT bit RX_HARD_RST, bit 3. -/
def TCPC_REG_ALERT_RX_HARD_RST : Nat := 0x0008

/-- Modelled from the spec: ALERT bit TX_FAILED, bit 4. -/
def TCPC_REG_ALERT_TX_FAILED : Nat := 0x0010

/-- Modelled from the spec: ALERT bit TX_DISCARDED, bit 5. -/
def TCPC_REG_ALERT_TX_DISCARDED : Nat := 0x0020

/-- Modelled from the spec: ALERT bit TX_SUCCESS, bit 6. -/
def TCPC_REG_ALERT_TX_SUCCESS : Nat := 0x0040

/-- Modelled from the spec: the "TX-complete" bits of ALERT. -/
def TCPC_REG_ALERT_TX_COMPLETE : Nat :=
  TCPC_REG_ALERT_TX_SUCCESS ||| TCPC_REG_ALERT_TX_DISCARDED ||| TCPC_REG_ALERT_TX_FAILED

/-- Modelled from the spec: ALERT bit FAULT, bit 9. -/
def TCPC_REG_ALERT_FAULT : Nat := 0x0200

/-- Modelled from the spec: ALERT bit "extended alert", bit 14. -/
def TCPC_REG_ALERT_ALERT_EXT : Nat := 0x4000

/-- Modelled from the spec: the sink-FRS bit of ALERT_EXT, bit 0. -/
def TCPC_REG_ALERT_EXT_SNK_FRS : Nat := 0x01

/-- Modelled from the spec: the "all-ones reset value" of ALERT_MASK. -/
def TCPC_REG_ALERT_MASK_ALL : Nat := 0xffff

/-- Modelled from the spec: the "all-ones reset value" of POWER_STATUS_MASK. -/
def TCPC_REG_POWER_STATUS_MASK_ALL : Nat := 0xff

/-- `TCPM_INIT_TRIES`. -/
def TCPM_INIT_TRIES : Nat := 30

/-- `init_alert_mask(port)`. -/
def init_alert_mask (e : Env) (port : Nat) (t : Tcpc) : Int × Tcpc :=
  let mask :=
    TCPC_REG_ALERT_TX_SUCCESS ||| TCPC_REG_ALERT_TX_FAILED |||
    TCPC_REG_ALERT_TX_DISCARDED ||| TCPC_REG_ALERT_RX_STATUS |||
    TCPC_REG_ALERT_RX_HARD_RST ||| TCPC_REG_ALERT_CC_STATUS |||
    (if e.cfg.vbus_detect_tcpc then TCPC_REG_ALERT_POWER_STATUS else 0)
  let (rv, t1) := tcpc_write16 e port TCPC_REG_ALERT_MASK mask t
  if e.cfg.fast_role_swap then
    if rv ≠ 0 then (rv, t1)
    else tcpc_write e port TCPC_REG_ALERT_EXT TCPC_REG_ALERT_EXT_SNK_FRS t1
  else (rv, t1)

/-- `init_power_status_mask(port)`. -/
def init_power_status_mask (e : Env) (port : Nat) (t : Tcpc) : Int × Tcpc :=
  let mask := if e.cfg.vbus_detect_tcpc then TCPC_REG_POWER_STATUS_VBUS_PRES else 0
  tcpc_write e port TCPC_REG_POWER_STATUS_MASK mask t

/-- `tcpci_tcpm_get_power_status(port, &status)`. -/
def tcpci_tcpm_get_power_status (e : Env) (port : Nat) (old : Nat) (t : Tcpc) :
    Int × Nat × Tcpc :=
  tcpc_read e port TCPC_REG_POWER_STATUS old t

/-- `struct ec_response_pd_chip_info_v1`, the fields the driver fills. -/
structure ec_response_pd_chip_info_v1 where
  vendor_id : Nat
  product_id : Nat
  device_id : Nat
  fw_version_number : Int
deriving DecidableEq, Repr

/-- The driver state together with the chip-info cache `info[]` of
`tcpci_get_chip_info`. -/
structure Driver where
  tcpc : Tcpc
  info : Nat → ec_response_pd_chip_info_v1

/-- Driver state at boot. -/
def Driver.boot : Driver :=
  { tcpc := Tcpc.boot, info := fun _ => ⟨0, 0, 0, 0⟩ }

/-- `tcpci_get_chip_info(port, live, chip_info)`; the output pointer only
exposes the cache entry and is not modelled. -/
def tcpci_get_chip_info (e : Env) (port : Nat) (live : Bool) (d : Driver) : Int × Driver :=
  if port ≥ e.cfg.port_count then (EC_ERROR_INVAL, d)
  else
    let i := d.info port
    if i.vendor_id ≠ 0 ∧ !live then (EC_SUCCESS, d)
    else
      let (error, val, t1) := tcpc_read16 e port TCPC_REG_VENDOR_ID 0 d.tcpc
      if error ≠ 0 then (error, { d with tcpc := t1 })
      else
        let i := { i with vendor_id := val }
        let (error, val, t2) := tcpc_read16 e port TCPC_REG_PRODUCT_ID val t1
        if error ≠ 0 then (error, { tcpc := t2, info := setAt d.info port i })
        else
          let i := { i with product_id := val }
          let (error, val, t3) := tcpc_read16 e port TCPC_REG_BCD_DEV val t2
          if error ≠ 0 then (error, { tcpc := t3, info := setAt d.info port i })
          else
            let i := { i with device_id := val, fw_version_number := -1 }
            (EC_SUCCESS, { tcpc := t3, info := setAt d.info port i })

/-- The polling loop of `tcpci_tcpm_init` with `tries` attempts left: the
return code when the function returns from inside the loop (`none` on
`break`), and `power_status`. -/
def init_poll (e : Env) (port : Nat) : Nat → Nat → Tcpc → Option Int × Nat × Tcpc
  | 0, power_status, t =>
    let (error, power_status, t1) := tcpc_read e port TCPC_REG_POWER_STATUS power_status t
    if error = 0 ∧ power_status &&& TCPC_REG_POWER_STATUS_UNINIT = 0 then
      (none, power_status, t1)
    else (some (if error ≠ 0 then error else EC_ERROR_TIMEOUT), power_status, t1)
  | tries + 1, power_status, t =>
    let (error, power_status, t1) := tcpc_read e port TCPC_REG_POWER_STATUS power_status t
    if error = 0 ∧ power_status &&& TCPC_REG_POWER_STATUS_UNINIT = 0 then
      (none, power_status, t1)
    else if tries = 0 then
      (some (if error ≠ 0 then error else EC_ERROR_TIMEOUT), power_status, t1)
    else init_poll e port tries power_status (t1.emit (.msleep 10))

/-- `tcpci_tcpm_init(port)`; `tcpm_get_chip_info` is the `get_chip_info` entry
of the driver table, `tcpci_get_chip_info`. -/
def tcpci_tcpm_init (e : Env) (port : Nat) (d : Driver) : Int × Driver :=
  let t0 := tcpci_set_cached_pull port TYPEC_CC_OPEN d.tcpc
  if port ≥ e.cfg.port_count then (EC_ERROR_INVAL, { d with tcpc := t0 })
  else
    match init_poll e port TCPM_INIT_TRIES 0 t0 with
    | (some error, _, t1) => (error, { d with tcpc := t1 })
    | (none, power_status, t1) =>
      let t2 :=
        if e.cfg.tcpci_v2_0 port then
          let (_, regval, ta) := tcpc_read e port TCPC_REG_TCPC_CTRL 0 t1
          let regval := regval ||| TCPC_REG_TCPC_CTRL_EN_LOOK4CONNECTION_ALERT
          (tcpc_write e port TCPC_REG_TCPC_CTRL regval ta).2
        else t1
      let (_, t3) := tcpc_write16 e port TCPC_REG_ALERT 0xffff t2
      let (_, t4) := init_power_status_mask e port t3
      let vbus : Int := if power_status &&& TCPC_REG_POWER_STATUS_VBUS_PRES ≠ 0 then 1 else 0
      let t5 : Tcpc := { t4 with tcpc_vbus := setAt t4.tcpc_vbus port vbus }
      let t6 :=
        if e.cfg.vbus_detect_tcpc ∧ e.cfg.usb_charger then
          t5.emit (.usb_charger_vbus_change port vbus.toNat)
        else t5
      let (error, t7) := init_alert_mask e port t6
      if error ≠ 0 then (error, { d with tcpc := t7 })
      else
        let (_, d1) := tcpci_get_chip_info e port true { d with tcpc := t7 }
        (EC_SUCCESS, d1)

/-- The trace of a poll that never sees the chip ready, with `n + 1` tries:
reads of POWER_STATUS with a 10 ms sleep between them. -/
def pollTrace (e : Env) (port : Nat) : Nat → List Access
  | 0 => wrapped e port (.read8 port TCPC_REG_POWER_STATUS)
  | n + 1 => wrapped e port (.read8 port TCPC_REG_POWER_STATUS) ++ [.msleep 10] ++
      pollTrace e port n

/-- Whether the effect is a bus transfer or a sleep. -/
def Access.isChipOrSleep : Access → Bool
  | .msleep _ => true
  | a => a.isChip

/-- A chip that is never ready: every transfer succeeds and every 8-bit read
gives `power_status`. -/
def stuckChip (power_status : Nat) : Chip :=
  fun _ => ⟨0, [power_status]⟩

/-! ## Alert handler (lines 490-500, 814-968) -/

/-- Modelled from the spec: the CC event of the PD task (`PD_EVENT_CC`). -/
def PD_EVENT_CC : Nat := 2 ^ 4

/-- Modelled from the spec: the "TCPC_RESET event" of the PD task
(`PD_EVENT_TCPC_RESET`). -/
def PD_EVENT_TCPC_RESET : Nat := 2 ^ 5

/-- Modelled from the spec: `TCPC_TX_COMPLETE_SUCCESS`, the SUCCESS status
given to `pd_transmit_complete`. -/
def TCPC_TX_COMPLETE_SUCCESS : Nat := 0

/-- Modelled from the spec: `TCPC_TX_COMPLETE_FAILED`, the FAILED status. -/
def TCPC_TX_COMPLETE_FAILED : Nat := 2

/-- `MAX_ALLOW_FAILED_RX_READS`. -/
def MAX_ALLOW_FAILED_RX_READS : Nat := 10

/-- `tcpm_alert_status(port, &alert)`. -/
def tcpm_alert_status (e : Env) (port : Nat) (old : Nat) (t : Tcpc) : Int × Nat × Tcpc :=
  tcpc_read16 e port TCPC_REG_ALERT old t

/-- `tcpm_alert_ext_status(port, &alert_ext)`. -/
def tcpm_alert_ext_status (e : Env) (port : Nat) (old : Nat) (t : Tcpc) : Int × Nat × Tcpc :=
  tcpc_read e port TCPC_REG_ALERT_EXT old t

/-- `register_mask_reset(port)`. -/
def register_mask_reset (e : Env) (port : Nat) (t : Tcpc) : Nat × Tcpc :=
  let (_, mask, t1) := tcpc_read16 e port TCPC_REG_ALERT_MASK 0 t
  if mask = TCPC_REG_ALERT_MASK_ALL then (1, t1)
  else
    let (_, mask, t2) := tcpc_read e port TCPC_REG_POWER_STATUS_MASK 0 t1
    if mask = TCPC_REG_POWER_STATUS_MASK_ALL then (1, t2)
    else (0, t2)

/-- `tcpci_get_fault(port, &fault)`. -/
def tcpci_get_fault (e : Env) (port : Nat) (old : Nat) (t : Tcpc) : Int × Nat × Tcpc :=
  tcpc_read e port TCPC_REG_FAULT_STATUS old t

/-- `tcpci_handle_fault(port, fault)`: console output only. -/
def tcpci_handle_fault (_port _fault : Nat) : Int :=
  EC_SUCCESS

/-- `tcpci_clear_fault(port, fault)`. -/
def tcpci_clear_fault (e : Env) (port fault : Nat) (t : Tcpc) : Int × Tcpc :=
  tcpc_write e port TCPC_REG_FAULT_STATUS fault t

/-- Where the RX-drain loop of `tcpci_tcpc_alert` leaves the handler. `attempts`
counts the calls of `tcpm_enqueue_message` (one per iteration); `suspended`
says the handler returned through the failure cap. -/
structure Drain where
  status : Nat
  failed_attempts : Nat
  attempts : Nat
  suspended : Bool
  s : State

/-- The `while (status & TCPC_REG_ALERT_RX_STATUS)` loop of `tcpci_tcpc_alert`
(lines 896-915), run for at most `fuel` iterations; `none` when the fuel is
used up. `raw` is the `get_message_raw` entry of the driver table. -/
def rx_drain (e : Env) (raw : RawRead) (port : Nat) :
    Nat → Nat → Nat → State → Option Drain
  | 0, status, failed_attempts, s =>
    if status &&& TCPC_REG_ALERT_RX_STATUS = 0 then
      some { status := status, failed_attempts := failed_attempts, attempts := 0,
             suspended := false, s := s }
    else none
  | fuel + 1, status, failed_attempts, s =>
    if status &&& TCPC_REG_ALERT_RX_STATUS = 0 then
      some { status := status, failed_attempts := failed_attempts, attempts := 0,
             suspended := false, s := s }
    else
      let (rv, s1) := tcpm_enqueue_message raw port s
      let failed_attempts := if rv ≠ 0 then failed_attempts + 1 else failed_attempts
      let (rv, status, t2) := tcpm_alert_status e port status s1.tcpc
      let failed_attempts := if rv ≠ 0 then failed_attempts + 1 else failed_attempts
      if failed_attempts ≥ MAX_ALLOW_FAILED_RX_READS then
        let t3 := (t2.emit (.pd_set_suspend port 1)).emit (.pd_deferred_resume port)
        some { status := status, failed_attempts := failed_attempts, attempts := 1,
               suspended := true, s := { s1 with tcpc := t3 } }
      else
        (rx_drain e raw port fuel status failed_attempts { s1 with tcpc := t2 }).map
          (fun d => { d with attempts := d.attempts + 1 })

/-- The handler from the end of the RX-drain loop to the reset probe (lines
917-946): the event set `pd_event` aggregated so far and the state. -/
def alert_dispatch (e : Env) (port : Nat) (status alert_ext : Nat) (t : Tcpc) : Nat × Tcpc :=
  let t1 := if status ≠ 0 then (tcpc_write16 e port TCPC_REG_ALERT status t).2 else t
  let pd_event := 0
  let pd_event :=
    if status &&& TCPC_REG_ALERT_CC_STATUS ≠ 0 then pd_event ||| PD_EVENT_CC else pd_event
  let r2 : Nat × Tcpc :=
    if status &&& TCPC_REG_ALERT_POWER_STATUS ≠ 0 then
      let (_, reg, ta) := tcpci_tcpm_get_power_status e port 0 t1
      let vbus : Int := if reg &&& TCPC_REG_POWER_STATUS_VBUS_PRES ≠ 0 then 1 else 0
      let tb : Tcpc := { ta with tcpc_vbus := setAt ta.tcpc_vbus port vbus }
      if e.cfg.vbus_detect_tcpc ∧ e.cfg.usb_charger then
        (pd_event ||| TASK_EVENT_WAKE, tb.emit (.usb_charger_vbus_change port vbus.toNat))
      else (pd_event, tb)
    else (pd_event, t1)
  let r3 : Nat × Tcpc :=
    if status &&& TCPC_REG_ALERT_RX_HARD_RST ≠ 0 then
      (r2.1 ||| TASK_EVENT_WAKE, r2.2.emit (.pd_execute_hard_reset port))
    else r2
  let t4 :=
    if e.cfg.fast_role_swap ∧ alert_ext &&& TCPC_REG_ALERT_EXT_SNK_FRS ≠ 0 then
      r3.2.emit (.pd_got_frs_signal port)
    else r3.2
  (r3.1, t4)

/-- The event set `pd_event` that `tcpci_tcpc_alert` has aggregated when it
reaches its last statement, and the state there (lines 917-957). -/
def alert_events (e : Env) (port : Nat) (status alert_ext : Nat) (t : Tcpc) : Nat × Tcpc :=
  let (pd_event, t4) := alert_dispatch e port status alert_ext t
  if e.cfg.low_power then (pd_event, t4)
  else
    let (reset, t5) := register_mask_reset e port t4
    (if reset ≠ 0 then pd_event ||| PD_EVENT_TCPC_RESET else pd_event, t5)

/-- The handler from the end of the RX-drain loop on (lines 917-968). -/
def alert_finish (e : Env) (port : Nat) (status alert_ext : Nat) (t : Tcpc) : Tcpc :=
  let (pd_event, t1) := alert_events e port status alert_ext t
  if pd_event ≠ 0 then t1.emit (.task_set_event port pd_event) else t1

/-- The handler up to the RX-drain loop (lines 862-892): `status`, `alert_ext`
and the state. -/
def alert_begin (e : Env) (port : Nat) (t : Tcpc) : Nat × Nat × Tcpc :=
  let (_, status, t1) := tcpm_alert_status e port 0 t
  let r2 : Nat × Tcpc :=
    if status &&& TCPC_REG_ALERT_ALERT_EXT ≠ 0 then
      let (_, alert_ext, ta) := tcpm_alert_ext_status e port 0 t1
      (alert_ext, ta)
    else (0, t1)
  let t3 :=
    if status &&& TCPC_REG_ALERT_FAULT ≠ 0 then
      let (rv, fault, ta) := tcpci_get_fault e port 0 r2.2
      if rv = EC_SUCCESS ∧ tcpci_handle_fault port fault = EC_SUCCESS then
        (tcpci_clear_fault e port fault ta).2
      else ta
    else r2.2
  let t4 :=
    if status &&& TCPC_REG_ALERT_TX_COMPLETE ≠ 0 then
      t3.emit (.pd_transmit_complete port
        (if status &&& TCPC_REG_ALERT_TX_SUCCESS ≠ 0 then TCPC_TX_COMPLETE_SUCCESS
          else TCPC_TX_COMPLETE_FAILED))
    else t3
  (status, r2.1, t4)

/-- `tcpci_tcpc_alert(port)`, with `fuel` iterations allowed to the RX-drain
loop (`none` when they are used up). -/
def tcpci_tcpc_alert (e : Env) (raw : RawRead) (fuel : Nat) (port : Nat) (s : State) :
    Option State :=
  let (status, alert_ext, t1) := alert_begin e port s.tcpc
  match rx_drain e raw port fuel status 0 { s with tcpc := t1 } with
  | none => none
  | some d =>
    if d.suspended then some d.s
    else some { d.s with tcpc := alert_finish e port d.status alert_ext d.s.tcpc }

/-- Whether the effect is an event posted to the PD task. -/
def Access.isEvent : Access → Bool
  | .task_set_event _ _ => true
  | _ => false

/-- A scripted chip for the alert handler. The k-th read of ALERT gives the
k-th entry of `alerts` (`dflt` when the script is over); ALERT_MASK and
POWER_STATUS_MASK read `alert_mask` and `power_status_mask`; the RX byte count
reads 3 (a message without payload) with return code `rx_rv`; everything else
succeeds and reads zero. -/
def alertChip (alerts : List Nat) (dflt alert_mask power_status_mask : Nat) (rx_rv : Int) :
    Chip :=
  fun log =>
    match log.getLast? with
    | some (.read16 p reg) =>
      if reg = TCPC_REG_ALERT then
        ⟨0, [alerts.getD ((log.filter (fun a => a == .read16 p TCPC_REG_ALERT)).length - 1) dflt]⟩
      else if reg = TCPC_REG_ALERT_MASK then ⟨0, [alert_mask]⟩
      else ⟨0, [0]⟩
    | some (.read8 _ reg) =>
      if reg = TCPC_REG_RX_BYTE_CNT then ⟨rx_rv, [3]⟩
      else if reg = TCPC_REG_POWER_STATUS_MASK then ⟨0, [power_status_mask]⟩
      else ⟨0, [0]⟩
    | _ => ⟨0, []⟩

/-- An environment around `alertChip` on a v1.0 board without low-power mode. -/
def alertEnv (alerts : List Nat) (dflt alert_mask power_status_mask : Nat) (rx_rv : Int) :
    Env :=
  { cfg := plainConfig, chip := alertChip alerts dflt alert_mask power_status_mask rx_rv,
    pd_get_polarity := fun _ => .POLARITY_NONE }

/-! ## Helpers for statements about traces -/

/-- The register a bus transfer addresses, when it names one. -/
def Access.reg? : Access → Option Nat
  | .read8 _ reg => some reg
  | .read16 _ reg => some reg
  | .write8 _ reg _ => some reg
  | .write16 _ reg _ => some reg
  | .read_block _ reg _ => some reg
  | .write_block _ reg _ => some reg
  | .xfer _ out _ _ => out.head?
  | _ => none

/-- A chip on which every transfer succeeds and reads zero. -/
def okChip : Chip :=
  fun _ => ⟨0, [0]⟩

/-- An environment around `okChip`; `v2` selects the TCPCI v2.0 framing and
`sop` SOP' decoding. -/
def okEnv (v2 sop : Bool) : Env :=
  { cfg := { low_power := false, decode_sop := sop, tcpci_v2_0 := fun _ => v2 },
    chip := okChip, pd_get_polarity := fun _ => .POLARITY_NONE }

/-- A raw read that posts no event to the PD task: what it adds to the trace
holds no `task_set_event`. -/
def RawQuiet (raw : RawRead) (port : Nat) : Prop :=
  ∀ (m : cached_tcpm_message) (t : Tcpc),
    ∃ suf, (raw port m t).2.2.log = t.log ++ suf ∧ ∀ a ∈ suf, a.isEvent = false

/-- A raw read that fails with code 1 after one read of the RX byte count. -/
def failingRaw : RawRead :=
  fun port m t => (1, m, t.emit (.read8 port TCPC_REG_RX_BYTE_CNT))

/-! ## Sequences of RX-enable and VCONN commands -/

/-- One call of the two operations that share the RX-detect shadows. -/
inductive RxOp where
  | set_rx_enable (port : Nat) (enable : Int)
  | set_vconn (port : Nat) (enable : Int)

/-- Run one call on the driver state; the return code is dropped. -/
def RxOp.run (e : Env) : RxOp → Tcpc → Tcpc
  | .set_rx_enable port enable, t => (tcpci_tcpm_set_rx_enable e port enable t).2
  | .set_vconn port enable, t => (tcpci_tcpm_set_vconn e port enable t).2

/-- Run a sequence of calls, first to last. -/
def runRxOps (e : Env) (ops : List RxOp) (t : Tcpc) : Tcpc :=
  ops.foldl (fun t op => op.run e t) t

/-- The `enable` argument of each `set_rx_enable` call on `port`, in order. -/
def rxCommands (port : Nat) (ops : List RxOp) : List Int :=
  ops.filterMap (fun op =>
    match op with
    | .set_rx_enable p enable => if p = port then some enable else none
    | .set_vconn _ _ => none)

/-- The last commanded RX-enable of `port`, if `set_rx_enable` was called. -/
def lastRx (port : Nat) (ops : List RxOp) : Option Int :=
  (rxCommands port ops).getLast?

/-- Whether some `set_rx_enable` call on `port` commanded RX on. -/
def everRxOn (port : Nat) (ops : List RxOp) : Bool :=
  (rxCommands port ops).any (fun enable => enable != 0)

/-! ## Flash write-protect range (src/common/flash_commands.c, lines 311-350) -/

/-- Modelled from the spec: the per-bank protection flag "PERSISTENT"
(`FLASH_PROTECT_PERSISTENT` of the absent flash header). -/
def FLASH_PROTECT_PERSISTENT : Nat := 0x01

/-- Modelled from the spec: the per-bank protection flag "UNTIL_REBOOT"
(`FLASH_PROTECT_UNTIL_REBOOT` of the absent flash header). -/
def FLASH_PROTECT_UNTIL_REBOOT : Nat := 0x02

/-- Modelled from the spec: `EC_RES_SUCCESS`, the host-command success code. -/
def EC_RES_SUCCESS : Int := 0

/-- What the flash module tells the command: `flash_get_size()`,
`flash_get_protect_block_size()` and the array of `flash_get_protect_array()`,
one `uint8_t` of flags per bank. -/
structure Flash where
  size : Int
  protect_block_size : Int
  protect_array : List Nat

/-- `struct ec_response_flash_wp_range`: two `uint32_t` fields. -/
structure ec_response_flash_wp_range where
  offset : Nat
  size : Nat
deriving DecidableEq, Repr

/-- `blocks[i] & (FLASH_PROTECT_PERSISTENT | FLASH_PROTECT_UNTIL_REBOOT)` as a
condition. -/
def bank_protected (blocks : List Nat) (i : Int) : Bool :=
  decide (blocks.getD i.toNat 0 &&& (FLASH_PROTECT_PERSISTENT ||| FLASH_PROTECT_UNTIL_REBOOT) ≠ 0)

/-- The `for (i = 0; i < banks; i++)` loop of `flash_command_wp_get_range` from
index `i` on, with `n` iterations left (the body changes neither `i` nor
`banks`); the result is `(min, max)` at the loop's exit. -/
def wp_range_loop (blocks : List Nat) : Nat → Int → Int → Int → Int × Int
  | 0, _, min, max => (min, max)
  | n + 1, i, min, max =>
    if min = -1 then
      if bank_protected blocks i then wp_range_loop blocks n (i + 1) i max
      else wp_range_loop blocks n (i + 1) min max
    else if i < max then
      if !bank_protected blocks i then wp_range_loop blocks n (i + 1) min (i - 1)
      else wp_range_loop blocks n (i + 1) min max
    else wp_range_loop blocks n (i + 1) min max

/-- An `int` stored into a `uint32_t` field. -/
def to_uint32 (x : Int) : Nat :=
  (x % 4294967296).toNat

/-- `flash_command_wp_get_range(args)`: the return code and the response. -/
def flash_command_wp_get_range (f : Flash) : Int × ec_response_flash_wp_range :=
  let pbsize := f.protect_block_size
  let banks := Int.tdiv f.size pbsize
  let (min, max) := wp_range_loop f.protect_array banks.toNat 0 (-1) (banks - 1)
  if min = -1 then
    (EC_RES_SUCCESS, { offset := 0, size := 0 })
  else
    (EC_RES_SUCCESS,
      { offset := to_uint32 (min * pbsize), size := to_uint32 ((max - min + 1) * pbsize) })

/-! # Theorems -/

theorem setAt_same {α : Type} (f : Nat → α) (i : Nat) (v : α) : setAt f i v i = v := by
  simp [setAt]

theorem setAt_other {α : Type} (f : Nat → α) (i j : Nat) (v : α) (h : j ≠ i) :
    setAt f i v j = f j := by
  simp [setAt, h]

theorem sub32_self (a : Nat) : sub32 a a = 0 := by
  simp only [sub32]
  omega

theorem mask_eq_mod (x : Nat) : x &&& CACHE_DEPTH_MASK = x % 4 :=
  Nat.and_pow_two_sub_one_eq_mod x 2

theorem wf_boot : queue.boot.wf := by
  simp [queue.wf, queue.boot, sub32, CACHE_DEPTH]

theorem enqueue_other (raw : RawRead) (p port : Nat) (s : State) (h : p ≠ port) :
    ((tcpm_enqueue_message raw p s).2).cached_messages port = s.cached_messages port := by
  unfold tcpm_enqueue_message
  simp only
  split
  · rfl
  · split <;> simp [setAt_other _ _ _ _ (Ne.symm h)]

theorem dequeue_other (p port : Nat) (pl : List Nat) (hd : Nat) (s : State) (h : p ≠ port) :
    ((tcpm_dequeue_message p pl hd s).2.2.2).cached_messages port = s.cached_messages port := by
  unfold tcpm_dequeue_message
  simp only
  split
  · rfl
  · simp [setAt_other _ _ _ _ (Ne.symm h)]

theorem clear_other (p port : Nat) (s : State) (h : p ≠ port) :
    (tcpm_clear_pending_messages p s).cached_messages port = s.cached_messages port := by
  simp [tcpm_clear_pending_messages, setAt_other _ _ _ _ (Ne.symm h)]

theorem next_wf (op : QueueOp) (s : State) (port : Nat)
    (h : (s.cached_messages port).wf) : ((op.next s).cached_messages port).wf := by
  cases op with
  | enqueue raw p =>
    by_cases hp : p = port
    · subst hp
      simp only [QueueOp.next, tcpm_enqueue_message]
      split
      · exact h
      · rename_i hfull
        obtain ⟨h1, h2, h3⟩ := h
        split
        · simp only [setAt_same, queue.wf]
          exact ⟨h1, h2, h3⟩
        · simp only [setAt_same, queue.wf]
          simp only [sub32, CACHE_DEPTH] at *
          refine ⟨by omega, h2, by omega⟩
    · simp only [QueueOp.next]
      rw [enqueue_other raw p port s hp]
      exact h
  | dequeue p pl hd =>
    by_cases hp : p = port
    · subst hp
      simp only [QueueOp.next, tcpm_dequeue_message, tcpm_has_pending_message]
      split
      · exact h
      · rename_i hne
        obtain ⟨h1, h2, h3⟩ := h
        simp only [setAt_same, queue.wf]
        simp only [sub32, CACHE_DEPTH] at *
        simp at hne
        refine ⟨h1, by omega, by omega⟩
    · simp only [QueueOp.next]
      rw [dequeue_other p port pl hd s hp]
      exact h
  | clear p =>
    by_cases hp : p = port
    · subst hp
      obtain ⟨h1, h2, h3⟩ := h
      simp only [QueueOp.next, tcpm_clear_pending_messages, setAt_same, queue.wf]
      simp only [sub32, CACHE_DEPTH] at *
      refine ⟨h1, h1, by omega⟩
    · simp only [QueueOp.next]
      rw [clear_other p port s hp]
      exact h

theorem runOps_wf (ops : List QueueOp) (s : State) (port : Nat)
    (h : (s.cached_messages port).wf) : ((runOps ops s).cached_messages port).wf := by
  induction ops generalizing s with
  | nil => exact h
  | cons op ops ih => exact ih (op.next s) (next_wf op s port h)

/-- C1: from the zero-initialised rings, after any finite sequence of enqueue
(with any raw read), dequeue and clear calls on any ports, the 32-bit difference
`head - tail` of every port is at most `CACHE_DEPTH` (and, being reduced modulo
2^32, at least 0). -/
theorem C1_head_minus_tail_bounded (ops : List QueueOp) (port : Nat) :
    0 ≤ sub32 ((runOps ops State.boot).cached_messages port).head
          ((runOps ops State.boot).cached_messages port).tail ∧
    sub32 ((runOps ops State.boot).cached_messages port).head
          ((runOps ops State.boot).cached_messages port).tail ≤ CACHE_DEPTH :=
  ⟨Nat.zero_le _, (runOps_wf ops State.boot port wf_boot).2.2⟩

theorem pendingFrom_update_outside (buffer : Nat → cached_tcpm_message)
    (m : cached_tcpm_message) (head : Nat) (n : Nat) :
    ∀ tail : Nat, tail < 4294967296 → n ≤ sub32 head tail → sub32 head tail < 4 →
      pendingFrom (setAt buffer (head % 4) m) tail n = pendingFrom buffer tail n := by
  induction n with
  | zero => intro tail _ _ _; rfl
  | succ n ih =>
    intro tail ht hn hd
    simp only [pendingFrom, mask_eq_mod]
    have hne : tail % 4 ≠ head % 4 := by
      simp only [sub32] at hn hd
      omega
    rw [setAt_other _ _ _ _ hne]
    rw [ih ((tail + 1) % 4294967296) (by omega)
      (by simp only [sub32] at hn hd ⊢; omega) (by simp only [sub32] at hn hd ⊢; omega)]

theorem pendingFrom_snoc (buffer : Nat → cached_tcpm_message) (n : Nat) :
    ∀ tail : Nat, pendingFrom buffer tail (n + 1) =
      pendingFrom buffer tail n ++ [buffer (((tail + n) % 4294967296) % 4)] := by
  induction n with
  | zero =>
    intro tail
    have h0 : tail % 4294967296 % 4 = tail % 4 := by omega
    simp [pendingFrom, mask_eq_mod, h0]
  | succ n ih =>
    intro tail
    have hi : ((tail + 1) % 4294967296 + n) % 4294967296 % 4 =
        (tail + (n + 1)) % 4294967296 % 4 := by omega
    rw [pendingFrom, ih ((tail + 1) % 4294967296), hi]
    simp [pendingFrom]

theorem fifo_step_eq (port : Nat) (op : QueueOp) (s : State)
    (hwf : (s.cached_messages port).wf) (hc : op.isClear = false) :
    (s.cached_messages port).pending ++ op.stored port s =
      op.fetched port s ++ ((op.next s).cached_messages port).pending := by
  cases op with
  | clear p => simp [QueueOp.isClear] at hc
  | enqueue raw p =>
    by_cases hp : p = port
    · subst hp
      obtain ⟨h1, h2, h3⟩ := hwf
      simp only [QueueOp.stored, QueueOp.fetched, QueueOp.next, tcpm_enqueue_message,
        List.nil_append, true_and, mask_eq_mod]
      by_cases hfull : sub32 (s.cached_messages p).head (s.cached_messages p).tail = CACHE_DEPTH
      · simp [hfull, EC_ERROR_OVERFLOW, EC_SUCCESS]
      · simp only [hfull, if_false]
        have hlt : sub32 (s.cached_messages p).head (s.cached_messages p).tail < 4 := by
          simp only [CACHE_DEPTH] at h3 hfull
          omega
        by_cases hrv : (raw p cached_tcpm_message.zero s.tcpc).1 = 0
        · simp only [hrv, ne_eq, not_true_eq_false, if_false, EC_SUCCESS, if_true,
            setAt_same, queue.pending]
          have hsub : sub32 (((s.cached_messages p).head + 1) % 4294967296)
              (s.cached_messages p).tail =
              sub32 (s.cached_messages p).head (s.cached_messages p).tail + 1 := by
            simp only [sub32] at hlt ⊢
            omega
          rw [hsub, pendingFrom_snoc]
          simp only [setAt]
          have hidx : ((s.cached_messages p).tail +
              sub32 (s.cached_messages p).head (s.cached_messages p).tail) % 4294967296 % 4 =
              (s.cached_messages p).head % 4 := by
            simp only [sub32] at hlt ⊢
            omega
          rw [if_pos hidx]
          rw [pendingFrom_update_outside _ _ _ _ _ h2 (Nat.le_refl _) hlt]
        · simp only [hrv, ne_eq, not_false_eq_true, if_true, setAt_same,
            queue.pending, List.append_nil]
          have hne : ¬ ((raw p cached_tcpm_message.zero s.tcpc).1 = EC_SUCCESS) := hrv
          simp only [hne, if_false, List.append_nil]
          rw [pendingFrom_update_outside _ _ _ _ _ h2 (Nat.le_refl _) hlt]
    · simp only [QueueOp.stored, QueueOp.fetched, QueueOp.next, hp, false_and, if_false,
        List.append_nil, List.nil_append]
      rw [enqueue_other raw p port s hp]
  | dequeue p pl hd =>
    by_cases hp : p = port
    · subst hp
      obtain ⟨h1, h2, h3⟩ := hwf
      simp only [QueueOp.stored, QueueOp.fetched, QueueOp.next, tcpm_dequeue_message,
        tcpm_has_pending_message, List.append_nil, true_and, mask_eq_mod]
      by_cases hemp : (s.cached_messages p).head = (s.cached_messages p).tail
      · simp [hemp, EC_ERROR_BUSY, EC_SUCCESS]
      · have hb : ((s.cached_messages p).head != (s.cached_messages p).tail) = true := by
          simpa using hemp
        simp only [hb, Bool.not_true, Bool.false_eq_true, if_false, EC_SUCCESS, if_true,
          setAt_same, queue.pending, List.singleton_append]
        have hsub : sub32 (s.cached_messages p).head (s.cached_messages p).tail =
            sub32 (s.cached_messages p).head (((s.cached_messages p).tail + 1) % 4294967296) + 1 := by
          simp only [sub32]
          omega
        rw [hsub]
        simp only [pendingFrom, mask_eq_mod]
    · simp only [QueueOp.stored, QueueOp.fetched, QueueOp.next, hp, false_and, if_false,
        List.append_nil, List.nil_append]
      rw [dequeue_other p port pl hd s hp]

theorem fifo_run_eq (port : Nat) (ops : List QueueOp) :
    ∀ s : State, (s.cached_messages port).wf → (∀ op ∈ ops, op.isClear = false) →
      (s.cached_messages port).pending ++ enqueued port ops s =
        dequeued port ops s ++ ((runOps ops s).cached_messages port).pending := by
  induction ops with
  | nil => intro s _ _; simp [enqueued, dequeued, runOps]
  | cons op ops ih =>
    intro s hwf hc
    have hop : op.isClear = false := hc op (List.mem_cons_self _ _)
    have hrest : ∀ o ∈ ops, o.isClear = false := fun o ho => hc o (List.mem_cons_of_mem _ ho)
    simp only [enqueued, dequeued, runOps]
    rw [← List.append_assoc, fifo_step_eq port op s hwf hop, List.append_assoc,
      ih (op.next s) (next_wf op s port hwf) hrest, List.append_assoc]

/-- C2: for every sequence of enqueue and dequeue calls (no clear) starting
from the zero-initialised rings, whatever each raw read does, the (header,
payload) pairs returned by the successful dequeues on a port are, in order, the
first of the messages produced by the raw reads of the successful enqueues on
that port: the k-th successful dequeue returns the k-th successfully enqueued
message, and what is left over is exactly what the ring still holds. -/
theorem C2_fifo_order (port : Nat) (ops : List QueueOp)
    (hc : ∀ op ∈ ops, op.isClear = false) :
    dequeued port ops State.boot =
        (enqueued port ops State.boot).take (dequeued port ops State.boot).length ∧
      enqueued port ops State.boot =
        dequeued port ops State.boot ++
          ((runOps ops State.boot).cached_messages port).pending := by
  have h := fifo_run_eq port ops State.boot wf_boot hc
  have hb : (State.boot.cached_messages port).pending = [] := by
    show pendingFrom _ _ (sub32 0 0) = []
    rw [sub32_self]
    rfl
  rw [hb, List.nil_append] at h
  refine ⟨?_, h⟩
  rw [h, List.take_left]

/-- C2 witness: a run on port 0 with a failing raw read and an overflow in it;
three dequeues return the first three stored messages in order. -/
theorem C2_fifo_order_witness :
    (∀ op ∈ fifoDemo, op.isClear = false) ∧
      dequeued 0 fifoDemo State.boot = [sampleMsg 1, sampleMsg 3, sampleMsg 4] ∧
      enqueued 0 fifoDemo State.boot =
        [sampleMsg 1, sampleMsg 3, sampleMsg 4, sampleMsg 5, sampleMsg 6] ∧
      (dequeued 0 fifoDemo State.boot =
          (enqueued 0 fifoDemo State.boot).take (dequeued 0 fifoDemo State.boot).length ∧
        enqueued 0 fifoDemo State.boot =
          dequeued 0 fifoDemo State.boot ++
            ((runOps fifoDemo State.boot).cached_messages 0).pending) :=
  ⟨by simp [fifoDemo, QueueOp.isClear], by decide, by decide,
    C2_fifo_order 0 fifoDemo (by simp [fifoDemo, QueueOp.isClear])⟩

theorem enqueue_counters (raw : RawRead) (port : Nat) (s : State) :
    ((tcpm_enqueue_message raw port s).1 = EC_SUCCESS →
        ((tcpm_enqueue_message raw port s).2.cached_messages port).head =
          ((s.cached_messages port).head + 1) % 4294967296 ∧
        sub32 (s.cached_messages port).head (s.cached_messages port).tail ≠ CACHE_DEPTH) ∧
      ((tcpm_enqueue_message raw port s).2.cached_messages port).tail =
        (s.cached_messages port).tail := by
  unfold tcpm_enqueue_message
  simp only
  split
  · simp [EC_ERROR_OVERFLOW, EC_SUCCESS]
  · rename_i hfull
    split
    · rename_i hrv
      simp only [setAt_same, and_true]
      intro h
      exact absurd h hrv
    · simp only [setAt_same, and_true]
      intro _
      exact ⟨trivial, hfull⟩

theorem dequeue_counters (port : Nat) (pl : List Nat) (hd : Nat) (s : State) :
    ((tcpm_dequeue_message port pl hd s).2.2.2.cached_messages port).head =
        (s.cached_messages port).head ∧
      ((tcpm_dequeue_message port pl hd s).2.2.2.cached_messages port).tail =
        (if (s.cached_messages port).head = (s.cached_messages port).tail
          then (s.cached_messages port).tail
          else ((s.cached_messages port).tail + 1) % 4294967296) := by
  unfold tcpm_dequeue_message tcpm_has_pending_message
  by_cases h : (s.cached_messages port).head = (s.cached_messages port).tail
  · simp [h]
  · simp [h, setAt_same]

theorem enqueueAll_four (r1 r2 r3 r4 : RawRead) (port : Nat) (s : State)
    (hok : (enqueueAll [r1, r2, r3, r4] port s).1 = [EC_SUCCESS, EC_SUCCESS, EC_SUCCESS, EC_SUCCESS]) :
    (((enqueueAll [r1, r2, r3, r4] port s).2).cached_messages port).head =
        ((((((s.cached_messages port).head + 1) % 4294967296 + 1) % 4294967296 + 1)
          % 4294967296) + 1) % 4294967296 ∧
      (((enqueueAll [r1, r2, r3, r4] port s).2).cached_messages port).tail =
        (s.cached_messages port).tail := by
  simp only [enqueueAll, List.cons.injEq, and_true] at hok ⊢
  obtain ⟨h1, h2, h3, h4⟩ := hok
  have e1 := enqueue_counters r1 port s
  have e2 := enqueue_counters r2 port (tcpm_enqueue_message r1 port s).2
  have e3 := enqueue_counters r3 port (tcpm_enqueue_message r2 port (tcpm_enqueue_message r1 port s).2).2
  have e4 := enqueue_counters r4 port (tcpm_enqueue_message r3 port
    (tcpm_enqueue_message r2 port (tcpm_enqueue_message r1 port s).2).2).2
  rw [(e4.1 h4).1, (e3.1 h3).1, (e2.1 h2).1, (e1.1 h1).1, e4.2, e3.2, e2.2, e1.2]
  exact ⟨rfl, rfl⟩

/-- C3: when the ring of a port is full (`head - tail = CACHE_DEPTH`),
`tcpm_enqueue_message` returns `EC_ERROR_OVERFLOW` and the whole state, trace
included, is unchanged: the raw read is not called, there is no chip access,
and head, tail and every stored message stay as they were. In particular, after
four successful enqueues on an empty ring a fifth enqueue returns OVERFLOW and
leaves head (and everything else) as it was. -/
theorem C3_enqueue_full_overflow (raw r1 r2 r3 r4 : RawRead) (port : Nat) (s : State) :
    (sub32 (s.cached_messages port).head (s.cached_messages port).tail = CACHE_DEPTH →
        tcpm_enqueue_message raw port s = (EC_ERROR_OVERFLOW, s)) ∧
      ((s.cached_messages port).head = (s.cached_messages port).tail →
        (enqueueAll [r1, r2, r3, r4] port s).1 =
          [EC_SUCCESS, EC_SUCCESS, EC_SUCCESS, EC_SUCCESS] →
        tcpm_enqueue_message raw port (enqueueAll [r1, r2, r3, r4] port s).2 =
          (EC_ERROR_OVERFLOW, (enqueueAll [r1, r2, r3, r4] port s).2)) := by
  have hfull : ∀ s : State,
      sub32 (s.cached_messages port).head (s.cached_messages port).tail = CACHE_DEPTH →
        tcpm_enqueue_message raw port s = (EC_ERROR_OVERFLOW, s) := by
    intro s h
    simp [tcpm_enqueue_message, h]
  refine ⟨hfull s, ?_⟩
  intro hemp hok
  apply hfull
  obtain ⟨hh, ht⟩ := enqueueAll_four r1 r2 r3 r4 port s hok
  rw [hh, ht, hemp]
  simp only [sub32, CACHE_DEPTH]
  omega

/-- C3 witness: a ring holding four messages rejects a fifth, both through the
fullness test and as the fifth enqueue after four successes from boot. -/
theorem C3_enqueue_full_overflow_witness :
    sub32 ((enqueueAll fourRaws 0 State.boot).2.cached_messages 0).head
        ((enqueueAll fourRaws 0 State.boot).2.cached_messages 0).tail = CACHE_DEPTH ∧
      tcpm_enqueue_message (constRaw 0 (sampleMsg 5)) 0 (enqueueAll fourRaws 0 State.boot).2 =
        (EC_ERROR_OVERFLOW, (enqueueAll fourRaws 0 State.boot).2) ∧
      (State.boot.cached_messages 0).head = (State.boot.cached_messages 0).tail ∧
      (enqueueAll fourRaws 0 State.boot).1 = [EC_SUCCESS, EC_SUCCESS, EC_SUCCESS, EC_SUCCESS] ∧
      tcpm_enqueue_message (constRaw 0 (sampleMsg 5)) 0 (enqueueAll fourRaws 0 State.boot).2 =
        (EC_ERROR_OVERFLOW, (enqueueAll fourRaws 0 State.boot).2) :=
  ⟨by decide,
    (C3_enqueue_full_overflow (constRaw 0 (sampleMsg 5)) (constRaw 0 (sampleMsg 1))
      (constRaw 0 (sampleMsg 2)) (constRaw 0 (sampleMsg 3)) (constRaw 0 (sampleMsg 4))
      0 (enqueueAll fourRaws 0 State.boot).2).1 (by decide),
    by decide, by decide,
    (C3_enqueue_full_overflow (constRaw 0 (sampleMsg 5)) (constRaw 0 (sampleMsg 1))
      (constRaw 0 (sampleMsg 2)) (constRaw 0 (sampleMsg 3)) (constRaw 0 (sampleMsg 4))
      0 State.boot).2 (by decide) (by decide)⟩

/-- C4: when the ring of a port is empty (`head = tail`), `tcpm_dequeue_message`
returns `EC_ERROR_BUSY` and leaves the state (head, tail, slots, trace) and the
caller's header and payload buffers as they were. In particular, after four
successful enqueues on an empty ring followed by four dequeues, a fifth dequeue
returns BUSY. -/
theorem C4_dequeue_empty_busy (r1 r2 r3 r4 : RawRead) (port : Nat) (payload : List Nat)
    (header : Nat) (pl0 : List Nat) (hd0 : Nat) (s : State) :
    ((s.cached_messages port).head = (s.cached_messages port).tail →
        tcpm_dequeue_message port payload header s = (EC_ERROR_BUSY, payload, header, s)) ∧
      ((s.cached_messages port).head = (s.cached_messages port).tail →
        (enqueueAll [r1, r2, r3, r4] port s).1 =
          [EC_SUCCESS, EC_SUCCESS, EC_SUCCESS, EC_SUCCESS] →
        (dequeueN 4 port pl0 hd0 (enqueueAll [r1, r2, r3, r4] port s).2).1 =
            [EC_SUCCESS, EC_SUCCESS, EC_SUCCESS, EC_SUCCESS] ∧
          tcpm_dequeue_message port payload header
              (dequeueN 4 port pl0 hd0 (enqueueAll [r1, r2, r3, r4] port s).2).2 =
            (EC_ERROR_BUSY, payload, header,
              (dequeueN 4 port pl0 hd0 (enqueueAll [r1, r2, r3, r4] port s).2).2)) := by
  have hbusy : ∀ s : State, (s.cached_messages port).head = (s.cached_messages port).tail →
      tcpm_dequeue_message port payload header s = (EC_ERROR_BUSY, payload, header, s) := by
    intro s h
    simp [tcpm_dequeue_message, tcpm_has_pending_message, h]
  have hrv : ∀ (pl : List Nat) (hd : Nat) (s : State),
      (s.cached_messages port).head ≠ (s.cached_messages port).tail →
        (tcpm_dequeue_message port pl hd s).1 = EC_SUCCESS := by
    intro pl hd s h
    simp [tcpm_dequeue_message, tcpm_has_pending_message, h]
  refine ⟨hbusy s, ?_⟩
  intro hemp hok
  obtain ⟨hh, ht⟩ := enqueueAll_four r1 r2 r3 r4 port s hok
  generalize (enqueueAll [r1, r2, r3, r4] port s).2 = s4 at hh ht ⊢
  rw [hemp] at hh
  generalize (s.cached_messages port).tail = t at hh ht
  simp only [dequeueN]
  have d1 := dequeue_counters port pl0 hd0 s4
  generalize hx1 : tcpm_dequeue_message port pl0 hd0 s4 = x1 at d1 ⊢
  have d2 := dequeue_counters port x1.2.1 x1.2.2.1 x1.2.2.2
  generalize hx2 : tcpm_dequeue_message port x1.2.1 x1.2.2.1 x1.2.2.2 = x2 at d2 ⊢
  have d3 := dequeue_counters port x2.2.1 x2.2.2.1 x2.2.2.2
  generalize hx3 : tcpm_dequeue_message port x2.2.1 x2.2.2.1 x2.2.2.2 = x3 at d3 ⊢
  have d4 := dequeue_counters port x3.2.1 x3.2.2.1 x3.2.2.2
  generalize hx4 : tcpm_dequeue_message port x3.2.1 x3.2.2.1 x3.2.2.2 = x4 at d4 ⊢
  have n1 : (s4.cached_messages port).head ≠ (s4.cached_messages port).tail := by omega
  rw [if_neg n1] at d1
  have n2 : (x1.2.2.2.cached_messages port).head ≠ (x1.2.2.2.cached_messages port).tail := by
    omega
  rw [if_neg n2] at d2
  have n3 : (x2.2.2.2.cached_messages port).head ≠ (x2.2.2.2.cached_messages port).tail := by
    omega
  rw [if_neg n3] at d3
  have n4 : (x3.2.2.2.cached_messages port).head ≠ (x3.2.2.2.cached_messages port).tail := by
    omega
  rw [if_neg n4] at d4
  refine ⟨?_, hbusy _ (by omega)⟩
  have v1 := hrv pl0 hd0 s4 n1
  have v2 := hrv x1.2.1 x1.2.2.1 x1.2.2.2 n2
  have v3 := hrv x2.2.1 x2.2.2.1 x2.2.2.2 n3
  have v4 := hrv x3.2.1 x3.2.2.1 x3.2.2.2 n4
  rw [hx1] at v1
  rw [hx2] at v2
  rw [hx3] at v3
  rw [hx4] at v4
  rw [v1, v2, v3, v4]

/-- C4 witness: the boot ring is empty and reports BUSY; four stored messages
are handed out and the fifth dequeue reports BUSY. -/
theorem C4_dequeue_empty_busy_witness :
    (State.boot.cached_messages 0).head = (State.boot.cached_messages 0).tail ∧
      tcpm_dequeue_message 0 [7] 9 State.boot = (EC_ERROR_BUSY, [7], 9, State.boot) ∧
      (enqueueAll fourRaws 0 State.boot).1 = [EC_SUCCESS, EC_SUCCESS, EC_SUCCESS, EC_SUCCESS] ∧
      (dequeueN 4 0 [] 0 (enqueueAll fourRaws 0 State.boot).2).1 =
        [EC_SUCCESS, EC_SUCCESS, EC_SUCCESS, EC_SUCCESS] ∧
      tcpm_dequeue_message 0 [7] 9 (dequeueN 4 0 [] 0 (enqueueAll fourRaws 0 State.boot).2).2 =
        (EC_ERROR_BUSY, [7], 9, (dequeueN 4 0 [] 0 (enqueueAll fourRaws 0 State.boot).2).2) :=
  have h := C4_dequeue_empty_busy (constRaw 0 (sampleMsg 1)) (constRaw 0 (sampleMsg 2))
    (constRaw 0 (sampleMsg 3)) (constRaw 0 (sampleMsg 4)) 0 [7] 9 [] 0 State.boot
  ⟨by decide, h.1 (by decide), by decide, h.2 (by decide) (by decide)⟩

/-! ## Bus wrapper lemmas -/

theorem bus_access_chipOps (e : Env) (port : Nat) (a : Access) (t : Tcpc)
    (ha : a.isChip = true) :
    chipOps (bus_access e port a t).2.log = chipOps t.log ++ [a] := by
  unfold bus_access chipOps Tcpc.emit
  have hw : Access.isChip (.wait_exit_low_power port) = false := rfl
  have hd : Access.isChip (.device_accessed port) = false := rfl
  cases e.cfg.low_power <;> simp [List.filter_append, List.filter_cons, ha, hw, hd]

theorem bus_access_cached_pull (e : Env) (port : Nat) (a : Access) (t : Tcpc) :
    (bus_access e port a t).2.cached_pull = t.cached_pull := by
  unfold bus_access Tcpc.emit
  cases e.cfg.low_power <;> rfl

theorem bus_access_cached_rp (e : Env) (port : Nat) (a : Access) (t : Tcpc) :
    (bus_access e port a t).2.cached_rp = t.cached_rp := by
  unfold bus_access Tcpc.emit
  cases e.cfg.low_power <;> rfl

/-- C5: for every environment (any polarity, any chip, so whether or not the
ROLE_CTRL write succeeds), every port and every pull value,
`tcpci_get_cached_pull(port)` right after `tcpci_tcpm_set_cc(port, pull)`
returns `pull`. -/
theorem C5_set_cc_then_get_cached_pull (e : Env) (port : Nat) (pull : Int) (t : Tcpc) :
    tcpci_get_cached_pull port (tcpci_tcpm_set_cc e port pull t).2 = pull := by
  simp only [tcpci_get_cached_pull, tcpci_tcpm_set_cc, tcpc_write, bus_access_cached_pull,
    tcpci_set_cached_pull, setAt_same]

theorem role_ctrl_fields (rp c1 c2 : Int) (hrp : 0 ≤ rp ∧ rp ≤ 3) (h1 : 0 ≤ c1 ∧ c1 ≤ 3)
    (h2 : 0 ≤ c2 ∧ c2 ≤ 3) :
    wire8 (TCPC_REG_ROLE_CTRL_SET 0 rp c1 c2) &&& TCPC_REG_ROLE_CTRL_DRP_MASK = 0 ∧
      (TCPC_REG_ROLE_CTRL_RP (wire8 (TCPC_REG_ROLE_CTRL_SET 0 rp c1 c2)) : Int) = rp ∧
      (TCPC_REG_ROLE_CTRL_CC1 (wire8 (TCPC_REG_ROLE_CTRL_SET 0 rp c1 c2)) : Int) = c1 ∧
      (TCPC_REG_ROLE_CTRL_CC2 (wire8 (TCPC_REG_ROLE_CTRL_SET 0 rp c1 c2)) : Int) = c2 := by
  obtain ⟨a1, a2⟩ := hrp
  obtain ⟨b1, b2⟩ := h1
  obtain ⟨d1, d2⟩ := h2
  interval_cases rp <;> interval_cases c1 <;> interval_cases c2 <;> decide

theorem set_cc_chipOps (e : Env) (port : Nat) (pull : Int) (t : Tcpc) :
    chipOps (tcpci_tcpm_set_cc e port pull t).2.log =
      chipOps t.log ++ [.write8 port TCPC_REG_ROLE_CTRL
        (wire8 (TCPC_REG_ROLE_CTRL_SET 0 (t.cached_rp port)
          (if e.pd_get_polarity port = .POLARITY_CC2 then TYPEC_CC_OPEN else pull)
          (if e.pd_get_polarity port = .POLARITY_CC1 then TYPEC_CC_OPEN else pull)))] := by
  simp only [tcpci_tcpm_set_cc, tcpc_write]
  rw [bus_access_chipOps _ _ _ _ (by rfl)]
  cases e.pd_get_polarity port <;> simp [tcpci_set_cached_pull, tcpci_get_cached_rp]

/-- C6: `tcpci_tcpm_select_rp_value` only records `cached_rp` (success, trace
untouched), and `tcpci_tcpm_set_cc(port, pull)` then makes exactly one chip
access, a write to ROLE_CTRL, whose value has the DRP bit clear, the Rp field
equal to `cached_rp`, and the CC fields chosen by `pd_get_polarity(port)`:
CC1 = pull, CC2 = open for CC1; CC1 = open, CC2 = pull for CC2; CC1 = CC2 = pull
for none. Pull and Rp range over the values of their two-bit enumerations. -/
theorem C6_set_cc_role_ctrl_write (e : Env) (port : Nat) (pull : Int) (t : Tcpc)
    (hrp : 0 ≤ t.cached_rp port ∧ t.cached_rp port ≤ 3) (hpull : 0 ≤ pull ∧ pull ≤ 3) :
    (∀ (rp : Int) (t0 : Tcpc),
        (tcpci_tcpm_select_rp_value port rp t0).1 = EC_SUCCESS ∧
        (tcpci_tcpm_select_rp_value port rp t0).2.log = t0.log ∧
        (tcpci_tcpm_select_rp_value port rp t0).2.cached_rp port = rp) ∧
      ∃ v : Nat,
        chipOps (tcpci_tcpm_set_cc e port pull t).2.log =
          chipOps t.log ++ [.write8 port TCPC_REG_ROLE_CTRL v] ∧
        v &&& TCPC_REG_ROLE_CTRL_DRP_MASK = 0 ∧
        (TCPC_REG_ROLE_CTRL_RP v : Int) = t.cached_rp port ∧
        (e.pd_get_polarity port = .POLARITY_CC1 →
          (TCPC_REG_ROLE_CTRL_CC1 v : Int) = pull ∧
          (TCPC_REG_ROLE_CTRL_CC2 v : Int) = TYPEC_CC_OPEN) ∧
        (e.pd_get_polarity port = .POLARITY_CC2 →
          (TCPC_REG_ROLE_CTRL_CC1 v : Int) = TYPEC_CC_OPEN ∧
          (TCPC_REG_ROLE_CTRL_CC2 v : Int) = pull) ∧
        (e.pd_get_polarity port = .POLARITY_NONE →
          (TCPC_REG_ROLE_CTRL_CC1 v : Int) = pull ∧
          (TCPC_REG_ROLE_CTRL_CC2 v : Int) = pull) := by
  refine ⟨fun rp t0 => ⟨rfl, rfl, ?_⟩, ?_⟩
  · simp [tcpci_tcpm_select_rp_value, tcpci_set_cached_rp, setAt_same]
  · have hopen : 0 ≤ TYPEC_CC_OPEN ∧ TYPEC_CC_OPEN ≤ 3 := by decide
    refine ⟨_, set_cc_chipOps e port pull t, ?_⟩
    cases hpol : e.pd_get_polarity port
    · obtain ⟨f1, f2, f3, f4⟩ := role_ctrl_fields (t.cached_rp port) pull TYPEC_CC_OPEN hrp hpull hopen
      simp [f1, f2, f3, f4]
    · obtain ⟨f1, f2, f3, f4⟩ := role_ctrl_fields (t.cached_rp port) TYPEC_CC_OPEN pull hrp hopen hpull
      simp [f1, f2, f3, f4]
    all_goals
      obtain ⟨f1, f2, f3, f4⟩ := role_ctrl_fields (t.cached_rp port) pull pull hrp hpull hpull
      simp [f1, f2, f3, f4]

/-- C6 witness: with Rp = 1.5 A recorded and polarity CC2, `set_cc(Rd)` writes
ROLE_CTRL = 0x1b (Rp field 1, CC2 = Rd, CC1 = open) and nothing else. -/
theorem C6_set_cc_role_ctrl_write_witness :
    (0 ≤ (tcpci_tcpm_select_rp_value 0 1 Tcpc.boot).2.cached_rp 0 ∧
        (tcpci_tcpm_select_rp_value 0 1 Tcpc.boot).2.cached_rp 0 ≤ 3) ∧
      (0 ≤ TYPEC_CC_RD ∧ TYPEC_CC_RD ≤ 3) ∧
      (tcpci_tcpm_set_cc (fixedEnv 0 0 .POLARITY_CC2) 0 TYPEC_CC_RD
          (tcpci_tcpm_select_rp_value 0 1 Tcpc.boot).2).2.log =
        [.write8 0 TCPC_REG_ROLE_CTRL 0x1b] ∧
      ∃ v : Nat,
        chipOps (tcpci_tcpm_set_cc (fixedEnv 0 0 .POLARITY_CC2) 0 TYPEC_CC_RD
            (tcpci_tcpm_select_rp_value 0 1 Tcpc.boot).2).2.log =
          chipOps (tcpci_tcpm_select_rp_value 0 1 Tcpc.boot).2.log ++
            [.write8 0 TCPC_REG_ROLE_CTRL v] ∧
        v &&& TCPC_REG_ROLE_CTRL_DRP_MASK = 0 ∧
        (TCPC_REG_ROLE_CTRL_RP v : Int) = 1 ∧
        (TCPC_REG_ROLE_CTRL_CC1 v : Int) = TYPEC_CC_OPEN ∧
        (TCPC_REG_ROLE_CTRL_CC2 v : Int) = TYPEC_CC_RD :=
  ⟨by decide, by decide, by decide,
    (C6_set_cc_role_ctrl_write (fixedEnv 0 0 .POLARITY_CC2) 0 TYPEC_CC_RD
      (tcpci_tcpm_select_rp_value 0 1 Tcpc.boot).2 (by decide) (by decide)).2.imp
      (fun _ h => ⟨h.1, h.2.1, h.2.2.1, h.2.2.2.2.1 rfl⟩)⟩

theorem cc_status_cc1_lt (st : Nat) : TCPC_REG_CC_STATUS_CC1 st < 4 := by
  have h : st &&& 3 = st % 4 := Nat.and_pow_two_sub_one_eq_mod st 2
  simp only [TCPC_REG_CC_STATUS_CC1, h]
  omega

theorem cc_status_cc2_lt (st : Nat) : TCPC_REG_CC_STATUS_CC2 st < 4 := by
  have h : st &&& 12 ≤ 12 := Nat.and_le_right
  simp only [TCPC_REG_CC_STATUS_CC2, Nat.shiftRight_eq_div_pow]
  omega

theorem cc_status_term_lt (st : Nat) : TCPC_REG_CC_STATUS_TERM st < 2 := by
  have h : st &&& 16 ≤ 16 := Nat.and_le_right
  simp only [TCPC_REG_CC_STATUS_TERM, Nat.shiftRight_eq_div_pow]
  omega

/-- C7: when both register reads of `tcpci_tcpm_get_cc` succeed, giving `role`
and `status`, each returned CC value has the line's two-bit CC_STATUS state in
its low bits and the "presenting Rd" flag in bit 2, where: with ROLE_CTRL's DRP
bit set the flag of a non-open line is CC_STATUS's ConnectResult bit (ROLE_CTRL's
CC fields play no part); with DRP clear the flag of a non-open line is 1 exactly
when ROLE_CTRL's field for that line is Rd (ConnectResult plays no part); an open
line is returned as exactly OPEN. -/
theorem C7_get_cc_present_rd (e : Env) (port : Nat) (t t1 t2 : Tcpc) (role status : Nat)
    (h1 : tcpc_read e port TCPC_REG_ROLE_CTRL 0 t = (0, role, t1))
    (h2 : tcpc_read e port TCPC_REG_CC_STATUS 0 t1 = (0, status, t2)) :
    (tcpci_tcpm_get_cc e port t).1 = EC_SUCCESS ∧
      (tcpci_tcpm_get_cc e port t).2.1 &&& 3 = TCPC_REG_CC_STATUS_CC1 status ∧
      (tcpci_tcpm_get_cc e port t).2.2.1 &&& 3 = TCPC_REG_CC_STATUS_CC2 status ∧
      (role &&& TCPC_REG_ROLE_CTRL_DRP_MASK ≠ 0 →
        (TCPC_REG_CC_STATUS_CC1 status ≠ TYPEC_CC_VOLT_OPEN →
          (tcpci_tcpm_get_cc e port t).2.1 >>> 2 = TCPC_REG_CC_STATUS_TERM status) ∧
        (TCPC_REG_CC_STATUS_CC2 status ≠ TYPEC_CC_VOLT_OPEN →
          (tcpci_tcpm_get_cc e port t).2.2.1 >>> 2 = TCPC_REG_CC_STATUS_TERM status)) ∧
      (role &&& TCPC_REG_ROLE_CTRL_DRP_MASK = 0 →
        (TCPC_REG_CC_STATUS_CC1 status ≠ TYPEC_CC_VOLT_OPEN →
          (tcpci_tcpm_get_cc e port t).2.1 >>> 2 =
            if (TCPC_REG_ROLE_CTRL_CC1 role : Int) = TYPEC_CC_RD then 1 else 0) ∧
        (TCPC_REG_CC_STATUS_CC2 status ≠ TYPEC_CC_VOLT_OPEN →
          (tcpci_tcpm_get_cc e port t).2.2.1 >>> 2 =
            if (TCPC_REG_ROLE_CTRL_CC2 role : Int) = TYPEC_CC_RD then 1 else 0)) ∧
      (TCPC_REG_CC_STATUS_CC1 status = TYPEC_CC_VOLT_OPEN →
        (tcpci_tcpm_get_cc e port t).2.1 = TYPEC_CC_VOLT_OPEN) ∧
      (TCPC_REG_CC_STATUS_CC2 status = TYPEC_CC_VOLT_OPEN →
        (tcpci_tcpm_get_cc e port t).2.2.1 = TYPEC_CC_VOLT_OPEN) := by
  have b1 := cc_status_cc1_lt status
  have b2 := cc_status_cc2_lt status
  have bt := cc_status_term_lt status
  simp only [tcpci_tcpm_get_cc, h1, h2, ne_eq, not_true_eq_false, if_false]
  generalize TCPC_REG_CC_STATUS_CC1 status = c1 at b1 ⊢
  generalize TCPC_REG_CC_STATUS_CC2 status = c2 at b2 ⊢
  generalize TCPC_REG_CC_STATUS_TERM status = term at bt ⊢
  have hrd : ∀ x : Nat, (if (x : Int) = TYPEC_CC_RD then 1 else 0) < 2 := by
    intro x
    split <;> omega
  have r1 := hrd (TCPC_REG_ROLE_CTRL_CC1 role)
  have r2 := hrd (TCPC_REG_ROLE_CTRL_CC2 role)
  generalize (if (TCPC_REG_ROLE_CTRL_CC1 role : Int) = TYPEC_CC_RD then 1 else 0) = p1 at r1 ⊢
  generalize (if (TCPC_REG_ROLE_CTRL_CC2 role : Int) = TYPEC_CC_RD then 1 else 0) = p2 at r2 ⊢
  refine ⟨rfl, ?_⟩
  by_cases hd : role &&& TCPC_REG_ROLE_CTRL_DRP_MASK = 0
  · simp only [hd, not_true_eq_false, if_false, IsEmpty.forall_iff, true_and, forall_const]
    interval_cases c1 <;> interval_cases c2 <;> interval_cases p1 <;> interval_cases p2 <;>
      decide
  · simp only [hd, not_false_eq_true, if_true, IsEmpty.forall_iff, true_and, forall_const,
      and_true]
    interval_cases c1 <;> interval_cases c2 <;> interval_cases term <;> decide

/-- C7 witness: DRP = 1, CC1 = Rp-default, CC2 = open, ConnectResult = 1 gives
cc1 = Rp-default with bit 2 set and cc2 = OPEN exactly. -/
theorem C7_get_cc_present_rd_witness :
    tcpc_read (fixedEnv 0x40 0x11 .POLARITY_NONE) 0 TCPC_REG_ROLE_CTRL 0 Tcpc.boot =
        (0, 0x40, (tcpc_read (fixedEnv 0x40 0x11 .POLARITY_NONE) 0 TCPC_REG_ROLE_CTRL 0
          Tcpc.boot).2.2) ∧
      (tcpci_tcpm_get_cc (fixedEnv 0x40 0x11 .POLARITY_NONE) 0 Tcpc.boot).2.1 =
        TYPEC_CC_VOLT_RP_DEF ∧
      (tcpci_tcpm_get_cc (fixedEnv 0x40 0x11 .POLARITY_NONE) 0 Tcpc.boot).2.2.1 =
        TYPEC_CC_VOLT_OPEN ∧
      (tcpci_tcpm_get_cc (fixedEnv 0x40 0x11 .POLARITY_NONE) 0 Tcpc.boot).2.1 &&& 3 =
        TCPC_REG_CC_STATUS_CC1 0x11 ∧
      (tcpci_tcpm_get_cc (fixedEnv 0x40 0x11 .POLARITY_NONE) 0 Tcpc.boot).2.1 >>> 2 =
        TCPC_REG_CC_STATUS_TERM 0x11 :=
  have h := C7_get_cc_present_rd (fixedEnv 0x40 0x11 .POLARITY_NONE) 0 Tcpc.boot
    (tcpc_read (fixedEnv 0x40 0x11 .POLARITY_NONE) 0 TCPC_REG_ROLE_CTRL 0 Tcpc.boot).2.2
    (tcpc_read (fixedEnv 0x40 0x11 .POLARITY_NONE) 0 TCPC_REG_CC_STATUS 0
      (tcpc_read (fixedEnv 0x40 0x11 .POLARITY_NONE) 0 TCPC_REG_ROLE_CTRL 0 Tcpc.boot).2.2).2.2
    0x40 0x11 rfl rfl
  ⟨rfl, by decide, by decide, h.2.1, (h.2.2.2.1 (by decide)).1 (by decide)⟩

/-! ## Receive path -/

theorem bus_access_eq (e : Env) (port : Nat) (a : Access) (t : Tcpc) :
    bus_access e port a t =
      (chipReply e port a t, { t with log := t.log ++ wrapped e port a }) := by
  unfold bus_access chipReply wrapped Tcpc.emit
  cases e.cfg.low_power <;> simp

theorem chipOps_wrapped (e : Env) (port : Nat) (a : Access) (h : a.isChip = true) :
    chipOps (wrapped e port a) = [a] := by
  have hw : Access.isChip (.wait_exit_low_power port) = false := rfl
  have hd : Access.isChip (.device_accessed port) = false := rfl
  unfold chipOps wrapped
  cases e.cfg.low_power <;> simp [List.filter_cons, h, hw, hd]

theorem chipOps_append (l1 l2 : List Access) : chipOps (l1 ++ l2) = chipOps l1 ++ chipOps l2 := by
  simp [chipOps]

theorem chipOps_lock (port l : Nat) : chipOps [Access.lock port l] = [] := rfl

theorem added_append (t t2 : Tcpc) (l : List Access) (h : t2.log = t.log ++ l) :
    added t t2 = l := by
  simp [added, h]

theorem chipOps_wrapped_read8 (e : Env) (port reg : Nat) :
    chipOps (wrapped e port (.read8 port reg)) = [.read8 port reg] :=
  chipOps_wrapped e port _ rfl

theorem chipOps_wrapped_read16 (e : Env) (port reg : Nat) :
    chipOps (wrapped e port (.read16 port reg)) = [.read16 port reg] :=
  chipOps_wrapped e port _ rfl

theorem chipOps_wrapped_write16 (e : Env) (port reg val : Nat) :
    chipOps (wrapped e port (.write16 port reg val)) = [.write16 port reg val] :=
  chipOps_wrapped e port _ rfl

theorem chipOps_wrapped_read_block (e : Env) (port reg size : Nat) :
    chipOps (wrapped e port (.read_block port reg size)) = [.read_block port reg size] :=
  chipOps_wrapped e port _ rfl

theorem chipOps_wrapped_xfer (e : Env) (port : Nat) (out : List Nat) (n f : Nat) :
    chipOps (wrapped e port (.xfer port out n f)) = [.xfer port out n f] :=
  chipOps_wrapped e port _ rfl

/-- C9: on every path through `tcpci_v1_0_tcpm_get_message_raw` and
`tcpci_v2_0_tcpm_get_message_raw`, for every chip behaviour and configuration,
the chip accesses the call adds to the trace end with the write of
`TCPC_REG_ALERT_RX_STATUS` to ALERT, and that is the only access among them
that writes ALERT. -/
theorem C9_rx_status_cleared_once_last (e : Env) (port : Nat) (m : cached_tcpm_message)
    (t : Tcpc) :
    ((tcpci_v1_0_tcpm_get_message_raw e port m t).2.2.log =
        t.log ++ added t (tcpci_v1_0_tcpm_get_message_raw e port m t).2.2 ∧
      (chipOps (added t (tcpci_v1_0_tcpm_get_message_raw e port m t).2.2)).getLast? =
        some (.write16 port TCPC_REG_ALERT TCPC_REG_ALERT_RX_STATUS) ∧
      (chipOps (added t (tcpci_v1_0_tcpm_get_message_raw e port m t).2.2)).countP
        Access.writesAlert = 1) ∧
    ((tcpci_v2_0_tcpm_get_message_raw e port m t).2.2.log =
        t.log ++ added t (tcpci_v2_0_tcpm_get_message_raw e port m t).2.2 ∧
      (chipOps (added t (tcpci_v2_0_tcpm_get_message_raw e port m t).2.2)).getLast? =
        some (.write16 port TCPC_REG_ALERT TCPC_REG_ALERT_RX_STATUS) ∧
      (chipOps (added t (tcpci_v2_0_tcpm_get_message_raw e port m t).2.2)).countP
        Access.writesAlert = 1) := by
  constructor
  · simp only [tcpci_v1_0_tcpm_get_message_raw, v1_0_header_and_payload, v1_0_clear, tcpc_read,
      tcpc_read16, tcpc_write16, tcpc_read_block, bus_access_eq]
    split_ifs
    all_goals simp only [added, List.append_assoc, List.drop_left, chipOps_append,
      chipOps_wrapped_read8, chipOps_wrapped_read16, chipOps_wrapped_write16,
      chipOps_wrapped_read_block]
    all_goals simp [Access.writesAlert, TCPC_REG_ALERT, TCPC_REG_RX_BYTE_CNT,
      TCPC_REG_RX_BUF_FRAME_TYPE, TCPC_REG_RX_HDR, TCPC_REG_RX_DATA]
  · simp only [tcpci_v2_0_tcpm_get_message_raw, v2_0_clear, tcpc_xfer_unlocked, tcpc_lock,
      tcpc_write16, bus_access_eq, Tcpc.emit]
    split_ifs
    all_goals simp only [added, List.append_assoc, List.drop_left, chipOps_append,
      chipOps_wrapped_xfer, chipOps_wrapped_write16, chipOps_lock]
    all_goals simp [Access.writesAlert, TCPC_REG_ALERT, TCPC_REG_RX_BUFFER]

theorem load8_lt (r : Reply) : load8 0 r < 256 := by
  unfold load8
  split
  · omega
  · split <;> omega

theorem load_block_two_lt (r : Reply) : (load_block [0, 0] 2 r).getD 0 0 < 256 := by
  unfold load_block
  split
  · rcases r.data with _ | ⟨a, _ | ⟨b, l⟩⟩ <;> simp <;> omega
  · rcases r.data with _ | ⟨a, _ | ⟨b, l⟩⟩ <;> simp <;> omega

theorem not_exceeds_payload (n : Nat) (hn : n < 256)
    (h : ¬ exceeds_payload ((n : Int) - 3) = true) : ((n : Int) - 3).toNat ≤ 28 := by
  simp only [exceeds_payload, PAYLOAD_SIZE, decide_eq_true_eq] at h
  omega

theorem exceeds_payload_of_gt (n : Nat) (hn : n < 256) (h : (n : Int) - 3 > 28) :
    exceeds_payload ((n : Int) - 3) = true := by
  simp only [exceeds_payload, PAYLOAD_SIZE, decide_eq_true_eq]
  omega

theorem readSize_wrapped (e : Env) (port : Nat) (a : Access) (k : Nat) (h : a.readSize ≤ k) :
    ∀ x ∈ wrapped e port a, x.readSize ≤ k := by
  intro x hx
  cases hl : e.cfg.low_power <;> simp [wrapped, hl] at hx
  · subst hx
    exact h
  · rcases hx with hx | hx | hx <;> subst hx
    · exact Nat.zero_le _
    · exact h
    · exact Nat.zero_le _

/-- C8: in both receive paths, when the byte count the chip reports, minus 3,
exceeds 28, the call returns `EC_ERROR_UNKNOWN`, leaves the caller's header and
payload untouched and its only chip accesses are the count read and the ALERT
acknowledge: neither the header nor the payload is read. On every path, no
transfer of either function asks the chip for more than 28 bytes. -/
theorem C8_oversized_count_rejected (e : Env) (port : Nat) (m : cached_tcpm_message)
    (t : Tcpc) :
    ((((tcpc_read e port TCPC_REG_RX_BYTE_CNT 0 t).2.1 : Nat) : Int) - 3 > 28 →
        (tcpci_v1_0_tcpm_get_message_raw e port m t).1 = EC_ERROR_UNKNOWN ∧
        (tcpci_v1_0_tcpm_get_message_raw e port m t).2.1 = m ∧
        chipOps (added t (tcpci_v1_0_tcpm_get_message_raw e port m t).2.2) =
          [.read8 port TCPC_REG_RX_BYTE_CNT,
           .write16 port TCPC_REG_ALERT TCPC_REG_ALERT_RX_STATUS]) ∧
      (((((tcpc_xfer_unlocked e port [TCPC_REG_RX_BUFFER] [0, 0] 2 I2C_XFER_START
            (tcpc_lock port 1 t)).2.1).getD 0 0 : Nat) : Int) - 3 > 28 →
        (tcpci_v2_0_tcpm_get_message_raw e port m t).1 = EC_ERROR_UNKNOWN ∧
        (tcpci_v2_0_tcpm_get_message_raw e port m t).2.1 = m ∧
        chipOps (added t (tcpci_v2_0_tcpm_get_message_raw e port m t).2.2) =
          [.xfer port [TCPC_REG_RX_BUFFER] 2 I2C_XFER_START,
           .write16 port TCPC_REG_ALERT TCPC_REG_ALERT_RX_STATUS]) ∧
      (∀ a ∈ added t (tcpci_v1_0_tcpm_get_message_raw e port m t).2.2, a.readSize ≤ 28) ∧
      (∀ a ∈ added t (tcpci_v2_0_tcpm_get_message_raw e port m t).2.2, a.readSize ≤ 28) := by
  have hreg : TCPC_REG_RX_BUFFER % 256 = TCPC_REG_RX_BUFFER := by decide
  refine ⟨?_, ?_, ?_, ?_⟩
  · intro hbig
    simp only [tcpc_read, bus_access_eq] at hbig
    have hex := exceeds_payload_of_gt _ (load8_lt _) hbig
    simp only [tcpci_v1_0_tcpm_get_message_raw, v1_0_header_and_payload, v1_0_clear, tcpc_read,
      tcpc_read16, tcpc_write16, tcpc_read_block, bus_access_eq]
    split_ifs
    all_goals simp only [added, List.append_assoc, List.drop_left, chipOps_append,
      chipOps_wrapped_read8, chipOps_wrapped_write16]
    all_goals simp
  · intro hbig
    simp only [tcpc_xfer_unlocked, tcpc_lock, bus_access_eq, Tcpc.emit] at hbig
    have hex := exceeds_payload_of_gt _ (load_block_two_lt _) hbig
    simp only [tcpci_v2_0_tcpm_get_message_raw, v2_0_clear, tcpc_xfer_unlocked, tcpc_lock,
      tcpc_write16, bus_access_eq, Tcpc.emit, hreg]
    split_ifs
    all_goals simp only [added, List.append_assoc, List.drop_left, chipOps_append,
      chipOps_wrapped_xfer, chipOps_wrapped_write16, chipOps_lock]
    all_goals simp
  · simp only [tcpci_v1_0_tcpm_get_message_raw, v1_0_header_and_payload, v1_0_clear, tcpc_read,
      tcpc_read16, tcpc_write16, tcpc_read_block, bus_access_eq]
    split_ifs with h1 h2 h3 h4 h5 h6
    all_goals simp only [added, List.append_assoc, List.drop_left, List.forall_mem_append]
    all_goals repeat' constructor
    all_goals apply readSize_wrapped
    all_goals first
      | exact not_exceeds_payload _ (load8_lt _) h2
      | simp [Access.readSize]
  · simp only [tcpci_v2_0_tcpm_get_message_raw, v2_0_clear, tcpc_xfer_unlocked, tcpc_lock,
      tcpc_write16, bus_access_eq, Tcpc.emit]
    split_ifs with h1 h2 h3
    all_goals simp only [added, List.append_assoc, List.drop_left, List.forall_mem_append]
    all_goals repeat' constructor
    all_goals first
      | (apply readSize_wrapped
         first
          | exact not_exceeds_payload _ (load_block_two_lt _) h2
          | simp [Access.readSize])
      | simp [Access.readSize]

/-- C8 witness: a reported count of 40 (37 payload bytes) is rejected on both
paths; a count of 31 is accepted and the payload read asks for 28 bytes. -/
theorem C8_oversized_count_rejected_witness :
    ((((tcpc_read (rxEnv 40 0 0 false) 0 TCPC_REG_RX_BYTE_CNT 0 Tcpc.boot).2.1 : Nat) : Int)
        - 3 > 28) ∧
      ((tcpci_v1_0_tcpm_get_message_raw (rxEnv 40 0 0 false) 0 cached_tcpm_message.zero
          Tcpc.boot).1 = EC_ERROR_UNKNOWN ∧
        (tcpci_v1_0_tcpm_get_message_raw (rxEnv 40 0 0 false) 0 cached_tcpm_message.zero
          Tcpc.boot).2.1 = cached_tcpm_message.zero ∧
        chipOps (added Tcpc.boot (tcpci_v1_0_tcpm_get_message_raw (rxEnv 40 0 0 false) 0
          cached_tcpm_message.zero Tcpc.boot).2.2) =
          [.read8 0 TCPC_REG_RX_BYTE_CNT,
           .write16 0 TCPC_REG_ALERT TCPC_REG_ALERT_RX_STATUS]) ∧
      (((((tcpc_xfer_unlocked (rxEnv 40 0 0 true) 0 [TCPC_REG_RX_BUFFER] [0, 0] 2
            I2C_XFER_START (tcpc_lock 0 1 Tcpc.boot)).2.1).getD 0 0 : Nat) : Int) - 3 > 28) ∧
      (tcpci_v2_0_tcpm_get_message_raw (rxEnv 40 0 0 true) 0 cached_tcpm_message.zero
          Tcpc.boot).1 = EC_ERROR_UNKNOWN ∧
      chipOps (added Tcpc.boot (tcpci_v1_0_tcpm_get_message_raw (rxEnv 31 0 0 false) 0
          cached_tcpm_message.zero Tcpc.boot).2.2) =
        [.read8 0 TCPC_REG_RX_BYTE_CNT, .read16 0 TCPC_REG_RX_HDR,
         .read_block 0 TCPC_REG_RX_DATA 28,
         .write16 0 TCPC_REG_ALERT TCPC_REG_ALERT_RX_STATUS] :=
  ⟨by decide,
    (C8_oversized_count_rejected (rxEnv 40 0 0 false) 0 cached_tcpm_message.zero Tcpc.boot).1
      (by decide),
    by decide,
    ((C8_oversized_count_rejected (rxEnv 40 0 0 true) 0 cached_tcpm_message.zero Tcpc.boot).2.1
      (by decide)).1,
    by decide⟩

/-- C10 (the code at the failing input): the chip reports 7 readable bytes
(a 4-byte payload), the header read succeeds and the payload read fails with
code 1. Both receive paths still return `EC_SUCCESS`, and
`tcpm_enqueue_message` publishes the slot (head becomes 1) with the blank
payload. -/
theorem C10_payload_read_failure_ignored :
    (rxChip 7 0x1042 1 [.read8 0 TCPC_REG_RX_BYTE_CNT, .read16 0 TCPC_REG_RX_HDR,
        .read_block 0 TCPC_REG_RX_DATA 4]).rv = 1 ∧
      chipOps (tcpci_v1_0_tcpm_get_message_raw (rxEnv 7 0x1042 1 false) 0
          cached_tcpm_message.zero Tcpc.boot).2.2.log =
        [.read8 0 TCPC_REG_RX_BYTE_CNT, .read16 0 TCPC_REG_RX_HDR,
         .read_block 0 TCPC_REG_RX_DATA 4,
         .write16 0 TCPC_REG_ALERT TCPC_REG_ALERT_RX_STATUS] ∧
      (tcpci_v1_0_tcpm_get_message_raw (rxEnv 7 0x1042 1 false) 0
          cached_tcpm_message.zero Tcpc.boot).1 = EC_SUCCESS ∧
      (tcpm_enqueue_message (tcpci_tcpm_get_message_raw (rxEnv 7 0x1042 1 false)) 0
          State.boot).1 = EC_SUCCESS ∧
      ((tcpm_enqueue_message (tcpci_tcpm_get_message_raw (rxEnv 7 0x1042 1 false)) 0
          State.boot).2.cached_messages 0).head = 1 ∧
      ((tcpm_enqueue_message (tcpci_tcpm_get_message_raw (rxEnv 7 0x1042 1 false)) 0
          State.boot).2.cached_messages 0).pending =
        [{ header := 0x1042, payload := List.replicate 28 0 }] ∧
      (rxChip 7 0x1042 1 [.lock 0 1, .xfer 0 [TCPC_REG_RX_BUFFER] 2 I2C_XFER_START,
        .xfer 0 [] 2 0, .xfer 0 [] 4 I2C_XFER_STOP]).rv = 1 ∧
      chipOps (tcpci_v2_0_tcpm_get_message_raw (rxEnv 7 0x1042 1 true) 0
          cached_tcpm_message.zero Tcpc.boot).2.2.log =
        [.xfer 0 [TCPC_REG_RX_BUFFER] 2 I2C_XFER_START, .xfer 0 [] 2 0,
         .xfer 0 [] 4 I2C_XFER_STOP,
         .write16 0 TCPC_REG_ALERT TCPC_REG_ALERT_RX_STATUS] ∧
      (tcpci_v2_0_tcpm_get_message_raw (rxEnv 7 0x1042 1 true) 0
          cached_tcpm_message.zero Tcpc.boot).1 = EC_SUCCESS ∧
      ((tcpm_enqueue_message (tcpci_tcpm_get_message_raw (rxEnv 7 0x1042 1 true)) 0
          State.boot).2.cached_messages 0).head = 1 := by
  refine ⟨by decide, by decide, by decide, by decide, by decide, by decide, by decide,
    by decide, by decide, by decide⟩

/-! ## Polarity -/

theorem mem_wrapped (e : Env) (port : Nat) (a x : Access) (h : x ∈ wrapped e port a) :
    x = a ∨ x = .wait_exit_low_power port ∨ x = .device_accessed port := by
  cases hl : e.cfg.low_power <;> simp [wrapped, hl] at h
  · exact Or.inl h
  · rcases h with h | h | h
    · exact Or.inr (Or.inl h)
    · exact Or.inl h
    · exact Or.inr (Or.inr h)

theorem set_cc_log (e : Env) (port : Nat) (pull : Int) (t : Tcpc) :
    (tcpci_tcpm_set_cc e port pull t).2.log =
      t.log ++ wrapped e port (.write8 port TCPC_REG_ROLE_CTRL
        (wire8 (TCPC_REG_ROLE_CTRL_SET 0 (t.cached_rp port)
          (if e.pd_get_polarity port = .POLARITY_CC2 then TYPEC_CC_OPEN else pull)
          (if e.pd_get_polarity port = .POLARITY_CC1 then TYPEC_CC_OPEN else pull)))) := by
  simp only [tcpci_tcpm_set_cc, tcpc_write, bus_access_eq]
  cases e.pd_get_polarity port <;> simp [tcpci_set_cached_pull, tcpci_get_cached_rp]

/-- C11: for every port state, chip and configuration,
`tcpci_tcpm_set_polarity(port, POLARITY_NONE)` is exactly the re-applied
`set_cc(cached_pull)`: it returns that call's code (its error, or `EC_SUCCESS`),
leaves the state that call leaves, its only chip access is that call's
ROLE_CTRL write, and nothing it adds to the trace addresses TCPC_CTRL. -/
theorem C11_set_polarity_none (e : Env) (port : Nat) (t : Tcpc) :
    tcpci_tcpm_set_polarity e port .POLARITY_NONE t =
        tcpci_tcpm_set_cc e port (tcpci_get_cached_pull port t) t ∧
      (∃ v, chipOps (added t (tcpci_tcpm_set_polarity e port .POLARITY_NONE t).2) =
        [.write8 port TCPC_REG_ROLE_CTRL v]) ∧
      (∀ a ∈ added t (tcpci_tcpm_set_polarity e port .POLARITY_NONE t).2,
        a.reg? ≠ some TCPC_REG_TCPC_CTRL) := by
  have heq : tcpci_tcpm_set_polarity e port .POLARITY_NONE t =
      tcpci_tcpm_set_cc e port (tcpci_get_cached_pull port t) t := by
    unfold tcpci_tcpm_set_polarity
    generalize tcpci_tcpm_set_cc e port (tcpci_get_cached_pull port t) t = r
    obtain ⟨rv, t1⟩ := r
    by_cases h : rv = 0
    · simp [h, EC_SUCCESS]
    · simp [h]
  refine ⟨heq, ?_, ?_⟩
  · rw [heq]
    simp only [added, set_cc_log, List.drop_left]
    exact ⟨_, chipOps_wrapped e port _ rfl⟩
  · rw [heq]
    simp only [added, set_cc_log, List.drop_left]
    intro a ha
    rcases mem_wrapped e port _ a ha with h | h | h <;> subst h <;>
      simp [Access.reg?, TCPC_REG_ROLE_CTRL, TCPC_REG_TCPC_CTRL]

/-- C11 witness: after `set_cc(Rd)` on an unattached port, `set_polarity(NONE)`
repeats the ROLE_CTRL write and touches nothing else. -/
theorem C11_set_polarity_none_witness :
    (tcpci_tcpm_set_polarity (okEnv false false) 0 .POLARITY_NONE
        (tcpci_tcpm_set_cc (okEnv false false) 0 TYPEC_CC_RD Tcpc.boot).2).2.log =
        [.write8 0 TCPC_REG_ROLE_CTRL 0xa, .write8 0 TCPC_REG_ROLE_CTRL 0xa] ∧
      Access.write8 0 TCPC_REG_ROLE_CTRL 0xa ∈
        added (tcpci_tcpm_set_cc (okEnv false false) 0 TYPEC_CC_RD Tcpc.boot).2
          (tcpci_tcpm_set_polarity (okEnv false false) 0 .POLARITY_NONE
            (tcpci_tcpm_set_cc (okEnv false false) 0 TYPEC_CC_RD Tcpc.boot).2).2 ∧
      (Access.write8 0 TCPC_REG_ROLE_CTRL 0xa).reg? ≠ some TCPC_REG_TCPC_CTRL :=
  ⟨by decide, by decide,
    (C11_set_polarity_none (okEnv false false) 0
      (tcpci_tcpm_set_cc (okEnv false false) 0 TYPEC_CC_RD Tcpc.boot).2).2.2 _ (by decide)⟩

/-! ## Transmit -/

theorem nat_lor_eq_zero (m n : Nat) (h : m ||| n = 0) : m = 0 ∧ n = 0 := by
  have hb : ∀ i, m.testBit i = false ∧ n.testBit i = false := by
    intro i
    have h2 := congrArg (fun x => x.testBit i) h
    simpa [Nat.testBit_or] using h2
  exact ⟨Nat.eq_of_testBit_eq (by intro i; simp [(hb i).1]),
    Nat.eq_of_testBit_eq (by intro i; simp [(hb i).2])⟩

theorem int_lor_eq_zero (a b : Int) : Int.lor a b = 0 ↔ a = 0 ∧ b = 0 := by
  constructor
  · intro h
    cases a <;> cases b <;> simp only [Int.lor] at h
    · rename_i m n
      have h2 : m ||| n = 0 := by exact_mod_cast h
      obtain ⟨h3, h4⟩ := nat_lor_eq_zero m n h2
      subst h3
      subst h4
      exact ⟨rfl, rfl⟩
    all_goals exact absurd h (by simp)
  · rintro ⟨rfl, rfl⟩
    rfl

theorem chipOps_wrapped_write8 (e : Env) (port reg val : Nat) :
    chipOps (wrapped e port (.write8 port reg val)) = [.write8 port reg val] :=
  chipOps_wrapped e port _ rfl

theorem chipOps_wrapped_write_block (e : Env) (port reg : Nat) (out : List Nat) :
    chipOps (wrapped e port (.write_block port reg out)) = [.write_block port reg out] :=
  chipOps_wrapped e port _ rfl

theorem mem_wrapped_write8 (e : Env) (port reg : Nat) (a : Access) (v : Nat) :
    Access.write8 port reg v ∈ wrapped e port a ↔ a = .write8 port reg v := by
  constructor
  · intro h
    rcases mem_wrapped e port a _ h with h | h | h
    · exact h.symm
    · exact absurd h (by simp)
    · exact absurd h (by simp)
  · intro h
    subst h
    cases hl : e.cfg.low_power <;> simp [wrapped, hl]

/-- C13: the value `tcpci_tcpm_transmit` writes to TRANSMIT. For a type outside
the SOP* range the call is that single write, with the WITHOUT_RETRY encoding.
Whatever the chip does, a write to TRANSMIT that the call makes has the
WITHOUT_RETRY encoding for a type outside the SOP* range and for SOP', and the
WITH_RETRY encoding for SOP; when no transfer fails the write is made and is the
last chip access. -/
theorem C13_transmit_encoding (e : Env) (port type header : Nat) (data : List Nat)
    (t : Tcpc) :
    (type ≥ NUM_SOP_STAR_TYPES →
        chipOps (added t (tcpci_tcpm_transmit e port type header data t).2) =
          [.write8 port TCPC_REG_TRANSMIT (TCPC_REG_TRANSMIT_SET_WITHOUT_RETRY type)]) ∧
      (∀ v, Access.write8 port TCPC_REG_TRANSMIT v ∈
          added t (tcpci_tcpm_transmit e port type header data t).2 →
        (type ≥ NUM_SOP_STAR_TYPES → v = TCPC_REG_TRANSMIT_SET_WITHOUT_RETRY type) ∧
        (type = TCPC_TX_SOP_PRIME → v = TCPC_REG_TRANSMIT_SET_WITHOUT_RETRY type) ∧
        (type = TCPC_TX_SOP → v = TCPC_REG_TRANSMIT_SET_WITH_RETRY e type)) ∧
      ((∀ l, (e.chip l).rv = 0) →
        (chipOps (added t (tcpci_tcpm_transmit e port type header data t).2)).getLast? =
          some (.write8 port TCPC_REG_TRANSMIT
            (if type ≥ NUM_SOP_STAR_TYPES ∨ type = TCPC_TX_SOP_PRIME
              then TCPC_REG_TRANSMIT_SET_WITHOUT_RETRY type
              else TCPC_REG_TRANSMIT_SET_WITH_RETRY e type))) := by
  refine ⟨?_, ?_, ?_⟩
  · intro hty
    simp only [tcpci_tcpm_transmit, hty, if_true, tcpc_write, bus_access_eq, added,
      List.drop_left, chipOps_wrapped_write8]
  · intro v
    simp only [tcpci_tcpm_transmit, tcpc_write, tcpc_write16, tcpc_write_block,
      tcpc_xfer_unlocked, tcpc_lock, Tcpc.emit, bus_access_eq]
    split_ifs
    all_goals simp only [added, List.append_assoc, List.drop_left, List.mem_append,
      mem_wrapped_write8]
    all_goals simp [TCPC_REG_TRANSMIT, TCPC_REG_TX_BYTE_CNT, NUM_SOP_STAR_TYPES,
      TCPC_TX_SOP_PRIME, TCPC_TX_SOP] at *
    all_goals
      intro hv
      subst hv
      refine ⟨?_, ?_, ?_⟩ <;> intro h <;> first | rfl | (exfalso; omega)
  · intro hok
    have h0 : ∀ (a : Access) (t1 : Tcpc), (chipReply e port a t1).rv = 0 := fun a t1 => hok _
    have hl : Int.lor 0 0 = 0 := rfl
    simp only [tcpci_tcpm_transmit, tcpc_write, tcpc_write16, tcpc_write_block,
      tcpc_xfer_unlocked, tcpc_lock, Tcpc.emit, bus_access_eq, h0, hl, ne_eq,
      not_true_eq_false, if_false]
    split_ifs
    all_goals simp only [added, List.append_assoc, List.drop_left, chipOps_append,
      chipOps_wrapped_write8, chipOps_wrapped_write16, chipOps_wrapped_write_block,
      chipOps_wrapped_xfer, chipOps_lock]
    all_goals simp [NUM_SOP_STAR_TYPES, TCPC_TX_SOP_PRIME] at *
    all_goals first | rfl | omega

/-- C13 witness: SOP is written with the retry count (0x30), SOP' and a hard
reset (type 5) without it. -/
theorem C13_transmit_encoding_witness :
    (tcpci_tcpm_transmit (okEnv false false) 0 5 0 [] Tcpc.boot).2.log =
        [.write8 0 TCPC_REG_TRANSMIT 5] ∧
      (tcpci_tcpm_transmit (okEnv false false) 0 TCPC_TX_SOP 0 [] Tcpc.boot).2.log =
        [.write8 0 TCPC_REG_TX_BYTE_CNT 2, .write16 0 TCPC_REG_TX_HDR 0,
         .write8 0 TCPC_REG_TRANSMIT 0x30] ∧
      (tcpci_tcpm_transmit (okEnv false false) 0 TCPC_TX_SOP_PRIME 0 [] Tcpc.boot).2.log =
        [.write8 0 TCPC_REG_TX_BYTE_CNT 2, .write16 0 TCPC_REG_TX_HDR 0,
         .write8 0 TCPC_REG_TRANSMIT 1] ∧
      chipOps (added Tcpc.boot (tcpci_tcpm_transmit (okEnv false false) 0 5 0 []
          Tcpc.boot).2) =
        [.write8 0 TCPC_REG_TRANSMIT (TCPC_REG_TRANSMIT_SET_WITHOUT_RETRY 5)] ∧
      (0x30 = TCPC_REG_TRANSMIT_SET_WITH_RETRY (okEnv false false) TCPC_TX_SOP) ∧
      (1 = TCPC_REG_TRANSMIT_SET_WITHOUT_RETRY TCPC_TX_SOP_PRIME) ∧
      (chipOps (added Tcpc.boot (tcpci_tcpm_transmit (okEnv false false) 0 TCPC_TX_SOP 0 []
          Tcpc.boot).2)).getLast? =
        some (.write8 0 TCPC_REG_TRANSMIT
          (TCPC_REG_TRANSMIT_SET_WITH_RETRY (okEnv false false) TCPC_TX_SOP)) :=
  ⟨by decide, by decide, by decide,
    (C13_transmit_encoding (okEnv false false) 0 5 0 [] Tcpc.boot).1 (by decide),
    ((C13_transmit_encoding (okEnv false false) 0 TCPC_TX_SOP 0 [] Tcpc.boot).2.1 0x30
      (by decide)).2.2 rfl,
    ((C13_transmit_encoding (okEnv false false) 0 TCPC_TX_SOP_PRIME 0 [] Tcpc.boot).2.1 1
      (by decide)).2.1 rfl,
    (C13_transmit_encoding (okEnv false false) 0 TCPC_TX_SOP 0 [] Tcpc.boot).2.2
      (fun _ => rfl)⟩

theorem flatten_words_length (data : List Nat) :
    ((data.map bytes_of_word).flatten).length = 4 * data.length := by
  induction data with
  | nil => rfl
  | cons w ws ih =>
    simp only [List.map_cons, List.flatten_cons, List.length_append, ih, List.length_cons]
    simp only [bytes_of_word, List.length_cons, List.length_nil]
    omega

theorem data_bytes_length (data : List Nat) (n : Nat) (h : n ≤ data.length) :
    (data_bytes data (4 * n)).length = 4 * n := by
  simp only [data_bytes, List.length_take, flatten_words_length]
  omega

theorem pd_header_cnt_le (header : Nat) : PD_HEADER_CNT header ≤ 7 :=
  Nat.and_le_right

/-- C14: on a TCPCI v1.0 port and for a SOP* type, `tcpci_tcpm_transmit` with a
16-bit header whose data-object count is n (at most 7) writes TX_BYTE_CNT = 4n + 2,
then TX_HDR = the header. If either write fails it returns a non-zero code and
makes no further access. Otherwise, if n > 0 it block-writes the 4n bytes of the
n objects to TX_DATA, and if that fails returns its code with no further access;
a TRANSMIT write follows only when all staging succeeded. With n = 0 there is no
block write. -/
theorem C14_transmit_v1_staging (e : Env) (port type header : Nat) (data : List Nat)
    (t : Tcpc) (w1 w2 w3 : Int × Tcpc)
    (hv1 : e.cfg.tcpci_v2_0 port = false) (hty : type < NUM_SOP_STAR_TYPES)
    (hh : header < 65536) (hd : PD_HEADER_CNT header ≤ data.length)
    (h1 : tcpc_write e port TCPC_REG_TX_BYTE_CNT (4 * PD_HEADER_CNT header + 2) t = w1)
    (h2 : tcpc_write16 e port TCPC_REG_TX_HDR header w1.2 = w2)
    (h3 : tcpc_write_block e port TCPC_REG_TX_DATA
      (data_bytes data (4 * PD_HEADER_CNT header)) w2.2 = w3) :
    PD_HEADER_CNT header ≤ 7 ∧
      (data_bytes data (4 * PD_HEADER_CNT header)).length = 4 * PD_HEADER_CNT header ∧
      ((w1.1 ≠ 0 ∨ w2.1 ≠ 0) →
        (tcpci_tcpm_transmit e port type header data t).1 ≠ 0 ∧
        chipOps (added t (tcpci_tcpm_transmit e port type header data t).2) =
          [.write8 port TCPC_REG_TX_BYTE_CNT (4 * PD_HEADER_CNT header + 2),
           .write16 port TCPC_REG_TX_HDR header]) ∧
      (w1.1 = 0 → w2.1 = 0 → 0 < PD_HEADER_CNT header → w3.1 ≠ 0 →
        (tcpci_tcpm_transmit e port type header data t).1 = w3.1 ∧
        chipOps (added t (tcpci_tcpm_transmit e port type header data t).2) =
          [.write8 port TCPC_REG_TX_BYTE_CNT (4 * PD_HEADER_CNT header + 2),
           .write16 port TCPC_REG_TX_HDR header,
           .write_block port TCPC_REG_TX_DATA (data_bytes data (4 * PD_HEADER_CNT header))]) ∧
      (w1.1 = 0 → w2.1 = 0 → 0 < PD_HEADER_CNT header → w3.1 = 0 →
        ∃ v, chipOps (added t (tcpci_tcpm_transmit e port type header data t).2) =
          [.write8 port TCPC_REG_TX_BYTE_CNT (4 * PD_HEADER_CNT header + 2),
           .write16 port TCPC_REG_TX_HDR header,
           .write_block port TCPC_REG_TX_DATA (data_bytes data (4 * PD_HEADER_CNT header)),
           .write8 port TCPC_REG_TRANSMIT v]) ∧
      (w1.1 = 0 → w2.1 = 0 → PD_HEADER_CNT header = 0 →
        ∃ v, chipOps (added t (tcpci_tcpm_transmit e port type header data t).2) =
          [.write8 port TCPC_REG_TX_BYTE_CNT (4 * PD_HEADER_CNT header + 2),
           .write16 port TCPC_REG_TX_HDR header,
           .write8 port TCPC_REG_TRANSMIT v]) := by
  have hmod : header % 65536 = header := Nat.mod_eq_of_lt hh
  have hnot : ¬ type ≥ NUM_SOP_STAR_TYPES := Nat.not_le.mpr hty
  subst h3
  subst h2
  subst h1
  refine ⟨pd_header_cnt_le header, data_bytes_length data _ hd, ?_, ?_, ?_, ?_⟩
  all_goals simp only [tcpci_tcpm_transmit, tcpc_write, tcpc_write16, tcpc_write_block,
    bus_access_eq, hv1, hnot, hmod, if_false, Bool.false_eq_true, ne_eq, int_lor_eq_zero]
  all_goals intros
  all_goals split_ifs
  all_goals simp only [added, List.append_assoc, List.drop_left, chipOps_append,
    chipOps_wrapped_write8, chipOps_wrapped_write16, chipOps_wrapped_write_block]
  all_goals simp_all [int_lor_eq_zero]

/-- C14 witness: header 0x2000 (two data objects) on a v1.0 port stages count 10,
the header and 8 data bytes, then writes TRANSMIT. -/
theorem C14_transmit_v1_staging_witness :
    ((okEnv false false).cfg.tcpci_v2_0 0 = false ∧ TCPC_TX_SOP < NUM_SOP_STAR_TYPES ∧
        0x2000 < 65536 ∧ PD_HEADER_CNT 0x2000 ≤ [0x11223344, 0x55667788].length) ∧
      (tcpci_tcpm_transmit (okEnv false false) 0 TCPC_TX_SOP 0x2000 [0x11223344, 0x55667788]
          Tcpc.boot).2.log =
        [.write8 0 TCPC_REG_TX_BYTE_CNT 10, .write16 0 TCPC_REG_TX_HDR 0x2000,
         .write_block 0 TCPC_REG_TX_DATA [0x44, 0x33, 0x22, 0x11, 0x88, 0x77, 0x66, 0x55],
         .write8 0 TCPC_REG_TRANSMIT 0x30] ∧
      (∃ v, chipOps (added Tcpc.boot (tcpci_tcpm_transmit (okEnv false false) 0 TCPC_TX_SOP
          0x2000 [0x11223344, 0x55667788] Tcpc.boot).2) =
        [.write8 0 TCPC_REG_TX_BYTE_CNT (4 * PD_HEADER_CNT 0x2000 + 2),
         .write16 0 TCPC_REG_TX_HDR 0x2000,
         .write_block 0 TCPC_REG_TX_DATA
           (data_bytes [0x11223344, 0x55667788] (4 * PD_HEADER_CNT 0x2000)),
         .write8 0 TCPC_REG_TRANSMIT v]) :=
  ⟨by decide, by decide,
    (C14_transmit_v1_staging (okEnv false false) 0 TCPC_TX_SOP 0x2000
      [0x11223344, 0x55667788] Tcpc.boot _ _ _ rfl (by decide) (by decide) (by decide)
      rfl rfl rfl).2.2.2.2.1 rfl rfl (by decide) rfl⟩

theorem chipReply_last (e : Env) (port : Nat) (a : Access) (t : Tcpc) :
    ∃ l, chipReply e port a t = e.chip l ∧ l.getLast? = some a := by
  refine ⟨_, rfl, ?_⟩
  simp

theorem timeline_pollTrace (e : Env) (port : Nat) (n : Nat) :
    (pollTrace e port n).filter Access.isChipOrSleep =
      List.intersperse (.msleep 10)
        (List.replicate (n + 1) (.read8 port TCPC_REG_POWER_STATUS)) := by
  have hw : (wrapped e port (.read8 port TCPC_REG_POWER_STATUS)).filter Access.isChipOrSleep =
      [.read8 port TCPC_REG_POWER_STATUS] := by
    have h1 : Access.isChipOrSleep (.wait_exit_low_power port) = false := rfl
    have h2 : Access.isChipOrSleep (.device_accessed port) = false := rfl
    have h3 : Access.isChipOrSleep (.read8 port TCPC_REG_POWER_STATUS) = true := rfl
    unfold wrapped
    cases e.cfg.low_power <;> simp [List.filter_cons, h1, h2, h3]
  induction n with
  | zero => simpa [pollTrace, List.intersperse] using hw
  | succ n ih =>
    have hs : Access.isChipOrSleep (.msleep 10) = true := rfl
    simp only [pollTrace, List.filter_append, hw, ih, List.replicate_succ]
    simp [List.filter_cons, hs, List.intersperse]

theorem init_poll_stuck (e : Env) (port : Nat)
    (hstuck : ∀ l, l.getLast? = some (.read8 port TCPC_REG_POWER_STATUS) →
      (e.chip l).rv = 0 ∧
      ((e.chip l).data.headD 0 % 256) &&& TCPC_REG_POWER_STATUS_UNINIT ≠ 0) (n : Nat) :
    ∀ (ps : Nat) (t : Tcpc),
      (init_poll e port (n + 1) ps t).1 = some EC_ERROR_TIMEOUT ∧
      (init_poll e port (n + 1) ps t).2.2.log = t.log ++ pollTrace e port n ∧
      (init_poll e port (n + 1) ps t).2.2.cached_pull = t.cached_pull := by
  have hrd : ∀ t : Tcpc,
      (chipReply e port (.read8 port TCPC_REG_POWER_STATUS) t).rv = 0 ∧
      ∀ old, load8 old (chipReply e port (.read8 port TCPC_REG_POWER_STATUS) t) &&&
        TCPC_REG_POWER_STATUS_UNINIT ≠ 0 := by
    intro t
    obtain ⟨l, hl, hlast⟩ := chipReply_last e port (.read8 port TCPC_REG_POWER_STATUS) t
    obtain ⟨h1, h2⟩ := hstuck l hlast
    rw [hl]
    refine ⟨h1, fun old => ?_⟩
    simp only [load8, h1, if_true]
    exact h2
  induction n with
  | zero =>
    intro ps t
    obtain ⟨h1, h2⟩ := hrd t
    simp [init_poll, tcpc_read, bus_access_eq, h1, h2 ps, pollTrace]
  | succ n ih =>
    intro ps t
    obtain ⟨h1, h2⟩ := hrd t
    rw [init_poll]
    simp only [tcpc_read, bus_access_eq, h1, h2 ps, and_false, if_false, Nat.succ_ne_zero,
      Nat.add_one_ne_zero]
    obtain ⟨i1, i2, i3⟩ := ih
      (load8 ps (chipReply e port (.read8 port TCPC_REG_POWER_STATUS) t))
      (Tcpc.emit { t with log := t.log ++ wrapped e port (.read8 port TCPC_REG_POWER_STATUS) }
        (.msleep 10))
    refine ⟨i1, ?_, ?_⟩
    · rw [i2]
      simp [Tcpc.emit, pollTrace]
    · rw [i3]
      rfl

theorem chipOps_pollTrace (e : Env) (port : Nat) (n : Nat) :
    chipOps (pollTrace e port n) =
      List.replicate (n + 1) (.read8 port TCPC_REG_POWER_STATUS) := by
  induction n with
  | zero => simp [pollTrace, chipOps_wrapped_read8]
  | succ n ih =>
    have hs : chipOps [Access.msleep 10] = [] := rfl
    simp only [pollTrace, chipOps_append, chipOps_wrapped_read8, ih, hs, List.replicate_succ]
    simp

/-- C12: for a valid port, if every read of POWER_STATUS succeeds with the
UNINIT bit set, `tcpci_tcpm_init` returns `EC_ERROR_TIMEOUT`; its chip accesses
are exactly `TCPM_INIT_TRIES` = 30 reads of POWER_STATUS, with one 10 ms sleep
between each two consecutive reads, and no chip register is written. -/
theorem C12_init_timeout (e : Env) (port : Nat) (d : Driver)
    (hport : port < e.cfg.port_count)
    (hstuck : ∀ l, l.getLast? = some (.read8 port TCPC_REG_POWER_STATUS) →
      (e.chip l).rv = 0 ∧
      ((e.chip l).data.headD 0 % 256) &&& TCPC_REG_POWER_STATUS_UNINIT ≠ 0) :
    (tcpci_tcpm_init e port d).1 = EC_ERROR_TIMEOUT ∧
      (added d.tcpc (tcpci_tcpm_init e port d).2.tcpc).filter Access.isChipOrSleep =
        List.intersperse (.msleep 10)
          (List.replicate TCPM_INIT_TRIES (.read8 port TCPC_REG_POWER_STATUS)) ∧
      chipOps (added d.tcpc (tcpci_tcpm_init e port d).2.tcpc) =
        List.replicate TCPM_INIT_TRIES (.read8 port TCPC_REG_POWER_STATUS) := by
  have hnot : ¬ port ≥ e.cfg.port_count := Nat.not_le.mpr hport
  obtain ⟨p1, p2, _⟩ := init_poll_stuck e port hstuck 29 0
    (tcpci_set_cached_pull port TYPEC_CC_OPEN d.tcpc)
  have h30 : TCPM_INIT_TRIES = 29 + 1 := rfl
  simp only [tcpci_tcpm_init, hnot, if_false, h30]
  rcases hp : init_poll e port (29 + 1) 0 (tcpci_set_cached_pull port TYPEC_CC_OPEN d.tcpc)
    with ⟨r, ps, t1⟩
  rw [hp] at p1 p2
  simp only at p1 p2
  subst p1
  have hlog : t1.log = d.tcpc.log ++ pollTrace e port 29 := by
    rw [p2]
    rfl
  simp only [added, hlog, List.drop_left]
  exact ⟨trivial, timeline_pollTrace e port 29, chipOps_pollTrace e port 29⟩

theorem stuckChip_uninit (l : List Access) :
    (stuckChip 0x40 l).rv = 0 ∧
      ((stuckChip 0x40 l).data.headD 0 % 256) &&& TCPC_REG_POWER_STATUS_UNINIT ≠ 0 := by
  refine ⟨rfl, ?_⟩
  show (0x40 % 256) &&& TCPC_REG_POWER_STATUS_UNINIT ≠ 0
  decide

/-- C12 witness: a chip whose POWER_STATUS always reads 0x40 (UNINIT). -/
theorem C12_init_timeout_witness :
    0 < (okEnv false false).cfg.port_count ∧
      (∀ l, l.getLast? = some (.read8 0 TCPC_REG_POWER_STATUS) →
        (stuckChip 0x40 l).rv = 0 ∧
        ((stuckChip 0x40 l).data.headD 0 % 256) &&& TCPC_REG_POWER_STATUS_UNINIT ≠ 0) ∧
      (tcpci_tcpm_init { okEnv false false with chip := stuckChip 0x40 } 0 Driver.boot).1 =
        EC_ERROR_TIMEOUT ∧
      chipOps (added Driver.boot.tcpc
          (tcpci_tcpm_init { okEnv false false with chip := stuckChip 0x40 } 0
            Driver.boot).2.tcpc) =
        List.replicate TCPM_INIT_TRIES (.read8 0 TCPC_REG_POWER_STATUS) :=
  have h := C12_init_timeout { okEnv false false with chip := stuckChip 0x40 } 0 Driver.boot
    (by decide) (fun l _ => stuckChip_uninit l)
  ⟨by decide, fun l _ => stuckChip_uninit l, h.1, h.2.2⟩

/-! ## Alert handler -/

theorem enqueue_fail_counters (raw : RawRead) (port : Nat) (s : State)
    (h : (tcpm_enqueue_message raw port s).1 ≠ 0) :
    ((tcpm_enqueue_message raw port s).2.cached_messages port).head =
        (s.cached_messages port).head ∧
      ((tcpm_enqueue_message raw port s).2.cached_messages port).tail =
        (s.cached_messages port).tail := by
  unfold tcpm_enqueue_message at h ⊢
  simp only at h ⊢
  split
  · exact ⟨rfl, rfl⟩
  · rename_i hfull
    simp only [hfull, if_false] at h
    split
    · simp [setAt_same]
    · rename_i hrv
      simp only [hrv, if_false, EC_SUCCESS] at h
      exact absurd rfl h

theorem enqueue_wf (raw : RawRead) (port : Nat) (s : State)
    (h : (s.cached_messages port).wf) :
    ((tcpm_enqueue_message raw port s).2.cached_messages port).wf :=
  next_wf (.enqueue raw port) s port h

theorem rx_drain_bound (e : Env) (raw : RawRead) (port : Nat) :
    ∀ (fuel status f : Nat) (s : State), (s.cached_messages port).wf → f < 10 →
      (CACHE_DEPTH - sub32 (s.cached_messages port).head (s.cached_messages port).tail) +
        (10 - f) ≤ fuel →
      ∃ d, rx_drain e raw port fuel status f s = some d ∧
        d.attempts ≤
          (CACHE_DEPTH - sub32 (s.cached_messages port).head (s.cached_messages port).tail) +
            (10 - f) ∧
        (d.s.cached_messages port).wf ∧
        (d.suspended = true ↔ 10 ≤ d.failed_attempts) ∧
        (d.suspended = false → d.status &&& TCPC_REG_ALERT_RX_STATUS = 0) := by
  intro fuel
  induction fuel with
  | zero =>
    intro status f s _ hf hfuel
    omega
  | succ fuel ih =>
    intro status f s hwf hf hfuel
    rw [rx_drain]
    by_cases hrx : status &&& TCPC_REG_ALERT_RX_STATUS = 0
    · refine ⟨_, if_pos hrx, Nat.zero_le _, hwf, ?_, fun _ => hrx⟩
      simp only [Bool.false_eq_true, false_iff, Nat.not_le]
      exact hf
    · simp only [hrx, if_false]
      have hwf1 := enqueue_wf raw port s hwf
      have hc := enqueue_counters raw port s
      have hfc := enqueue_fail_counters raw port s
      generalize tcpm_enqueue_message raw port s = r1 at hwf1 hc hfc ⊢
      obtain ⟨rv1, s1⟩ := r1
      simp only at hwf1 hc hfc ⊢
      generalize hr2 : tcpm_alert_status e port status s1.tcpc = r2
      obtain ⟨rv2, status2, t2⟩ := r2
      simp only
      have hdepth : (rv1 = 0 →
            sub32 (s1.cached_messages port).head (s1.cached_messages port).tail =
              sub32 (s.cached_messages port).head (s.cached_messages port).tail + 1 ∧
            sub32 (s.cached_messages port).head (s.cached_messages port).tail < 4) ∧
          (rv1 ≠ 0 →
            sub32 (s1.cached_messages port).head (s1.cached_messages port).tail =
              sub32 (s.cached_messages port).head (s.cached_messages port).tail) := by
        obtain ⟨w1, w2, w3⟩ := hwf
        constructor
        · intro h0
          obtain ⟨e1, e2⟩ := hc.1 h0
          rw [e1, hc.2]
          simp only [sub32, CACHE_DEPTH] at w3 e2 ⊢
          omega
        · intro h0
          obtain ⟨e1, e2⟩ := hfc h0
          rw [e1, e2]
      have hd4 : sub32 (s.cached_messages port).head (s.cached_messages port).tail ≤ 4 := hwf.2.2
      have hd41 : sub32 (s1.cached_messages port).head (s1.cached_messages port).tail ≤ 4 :=
        hwf1.2.2
      simp only [CACHE_DEPTH] at hfuel ⊢
      by_cases hcap : (if rv2 ≠ 0 then (if rv1 ≠ 0 then f + 1 else f) + 1
          else if rv1 ≠ 0 then f + 1 else f) ≥ MAX_ALLOW_FAILED_RX_READS
      · refine ⟨_, if_pos hcap, ?_, hwf1, ?_, ?_⟩
        · show 1 ≤ _
          omega
        · simp only [true_iff]
          exact hcap
        · intro hfalse
          exact absurd hfalse (by simp)
      · simp only [hcap, if_false]
        have hf2 : (if rv2 ≠ 0 then (if rv1 ≠ 0 then f + 1 else f) + 1
            else if rv1 ≠ 0 then f + 1 else f) < 10 := Nat.not_le.mp hcap
        have hge : f + (if rv1 ≠ 0 then 1 else 0) ≤
            (if rv2 ≠ 0 then (if rv1 ≠ 0 then f + 1 else f) + 1
              else if rv1 ≠ 0 then f + 1 else f) := by
          split_ifs <;> omega
        obtain ⟨d, hd, ha, hw, hs, hst⟩ := ih status2
          (if rv2 ≠ 0 then (if rv1 ≠ 0 then f + 1 else f) + 1
            else if rv1 ≠ 0 then f + 1 else f)
          { s1 with tcpc := t2 } hwf1 hf2 (by
            simp only [CACHE_DEPTH]
            by_cases h0 : rv1 = 0
            · obtain ⟨e1, e2⟩ := hdepth.1 h0
              simp only [h0, ne_eq, not_true_eq_false, if_false] at hge ⊢
              rw [e1]
              omega
            · have e1 := hdepth.2 h0
              simp only [h0, ne_eq, not_false_eq_true, if_true] at hge ⊢
              rw [e1]
              omega)
        rw [hd]
        refine ⟨_, rfl, ?_, hw, hs, hst⟩
        show d.attempts + 1 ≤ _
        simp only [CACHE_DEPTH] at ha
        by_cases h0 : rv1 = 0
        · obtain ⟨e1, e2⟩ := hdepth.1 h0
          simp only [h0, ne_eq, not_true_eq_false, if_false] at hge ha
          rw [e1] at ha
          omega
        · have e1 := hdepth.2 h0
          simp only [h0, ne_eq, not_false_eq_true, if_true] at hge ha
          rw [e1] at ha
          omega

/-- C20: for every chip behaviour and every raw read, on a well-formed ring and
with nothing dequeued meanwhile, the RX-drain loop of `tcpci_tcpc_alert` ends
within `(CACHE_DEPTH - (head - tail)) + 10` iterations, hence within 14: fuel 14
is always enough, the loop leaves through the cap exactly when the failure
counter has reached 10 and otherwise with RX_STATUS clear, and the handler itself
returns. -/
theorem C20_rx_drain_terminates (e : Env) (raw : RawRead) (port fuel status : Nat)
    (s : State) (hwf : (s.cached_messages port).wf) (hfuel : 14 ≤ fuel) :
    (∃ d, rx_drain e raw port fuel status 0 s = some d ∧
        d.attempts ≤
          (CACHE_DEPTH - sub32 (s.cached_messages port).head (s.cached_messages port).tail) +
            MAX_ALLOW_FAILED_RX_READS ∧
        d.attempts ≤ 14 ∧
        (d.suspended = true ↔ MAX_ALLOW_FAILED_RX_READS ≤ d.failed_attempts) ∧
        (d.suspended = false → d.status &&& TCPC_REG_ALERT_RX_STATUS = 0)) ∧
      (tcpci_tcpc_alert e raw fuel port s).isSome = true := by
  have hb : ∀ (st : Nat) (s0 : State), (s0.cached_messages port).wf →
      ∃ d, rx_drain e raw port fuel st 0 s0 = some d ∧
        d.attempts ≤ (CACHE_DEPTH -
          sub32 (s0.cached_messages port).head (s0.cached_messages port).tail) + 10 ∧
        (d.s.cached_messages port).wf ∧
        (d.suspended = true ↔ 10 ≤ d.failed_attempts) ∧
        (d.suspended = false → d.status &&& TCPC_REG_ALERT_RX_STATUS = 0) := by
    intro st s0 h0
    exact rx_drain_bound e raw port fuel st 0 s0 h0 (by decide) (by
      simp only [CACHE_DEPTH]
      omega)
  constructor
  · obtain ⟨d, hd, ha, _, hs, hst⟩ := hb status s hwf
    refine ⟨d, hd, ha, ?_, hs, hst⟩
    simp only [CACHE_DEPTH] at ha
    omega
  · obtain ⟨d, hd, _⟩ := hb (alert_begin e port s.tcpc).1
      { s with tcpc := (alert_begin e port s.tcpc).2.2 } hwf
    simp only [tcpci_tcpc_alert, hd]
    split <;> rfl

/-- C20 witness: a chip that keeps RX_STATUS asserted and always delivers a
message: four messages fill the boot ring, ten overflows follow, and the loop
leaves through the cap after 14 iterations. -/
theorem C20_rx_drain_terminates_witness :
    (State.boot.cached_messages 0).wf ∧
      (rx_drain (alertEnv [] 4 0 0 0) (tcpci_tcpm_get_message_raw (alertEnv [] 4 0 0 0)) 0 14 4
          0 State.boot).map (fun d => (d.attempts, d.suspended, d.failed_attempts)) =
        some (14, true, 10) ∧
      (∃ d, rx_drain (alertEnv [] 4 0 0 0) (tcpci_tcpm_get_message_raw (alertEnv [] 4 0 0 0))
          0 14 4 0 State.boot = some d ∧ d.attempts ≤ 14) :=
  ⟨wf_boot, by decide,
    (C20_rx_drain_terminates (alertEnv [] 4 0 0 0)
      (tcpci_tcpm_get_message_raw (alertEnv [] 4 0 0 0)) 0 14 4 State.boot wf_boot
      (by decide)).1.imp (fun _ h => ⟨h.1, h.2.2.1⟩)⟩

theorem wrapped_quiet (e : Env) (port : Nat) (a : Access) (h : a.isEvent = false) :
    ∀ x ∈ wrapped e port a, x.isEvent = false := by
  intro x hx
  rcases mem_wrapped e port a x hx with h1 | h1 | h1 <;> subst h1
  · exact h
  · rfl
  · rfl

theorem enqueue_fail_log (raw : RawRead) (port : Nat) (s : State)
    (hraw : ∀ m t, (raw port m t).1 ≠ 0) (hquiet : RawQuiet raw port) :
    (tcpm_enqueue_message raw port s).1 ≠ 0 ∧
      ∃ suf, (tcpm_enqueue_message raw port s).2.tcpc.log = s.tcpc.log ++ suf ∧
        ∀ a ∈ suf, a.isEvent = false := by
  unfold tcpm_enqueue_message
  simp only
  split
  · refine ⟨?_, [], by simp, by simp⟩
    show EC_ERROR_OVERFLOW ≠ 0
    decide
  · have h1 := hraw cached_tcpm_message.zero s.tcpc
    obtain ⟨suf, h2, h3⟩ := hquiet cached_tcpm_message.zero s.tcpc
    simp only [h1, ne_eq, not_false_eq_true, if_true]
    exact ⟨trivial, suf, h2, h3⟩

theorem alert_read_asserted (e : Env) (port : Nat)
    (halert : ∀ l, l.getLast? = some (.read16 port TCPC_REG_ALERT) →
      (e.chip l).rv = 0 ∧
      ((e.chip l).data.headD 0 % 65536) &&& TCPC_REG_ALERT_RX_STATUS ≠ 0)
    (old : Nat) (t : Tcpc) :
    (tcpm_alert_status e port old t).1 = 0 ∧
      (tcpm_alert_status e port old t).2.1 &&& TCPC_REG_ALERT_RX_STATUS ≠ 0 ∧
      (tcpm_alert_status e port old t).2.2 =
        { t with log := t.log ++ wrapped e port (.read16 port TCPC_REG_ALERT) } := by
  obtain ⟨l, hl, hlast⟩ := chipReply_last e port (.read16 port TCPC_REG_ALERT) t
  obtain ⟨h1, h2⟩ := halert l hlast
  simp only [tcpm_alert_status, tcpc_read16, bus_access_eq, hl, h1, load16, if_true]
  exact ⟨trivial, h2, trivial⟩

theorem rx_drain_cap (e : Env) (raw : RawRead) (port : Nat)
    (halert : ∀ l, l.getLast? = some (.read16 port TCPC_REG_ALERT) →
      (e.chip l).rv = 0 ∧
      ((e.chip l).data.headD 0 % 65536) &&& TCPC_REG_ALERT_RX_STATUS ≠ 0)
    (hraw : ∀ m t, (raw port m t).1 ≠ 0) (hquiet : RawQuiet raw port) :
    ∀ (fuel k status f : Nat) (s : State), status &&& TCPC_REG_ALERT_RX_STATUS ≠ 0 →
      f + k = 10 → 1 ≤ k → k ≤ fuel →
      ∃ d, rx_drain e raw port fuel status f s = some d ∧ d.attempts = k ∧
        d.suspended = true ∧ d.failed_attempts = 10 ∧
        (d.s.cached_messages port).head = (s.cached_messages port).head ∧
        (d.s.cached_messages port).tail = (s.cached_messages port).tail ∧
        ∃ mid, d.s.tcpc.log = s.tcpc.log ++ mid ++
            wrapped e port (.read16 port TCPC_REG_ALERT) ++
            [.pd_set_suspend port 1, .pd_deferred_resume port] ∧
          ∀ a ∈ mid, a.isEvent = false := by
  intro fuel
  induction fuel with
  | zero =>
    intro k status f s _ _ h1 h2
    omega
  | succ fuel ih =>
    intro k status f s hrx hk h1 hfuel
    rw [rx_drain]
    simp only [hrx, if_false]
    obtain ⟨hrv1, suf, hlog1, hq1⟩ := enqueue_fail_log raw port s hraw hquiet
    have hfc := enqueue_fail_counters raw port s hrv1
    generalize tcpm_enqueue_message raw port s = r1 at hrv1 hlog1 hfc ⊢
    obtain ⟨rv1, s1⟩ := r1
    simp only at hrv1 hlog1 hfc ⊢
    obtain ⟨a1, a2, a3⟩ := alert_read_asserted e port halert status s1.tcpc
    generalize tcpm_alert_status e port status s1.tcpc = r2 at a1 a2 a3 ⊢
    obtain ⟨rv2, status2, t2⟩ := r2
    simp only at a1 a2 a3 ⊢
    subst a1
    subst a3
    simp only [hrv1, ne_eq, not_false_eq_true, if_true, not_true_eq_false, if_false]
    by_cases hcap : f + 1 ≥ MAX_ALLOW_FAILED_RX_READS
    · simp only [hcap, if_true]
      have hk1 : k = 1 := by
        simp only [MAX_ALLOW_FAILED_RX_READS] at hcap
        omega
      refine ⟨_, rfl, hk1.symm, rfl, ?_, hfc.1, hfc.2, suf, ?_, hq1⟩
      · show f + 1 = 10
        omega
      · simp only [Tcpc.emit, hlog1, List.append_assoc]
        rfl
    · simp only [hcap, if_false]
      have hk2 : 2 ≤ k := by
        simp only [MAX_ALLOW_FAILED_RX_READS] at hcap
        omega
      obtain ⟨d, hd, ha, hs, hf, hh, ht, mid, hm, hq⟩ := ih (k - 1) status2 (f + 1)
        { s1 with tcpc := { s1.tcpc with
            log := s1.tcpc.log ++ wrapped e port (.read16 port TCPC_REG_ALERT) } }
        a2 (by omega) (by omega) (by omega)
      rw [hd]
      refine ⟨_, rfl, ?_, hs, hf, ?_, ?_,
        suf ++ wrapped e port (.read16 port TCPC_REG_ALERT) ++ mid, ?_, ?_⟩
      · show d.attempts + 1 = k
        omega
      · show (d.s.cached_messages port).head = _
        rw [hh]
        exact hfc.1
      · show (d.s.cached_messages port).tail = _
        rw [ht]
        exact hfc.2
      · show d.s.tcpc.log = _
        rw [hm]
        simp only [hlog1, List.append_assoc]
      · intro a ha2
        simp only [List.mem_append] at ha2
        rcases ha2 with (h | h) | h
        · exact hq1 a h
        · exact wrapped_quiet e port (.read16 port TCPC_REG_ALERT) rfl a h
        · exact hq a h

theorem alert_begin_log (e : Env) (port : Nat) (t : Tcpc) :
    (alert_begin e port t).1 = (tcpm_alert_status e port 0 t).2.1 ∧
      ∃ suf, (alert_begin e port t).2.2.log = t.log ++ suf ∧
        ∀ a ∈ suf, a.isEvent = false := by
  refine ⟨rfl, ?_⟩
  simp only [alert_begin, tcpm_alert_status, tcpm_alert_ext_status, tcpci_get_fault,
    tcpci_clear_fault, tcpci_handle_fault, tcpc_read, tcpc_read16, tcpc_write, bus_access_eq,
    Tcpc.emit]
  split_ifs
  all_goals try simp only [List.append_assoc]
  all_goals refine ⟨_, rfl, ?_⟩
  all_goals try simp only [List.forall_mem_append]
  all_goals repeat' constructor
  all_goals first
    | exact wrapped_quiet e port _ rfl
    | simp [Access.isEvent]

theorem filter_quiet (l : List Access) (h : ∀ a ∈ l, a.isEvent = false) :
    l.filter Access.isEvent = [] := by
  rw [List.filter_eq_nil_iff]
  intro a ha
  simp [h a ha]

/-- C16: if every read of ALERT succeeds with RX_STATUS set and every raw
message read fails (posting nothing to the PD task), `tcpci_tcpc_alert` makes
exactly 10 = `MAX_ALLOW_FAILED_RX_READS` enqueue attempts and returns through
the cap: the trace ends with `pd_set_suspend(port, 1)`, `pd_deferred_resume(port)`,
the last chip access before them is the last re-read of ALERT (no write-back of
the alert bits, no probe of the mask registers), the handler has posted no
event, and the ring counters are as before. -/
theorem C16_rx_drain_cap (e : Env) (raw : RawRead) (port fuel : Nat) (s : State)
    (hfuel : MAX_ALLOW_FAILED_RX_READS ≤ fuel)
    (halert : ∀ l, l.getLast? = some (.read16 port TCPC_REG_ALERT) →
      (e.chip l).rv = 0 ∧
      ((e.chip l).data.headD 0 % 65536) &&& TCPC_REG_ALERT_RX_STATUS ≠ 0)
    (hraw : ∀ m t, (raw port m t).1 ≠ 0) (hquiet : RawQuiet raw port) :
    ∃ d, rx_drain e raw port fuel (alert_begin e port s.tcpc).1 0
          { s with tcpc := (alert_begin e port s.tcpc).2.2 } = some d ∧
      tcpci_tcpc_alert e raw fuel port s = some d.s ∧
      d.attempts = MAX_ALLOW_FAILED_RX_READS ∧ d.suspended = true ∧
      d.s.tcpc.log.getLast? = some (.pd_deferred_resume port) ∧
      d.s.tcpc.log.dropLast.getLast? = some (.pd_set_suspend port 1) ∧
      (chipOps d.s.tcpc.log).getLast? = some (.read16 port TCPC_REG_ALERT) ∧
      d.s.tcpc.log.filter Access.isEvent = s.tcpc.log.filter Access.isEvent ∧
      (d.s.cached_messages port).head = (s.cached_messages port).head ∧
      (d.s.cached_messages port).tail = (s.cached_messages port).tail := by
  obtain ⟨hst, bsuf, hblog, hbq⟩ := alert_begin_log e port s.tcpc
  have hrx : (alert_begin e port s.tcpc).1 &&& TCPC_REG_ALERT_RX_STATUS ≠ 0 := by
    rw [hst]
    exact (alert_read_asserted e port halert 0 s.tcpc).2.1
  obtain ⟨d, hd, ha, hs, _, hh, ht, mid, hm, hq⟩ := rx_drain_cap e raw port halert hraw hquiet
    fuel 10 (alert_begin e port s.tcpc).1 0
    { s with tcpc := (alert_begin e port s.tcpc).2.2 } hrx rfl (by decide) hfuel
  simp only at hm hh ht
  have hlog : d.s.tcpc.log = s.tcpc.log ++ (bsuf ++ mid) ++
      wrapped e port (.read16 port TCPC_REG_ALERT) ++
      [.pd_set_suspend port 1, .pd_deferred_resume port] := by
    rw [hm, hblog]
    simp only [List.append_assoc]
  refine ⟨d, hd, ?_, ha, hs, ?_, ?_, ?_, ?_, hh, ht⟩
  · simp only [tcpci_tcpc_alert, hd, hs, if_true]
  · rw [hlog]
    simp
  · rw [hlog]
    simp
  · rw [hlog]
    have h2 : chipOps [Access.pd_set_suspend port 1, Access.pd_deferred_resume port] = [] := rfl
    simp only [chipOps_append, chipOps_wrapped_read16, h2, List.append_nil]
    simp
  · rw [hlog]
    have h2 : List.filter Access.isEvent
        [Access.pd_set_suspend port 1, Access.pd_deferred_resume port] = [] := rfl
    have h3 : (bsuf ++ mid).filter Access.isEvent = [] := by
      apply filter_quiet
      intro a ha2
      rcases List.mem_append.mp ha2 with h | h
      · exact hbq a h
      · exact hq a h
    have h4 : (wrapped e port (.read16 port TCPC_REG_ALERT)).filter Access.isEvent = [] :=
      filter_quiet _ (wrapped_quiet e port _ rfl)
    simp only [List.filter_append, h2, h3, h4, List.append_nil]

theorem alertChip_asserted (l : List Access)
    (hl : l.getLast? = some (.read16 0 TCPC_REG_ALERT)) :
    ((alertEnv [] 4 0 0 1).chip l).rv = 0 ∧
      (((alertEnv [] 4 0 0 1).chip l).data.headD 0 % 65536) &&& TCPC_REG_ALERT_RX_STATUS ≠ 0 := by
  simp only [alertEnv, alertChip, hl, if_true, List.getD_nil]
  exact ⟨trivial, by decide⟩

theorem failingRaw_fails (m : cached_tcpm_message) (t : Tcpc) : (failingRaw 0 m t).1 ≠ 0 := by
  show (1 : Int) ≠ 0
  decide

theorem failingRaw_quiet : RawQuiet failingRaw 0 := by
  intro m t
  exact ⟨[.read8 0 TCPC_REG_RX_BYTE_CNT], rfl, by simp [Access.isEvent]⟩

/-- C16 witness: ALERT always reads RX_STATUS and the raw read always fails:
ten attempts, then suspend and deferred resume right after the last ALERT read. -/
theorem C16_rx_drain_cap_witness :
    MAX_ALLOW_FAILED_RX_READS ≤ 10 ∧
      (∀ m t, (failingRaw 0 m t).1 ≠ 0) ∧
      (tcpci_tcpc_alert (alertEnv [] 4 0 0 1) failingRaw 10 0 State.boot).map
          (fun s => s.tcpc.log.drop 19) =
        some [.read8 0 TCPC_REG_RX_BYTE_CNT, .read16 0 TCPC_REG_ALERT,
          .pd_set_suspend 0 1, .pd_deferred_resume 0] ∧
      (∃ d : Drain,
        tcpci_tcpc_alert (alertEnv [] 4 0 0 1) failingRaw 10 0 State.boot = some d.s ∧
        d.attempts = MAX_ALLOW_FAILED_RX_READS ∧
        (chipOps d.s.tcpc.log).getLast? = some (.read16 0 TCPC_REG_ALERT) ∧
        d.s.tcpc.log.filter Access.isEvent = State.boot.tcpc.log.filter Access.isEvent) :=
  ⟨by decide, failingRaw_fails, by decide,
    (C16_rx_drain_cap (alertEnv [] 4 0 0 1) failingRaw 0 10 State.boot (by decide)
      alertChip_asserted failingRaw_fails failingRaw_quiet).imp
      (fun _ h => ⟨h.2.1, h.2.2.1, h.2.2.2.2.2.2.1, h.2.2.2.2.2.2.2.1⟩)⟩

theorem alert_dispatch_no_reset (e : Env) (port status alert_ext : Nat) (t : Tcpc) :
    (alert_dispatch e port status alert_ext t).1 &&& PD_EVENT_TCPC_RESET = 0 ∧
      ((alert_dispatch e port status alert_ext t).1 ||| PD_EVENT_TCPC_RESET) &&&
        PD_EVENT_TCPC_RESET ≠ 0 ∧
      (alert_dispatch e port status alert_ext t).1 ||| PD_EVENT_TCPC_RESET ≠ 0 := by
  simp only [alert_dispatch]
  split_ifs <;> dsimp only <;> decide

theorem register_mask_reset_iff (e : Env) (port : Nat) (t : Tcpc) (hlp : e.cfg.low_power = false) :
    ((register_mask_reset e port t).1 ≠ 0 ↔
        ((tcpc_read16 e port TCPC_REG_ALERT_MASK 0 t).2.1 = TCPC_REG_ALERT_MASK_ALL ∨
          (tcpc_read e port TCPC_REG_POWER_STATUS_MASK 0
            (tcpc_read16 e port TCPC_REG_ALERT_MASK 0 t).2.2).2.1 =
            TCPC_REG_POWER_STATUS_MASK_ALL)) ∧
      ∀ ev, (register_mask_reset e port t).2.log.getLast? ≠ some (.task_set_event port ev) := by
  simp only [register_mask_reset, tcpc_read, tcpc_read16, bus_access_eq]
  by_cases h1 : load16 0 (chipReply e port (.read16 port TCPC_REG_ALERT_MASK) t) =
      TCPC_REG_ALERT_MASK_ALL
  · simp [h1, wrapped, hlp]
  · simp only [h1, if_false, false_or]
    split
    · rename_i h2
      refine ⟨⟨fun _ => h2, fun _ => Nat.one_ne_zero⟩, ?_⟩
      intro ev
      simp [wrapped, hlp]
    · rename_i h2
      refine ⟨⟨fun h => absurd rfl h, fun h => absurd h h2⟩, ?_⟩
      intro ev
      simp [wrapped, hlp]

/-- C18: without low-power mode, when the RX-drain loop of `tcpci_tcpc_alert`
ends below the failure cap, the handler returns and the last effect of its
trace is a post to the PD task holding `PD_EVENT_TCPC_RESET` if and only if the
probe reads `TCPC_REG_ALERT_MASK` as 0xFFFF or `TCPC_REG_POWER_STATUS_MASK` as
0xFF; the same holds of the event set `alert_events` aggregates. -/
theorem C18_reset_event_iff_masks (e : Env) (raw : RawRead) (port fuel : Nat) (s : State)
    (d : Drain) (hlp : e.cfg.low_power = false)
    (hd : rx_drain e raw port fuel (alert_begin e port s.tcpc).1 0
        { s with tcpc := (alert_begin e port s.tcpc).2.2 } = some d)
    (hs : d.suspended = false) :
    ∃ s1, tcpci_tcpc_alert e raw fuel port s = some s1 ∧
      ((∃ ev, s1.tcpc.log.getLast? = some (.task_set_event port ev) ∧
          ev &&& PD_EVENT_TCPC_RESET ≠ 0) ↔
        ((tcpc_read16 e port TCPC_REG_ALERT_MASK 0
            (alert_dispatch e port d.status (alert_begin e port s.tcpc).2.1 d.s.tcpc).2).2.1 =
            TCPC_REG_ALERT_MASK_ALL ∨
          (tcpc_read e port TCPC_REG_POWER_STATUS_MASK 0
            (tcpc_read16 e port TCPC_REG_ALERT_MASK 0
              (alert_dispatch e port d.status (alert_begin e port s.tcpc).2.1
                d.s.tcpc).2).2.2).2.1 = TCPC_REG_POWER_STATUS_MASK_ALL)) ∧
      ((alert_events e port d.status (alert_begin e port s.tcpc).2.1 d.s.tcpc).1 &&&
          PD_EVENT_TCPC_RESET ≠ 0 ↔
        ((tcpc_read16 e port TCPC_REG_ALERT_MASK 0
            (alert_dispatch e port d.status (alert_begin e port s.tcpc).2.1 d.s.tcpc).2).2.1 =
            TCPC_REG_ALERT_MASK_ALL ∨
          (tcpc_read e port TCPC_REG_POWER_STATUS_MASK 0
            (tcpc_read16 e port TCPC_REG_ALERT_MASK 0
              (alert_dispatch e port d.status (alert_begin e port s.tcpc).2.1
                d.s.tcpc).2).2.2).2.1 = TCPC_REG_POWER_STATUS_MASK_ALL)) := by
  have hnr := alert_dispatch_no_reset e port d.status (alert_begin e port s.tcpc).2.1 d.s.tcpc
  have hr := register_mask_reset_iff e port
    (alert_dispatch e port d.status (alert_begin e port s.tcpc).2.1 d.s.tcpc).2 hlp
  refine ⟨{ d.s with tcpc := (alert_finish e port d.status (alert_begin e port s.tcpc).2.1
    d.s.tcpc) }, ?_, ?_, ?_⟩
  · simp only [tcpci_tcpc_alert, hd, hs]
    simp
  · rw [← hr.1]
    simp only [alert_finish, alert_events, hlp]
    generalize alert_dispatch e port d.status (alert_begin e port s.tcpc).2.1 d.s.tcpc = D
      at hnr hr
    obtain ⟨pe, t4⟩ := D
    generalize register_mask_reset e port t4 = R at hr
    obtain ⟨r, t5⟩ := R
    simp only at hnr hr ⊢
    by_cases hr0 : r = 0
    · subst hr0
      by_cases hpe : pe = 0
      · simpa [hpe] using fun ev h => absurd h (hr.2 ev)
      · simp [hpe, Tcpc.emit, hnr.1]
    · simp [hr0, hnr.2.2, hnr.2.1, Tcpc.emit]
  · rw [← hr.1]
    simp only [alert_events, hlp]
    generalize alert_dispatch e port d.status (alert_begin e port s.tcpc).2.1 d.s.tcpc = D
      at hnr hr
    obtain ⟨pe, t4⟩ := D
    generalize register_mask_reset e port t4 = R at hr
    obtain ⟨r, t5⟩ := R
    simp only at hnr hr ⊢
    by_cases hr0 : r = 0
    · simp [hr0, hnr.1]
    · simp [hr0, hnr.2.1]

/-- C18 witness: no alert bit is set, ALERT_MASK reads 0xFFFF and
POWER_STATUS_MASK 0xFF: the handler reads ALERT, probes ALERT_MASK and posts
`PD_EVENT_TCPC_RESET` alone. -/
theorem C18_reset_event_iff_masks_witness :
    (tcpci_tcpc_alert (alertEnv [0] 0 0xffff 0xff 0)
        (tcpci_tcpm_get_message_raw (alertEnv [0] 0 0xffff 0xff 0)) 14 0 State.boot).map
        (fun s => s.tcpc.log) =
      some [.read16 0 TCPC_REG_ALERT, .read16 0 TCPC_REG_ALERT_MASK,
        .task_set_event 0 PD_EVENT_TCPC_RESET] ∧
      ∃ s1, tcpci_tcpc_alert (alertEnv [0] 0 0xffff 0xff 0)
          (tcpci_tcpm_get_message_raw (alertEnv [0] 0 0xffff 0xff 0)) 14 0 State.boot = some s1 ∧
        ∃ ev, s1.tcpc.log.getLast? = some (.task_set_event 0 ev) ∧
          ev &&& PD_EVENT_TCPC_RESET ≠ 0 :=
  ⟨by decide,
    (C18_reset_event_iff_masks (alertEnv [0] 0 0xffff 0xff 0)
      (tcpci_tcpm_get_message_raw (alertEnv [0] 0 0xffff 0xff 0)) 0 14 State.boot
      { status := 0, failed_attempts := 0, attempts := 0, suspended := false,
        s := { State.boot with tcpc := (alert_begin (alertEnv [0] 0 0xffff 0xff 0) 0
          State.boot.tcpc).2.2 } }
      rfl rfl rfl).imp
      (fun _ h => ⟨h.1, h.2.1.mpr (Or.inl (by decide))⟩)⟩

set_option maxRecDepth 100000 in
theorem vconn_bit_only (reg : Nat) (enable : Int) (hreg : reg < 256)
    (hen : enable = 0 ∨ enable = 1) :
    (clear_bits reg (TCPC_REG_POWER_CTRL_VCONN 1) ||| TCPC_REG_POWER_CTRL_VCONN enable) / 2 =
        reg / 2 ∧
      (clear_bits reg (TCPC_REG_POWER_CTRL_VCONN 1) ||| TCPC_REG_POWER_CTRL_VCONN enable) % 2 =
        enable.toNat := by
  have h : ∀ r < 256, ∀ b < 2,
      (r &&& (0xffffffff ^^^ 1) ||| b) / 2 = r / 2 ∧ (r &&& (0xffffffff ^^^ 1) ||| b) % 2 = b := by
    decide
  rcases hen with h0 | h1
  · subst h0
    exact h reg hreg 0 (by decide)
  · subst h1
    exact h reg hreg 1 (by decide)

theorem rx_en_run_op (e : Env) (port : Nat) (op : RxOp) (t : Tcpc)
    (hsop : e.cfg.decode_sop = true) :
    (op.run e t).rx_en port ≠ 0 ↔ (t.rx_en port ≠ 0 ∨ everRxOn port [op] = true) := by
  cases op with
  | set_rx_enable p enable =>
    simp only [RxOp.run, tcpci_tcpm_set_rx_enable, tcpc_write, bus_access_eq, hsop, everRxOn,
      rxCommands]
    by_cases hp : p = port
    · subst hp
      by_cases hen : enable = 0
      · simp [hen]
      · simp [hen, setAt]
    · by_cases hen : enable = 0
      · simp [hen, hp]
      · have hp2 : ¬ port = p := fun h => hp h.symm
        simp [hen, hp, hp2, setAt]
  | set_vconn p enable =>
    simp only [RxOp.run, tcpci_tcpm_set_vconn, tcpc_write, tcpc_read, bus_access_eq, hsop,
      everRxOn, rxCommands]
    split_ifs <;> simp

theorem everRxOn_cons (port : Nat) (op : RxOp) (ops : List RxOp) :
    everRxOn port (op :: ops) = (everRxOn port [op] || everRxOn port ops) := by
  cases op with
  | set_rx_enable p enable =>
    by_cases hp : p = port <;> simp [everRxOn, rxCommands, hp]
  | set_vconn p enable => simp [everRxOn, rxCommands]

theorem rx_en_run (e : Env) (port : Nat) (hsop : e.cfg.decode_sop = true) (ops : List RxOp) :
    ∀ t : Tcpc, (runRxOps e ops t).rx_en port ≠ 0 ↔
      (t.rx_en port ≠ 0 ∨ everRxOn port ops = true) := by
  induction ops with
  | nil =>
    intro t
    simp [runRxOps, everRxOn, rxCommands]
  | cons op ops ih =>
    intro t
    have h1 := ih (op.run e t)
    have h2 := rx_en_run_op e port op t hsop
    have h3 : runRxOps e (op :: ops) t = runRxOps e ops (op.run e t) := rfl
    rw [h3, everRxOn_cons port op ops, Bool.or_eq_true, h1, h2]
    tauto

theorem lastRx_on_ever (port : Nat) (ops : List RxOp) (x : Int) (h : lastRx port ops = some x)
    (hx : x ≠ 0) : everRxOn port ops = true := by
  unfold lastRx at h
  unfold everRxOn
  rw [List.any_eq_true]
  exact ⟨x, List.mem_of_getLast?_eq_some h, by simpa using hx⟩
/-- C19 (counterexample): SOP' decoding on, RX commanded off by
`set_rx_enable(0, 0)`, then `set_vconn(0, 1)` succeeds: it reads POWER_CTRL and
writes POWER_CTRL and does not touch RX_DETECT, where the claim has it write the
SOP + hard-reset mask. -/
theorem C19_set_vconn_rx_off_counterexample :
    (okEnv false true).cfg.decode_sop = true ∧
      lastRx 0 [.set_rx_enable 0 0] = some 0 ∧
      (tcpci_tcpm_set_vconn (okEnv false true) 0 1
        (runRxOps (okEnv false true) [.set_rx_enable 0 0] Tcpc.boot)).1 = 0 ∧
      added (runRxOps (okEnv false true) [.set_rx_enable 0 0] Tcpc.boot)
        (tcpci_tcpm_set_vconn (okEnv false true) 0 1
          (runRxOps (okEnv false true) [.set_rx_enable 0 0] Tcpc.boot)).2 =
        [.read8 0 TCPC_REG_POWER_CTRL, .write8 0 TCPC_REG_POWER_CTRL 1] ∧
      Access.write8 0 TCPC_REG_RX_DETECT TCPC_REG_RX_DETECT_SOP_HRST_MASK ∉
        added (runRxOps (okEnv false true) [.set_rx_enable 0 0] Tcpc.boot)
          (tcpci_tcpm_set_vconn (okEnv false true) 0 1
            (runRxOps (okEnv false true) [.set_rx_enable 0 0] Tcpc.boot)).2 := by
  decide

/-- The stale RX shadow: `rx_en[port]` is stored only inside `if (enable)`, so
after `set_rx_enable(0, 1)`, `set_rx_enable(0, 0)` the shadow is still 1 and
`set_vconn(0, 1)` writes the SOP/SOP'/SOP'' mask to RX_DETECT although RX was
last commanded off. -/
theorem set_vconn_after_rx_off_stale_shadow :
    (runRxOps (okEnv false true) [.set_rx_enable 0 1, .set_rx_enable 0 0] Tcpc.boot).rx_en 0 = 1 ∧
      added (runRxOps (okEnv false true) [.set_rx_enable 0 1, .set_rx_enable 0 0] Tcpc.boot)
        (tcpci_tcpm_set_vconn (okEnv false true) 0 1
          (runRxOps (okEnv false true) [.set_rx_enable 0 1, .set_rx_enable 0 0] Tcpc.boot)).2 =
        [.read8 0 TCPC_REG_POWER_CTRL,
          .write8 0 TCPC_REG_RX_DETECT TCPC_REG_RX_DETECT_SOP_SOPP_SOPPP_HRST_MASK,
          .write8 0 TCPC_REG_POWER_CTRL 1] := by
  decide

/-- C19 (amended): with SOP' decoding on, after any sequence of `set_rx_enable`
and `set_vconn` calls from boot, a successful `tcpci_tcpm_set_vconn(port, enable)`
with `enable` 0 or 1 reads POWER_CTRL first and writes it last, with the value
read changed in bit 0 only (to `enable`), and between the two it makes no chip
access or one write of RX_DETECT, so POWER_CTRL is written once, whatever the
history. In between it writes RX_DETECT with the SOP/SOP'/SOP'' mask
(`enable` = 1) or the SOP + hard-reset mask (`enable` = 0) when the last
`set_rx_enable` on the port commanded RX on, and it does not write RX_DETECT at
all when no `set_rx_enable` on the port has commanded RX on. -/
theorem C19_set_vconn_rx_detect (e : Env) (port : Nat) (enable : Int) (ops : List RxOp)
    (hsop : e.cfg.decode_sop = true) (hen : enable = 0 ∨ enable = 1)
    (hok : (tcpci_tcpm_set_vconn e port enable (runRxOps e ops Tcpc.boot)).1 = 0) :
    ∃ v, v / 2 = (tcpc_read e port TCPC_REG_POWER_CTRL 0 (runRxOps e ops Tcpc.boot)).2.1 / 2 ∧
      v % 2 = enable.toNat ∧
      (chipOps (added (runRxOps e ops Tcpc.boot)
            (tcpci_tcpm_set_vconn e port enable (runRxOps e ops Tcpc.boot)).2) =
          [.read8 port TCPC_REG_POWER_CTRL, .write8 port TCPC_REG_POWER_CTRL v] ∨
        chipOps (added (runRxOps e ops Tcpc.boot)
            (tcpci_tcpm_set_vconn e port enable (runRxOps e ops Tcpc.boot)).2) =
          [.read8 port TCPC_REG_POWER_CTRL,
            .write8 port TCPC_REG_RX_DETECT
              (if enable ≠ 0 then TCPC_REG_RX_DETECT_SOP_SOPP_SOPPP_HRST_MASK
                else TCPC_REG_RX_DETECT_SOP_HRST_MASK),
            .write8 port TCPC_REG_POWER_CTRL v]) ∧
      ((∃ x, lastRx port ops = some x ∧ x ≠ 0) →
        chipOps (added (runRxOps e ops Tcpc.boot)
            (tcpci_tcpm_set_vconn e port enable (runRxOps e ops Tcpc.boot)).2) =
          [.read8 port TCPC_REG_POWER_CTRL,
            .write8 port TCPC_REG_RX_DETECT
              (if enable ≠ 0 then TCPC_REG_RX_DETECT_SOP_SOPP_SOPPP_HRST_MASK
                else TCPC_REG_RX_DETECT_SOP_HRST_MASK),
            .write8 port TCPC_REG_POWER_CTRL v]) ∧
      (everRxOn port ops = false →
        chipOps (added (runRxOps e ops Tcpc.boot)
            (tcpci_tcpm_set_vconn e port enable (runRxOps e ops Tcpc.boot)).2) =
          [.read8 port TCPC_REG_POWER_CTRL, .write8 port TCPC_REG_POWER_CTRL v]) := by
  have hrx := rx_en_run e port hsop ops Tcpc.boot
  have hb : Tcpc.boot.rx_en port = 0 := rfl
  simp only [hb, ne_eq, not_true_eq_false, false_or] at hrx
  generalize runRxOps e ops Tcpc.boot = t at hrx hok ⊢
  by_cases hrv : (chipReply e port (.read8 port TCPC_REG_POWER_CTRL) t).rv = 0
  · have hv := vconn_bit_only (load8 0 (chipReply e port (.read8 port TCPC_REG_POWER_CTRL) t))
      enable (load8_lt _) hen
    refine ⟨_, ?_, hv.2, ?_, ?_, ?_⟩
    · simpa only [tcpc_read, bus_access_eq] using hv.1
    · by_cases hz : t.rx_en port = 0
      · left
        simp only [tcpci_tcpm_set_vconn, tcpc_read, tcpc_write, bus_access_eq, hsop, hrv]
        simp only [ne_eq, not_true_eq_false, if_false, if_true, hz]
        simp only [added, List.append_assoc, List.drop_left, chipOps_append,
          chipOps_wrapped_read8, chipOps_wrapped_write8]
        simp
      · right
        simp only [tcpci_tcpm_set_vconn, tcpc_read, tcpc_write, bus_access_eq, hsop, hrv]
        simp only [ne_eq, not_true_eq_false, if_false, if_true, hz, not_false_eq_true]
        simp only [added, List.append_assoc, List.drop_left, chipOps_append,
          chipOps_wrapped_read8, chipOps_wrapped_write8]
        simp
    · rintro ⟨x, hx, hx0⟩
      have hon : ¬ t.rx_en port = 0 := hrx.mpr (lastRx_on_ever port ops x hx hx0)
      simp only [tcpci_tcpm_set_vconn, tcpc_read, tcpc_write, bus_access_eq, hsop, hrv]
      simp only [ne_eq, not_true_eq_false, if_false, if_true, hon, not_false_eq_true]
      simp only [added, List.append_assoc, List.drop_left, chipOps_append,
        chipOps_wrapped_read8, chipOps_wrapped_write8]
      simp
    · intro hoff
      have hoff2 : t.rx_en port = 0 := by
        by_contra h
        rw [hrx.mp h] at hoff
        exact Bool.noConfusion hoff
      simp only [tcpci_tcpm_set_vconn, tcpc_read, tcpc_write, bus_access_eq, hsop, hrv]
      simp only [ne_eq, not_true_eq_false, if_false, if_true, hoff2]
      simp only [added, List.append_assoc, List.drop_left, chipOps_append,
        chipOps_wrapped_read8, chipOps_wrapped_write8]
      simp
  · exfalso
    simp only [tcpci_tcpm_set_vconn, tcpc_read, bus_access_eq] at hok
    simp only [ne_eq, hrv, not_false_eq_true, if_true] at hok

/-- C19 witness: RX commanded on, then `set_vconn(0, 1)` on a chip that reads
zero: POWER_CTRL is read, RX_DETECT gets the SOP/SOP'/SOP'' mask, POWER_CTRL is
written with 1. -/
theorem C19_set_vconn_rx_detect_witness :
    (okEnv false true).cfg.decode_sop = true ∧ ((1 : Int) = 0 ∨ (1 : Int) = 1) ∧
      (tcpci_tcpm_set_vconn (okEnv false true) 0 1
        (runRxOps (okEnv false true) [.set_rx_enable 0 1] Tcpc.boot)).1 = 0 ∧
      (∃ x, lastRx 0 [.set_rx_enable 0 1] = some x ∧ x ≠ 0) ∧
      chipOps (added (runRxOps (okEnv false true) [.set_rx_enable 0 1] Tcpc.boot)
          (tcpci_tcpm_set_vconn (okEnv false true) 0 1
            (runRxOps (okEnv false true) [.set_rx_enable 0 1] Tcpc.boot)).2) =
        [.read8 0 TCPC_REG_POWER_CTRL,
          .write8 0 TCPC_REG_RX_DETECT TCPC_REG_RX_DETECT_SOP_SOPP_SOPPP_HRST_MASK,
          .write8 0 TCPC_REG_POWER_CTRL 1] ∧
      ∃ v, v / 2 = (tcpc_read (okEnv false true) 0 TCPC_REG_POWER_CTRL 0
            (runRxOps (okEnv false true) [.set_rx_enable 0 1] Tcpc.boot)).2.1 / 2 ∧
        v % 2 = (1 : Int).toNat ∧
        chipOps (added (runRxOps (okEnv false true) [.set_rx_enable 0 1] Tcpc.boot)
            (tcpci_tcpm_set_vconn (okEnv false true) 0 1
              (runRxOps (okEnv false true) [.set_rx_enable 0 1] Tcpc.boot)).2) =
          [.read8 0 TCPC_REG_POWER_CTRL,
            .write8 0 TCPC_REG_RX_DETECT
              (if (1 : Int) ≠ 0 then TCPC_REG_RX_DETECT_SOP_SOPP_SOPPP_HRST_MASK
                else TCPC_REG_RX_DETECT_SOP_HRST_MASK),
            .write8 0 TCPC_REG_POWER_CTRL v] :=
  ⟨rfl, Or.inr rfl, by decide, ⟨1, rfl, by decide⟩, by decide,
    (C19_set_vconn_rx_detect (okEnv false true) 0 1 [.set_rx_enable 0 1] rfl (Or.inr rfl)
      (by decide)).imp (fun _ h => ⟨h.1, h.2.1, h.2.2.2.1 ⟨1, rfl, by decide⟩⟩)⟩

theorem exceeds_payload_of_lt (n : Nat) (h : n < 3) : exceeds_payload ((n : Int) - 3) = true := by
  simp only [exceeds_payload, PAYLOAD_SIZE, decide_eq_true_eq]
  omega

/-- C21: in `tcpci_v2_0_tcpm_get_message_raw`, when the readable byte count in
`tmp[0]` is 0, 1 or 2, the call returns `EC_ERROR_UNKNOWN` with the caller's
header and payload untouched, and its only chip accesses are the two-byte read
of RX_BUFFER and the ALERT acknowledge: neither the header nor the payload is
read. On every path the chip accesses are the RX_BUFFER read and the
acknowledge with, in between, nothing, or the two-byte header read alone, or the
header read followed by one payload read of `n` bytes with 1 ≤ n ≤ 28. -/
theorem C21_v2_short_count_rejected (e : Env) (port : Nat) (m : cached_tcpm_message)
    (t : Tcpc) :
    (((tcpc_xfer_unlocked e port [TCPC_REG_RX_BUFFER] [0, 0] 2 I2C_XFER_START
          (tcpc_lock port 1 t)).2.1).getD 0 0 < 3 →
        (tcpci_v2_0_tcpm_get_message_raw e port m t).1 = EC_ERROR_UNKNOWN ∧
        (tcpci_v2_0_tcpm_get_message_raw e port m t).2.1 = m ∧
        chipOps (added t (tcpci_v2_0_tcpm_get_message_raw e port m t).2.2) =
          [.xfer port [TCPC_REG_RX_BUFFER] 2 I2C_XFER_START,
           .write16 port TCPC_REG_ALERT TCPC_REG_ALERT_RX_STATUS]) ∧
      (chipOps (added t (tcpci_v2_0_tcpm_get_message_raw e port m t).2.2) =
          [.xfer port [TCPC_REG_RX_BUFFER] 2 I2C_XFER_START,
           .write16 port TCPC_REG_ALERT TCPC_REG_ALERT_RX_STATUS] ∨
        (∃ f, chipOps (added t (tcpci_v2_0_tcpm_get_message_raw e port m t).2.2) =
          [.xfer port [TCPC_REG_RX_BUFFER] 2 I2C_XFER_START, .xfer port [] 2 f,
           .write16 port TCPC_REG_ALERT TCPC_REG_ALERT_RX_STATUS]) ∨
        ∃ n, 1 ≤ n ∧ n ≤ 28 ∧
          chipOps (added t (tcpci_v2_0_tcpm_get_message_raw e port m t).2.2) =
            [.xfer port [TCPC_REG_RX_BUFFER] 2 I2C_XFER_START, .xfer port [] 2 0,
             .xfer port [] n I2C_XFER_STOP,
             .write16 port TCPC_REG_ALERT TCPC_REG_ALERT_RX_STATUS]) := by
  have hreg : TCPC_REG_RX_BUFFER % 256 = TCPC_REG_RX_BUFFER := by decide
  refine ⟨?_, ?_⟩
  · intro hshort
    simp only [tcpc_xfer_unlocked, tcpc_lock, bus_access_eq, Tcpc.emit] at hshort
    have hex := exceeds_payload_of_lt _ hshort
    simp only [tcpci_v2_0_tcpm_get_message_raw, v2_0_clear, tcpc_xfer_unlocked, tcpc_lock,
      tcpc_write16, bus_access_eq, Tcpc.emit, hreg]
    split_ifs
    all_goals simp only [added, List.append_assoc, List.drop_left, chipOps_append,
      chipOps_wrapped_xfer, chipOps_wrapped_write16, chipOps_lock]
    all_goals simp
  · simp only [tcpci_v2_0_tcpm_get_message_raw, v2_0_clear, tcpc_xfer_unlocked, tcpc_lock,
      tcpc_write16, bus_access_eq, Tcpc.emit, hreg]
    split_ifs with h1 h2 h3 h4
    all_goals simp only [added, List.append_assoc, List.drop_left, chipOps_append,
      chipOps_wrapped_xfer, chipOps_wrapped_write16, chipOps_lock]
    all_goals simp only [List.nil_append, List.singleton_append, List.cons_append]
    all_goals first
      | exact Or.inl trivial
      | exact Or.inl rfl
      | exact Or.inr (Or.inl ⟨_, rfl⟩)
      | exact Or.inr (Or.inr ⟨_, by have := And.right ‹_ ∧ _›; omega,
          not_exceeds_payload _ (load_block_two_lt _) (by assumption), rfl⟩)
      | (exfalso; have := And.right ‹_ ∧ _›; omega)

/-- C21 witness: the chip reports a readable byte count of 2: the v2.0 path
returns `EC_ERROR_UNKNOWN` after the RX_BUFFER read and the acknowledge. -/
theorem C21_v2_short_count_rejected_witness :
    ((tcpc_xfer_unlocked (rxEnv 2 0 0 true) 0 [TCPC_REG_RX_BUFFER] [0, 0] 2 I2C_XFER_START
        (tcpc_lock 0 1 Tcpc.boot)).2.1).getD 0 0 < 3 ∧
      (tcpci_v2_0_tcpm_get_message_raw (rxEnv 2 0 0 true) 0 cached_tcpm_message.zero
          Tcpc.boot).1 = EC_ERROR_UNKNOWN ∧
      (tcpci_v2_0_tcpm_get_message_raw (rxEnv 2 0 0 true) 0 cached_tcpm_message.zero
          Tcpc.boot).2.1 = cached_tcpm_message.zero ∧
      chipOps (added Tcpc.boot (tcpci_v2_0_tcpm_get_message_raw (rxEnv 2 0 0 true) 0
          cached_tcpm_message.zero Tcpc.boot).2.2) =
        [.xfer 0 [TCPC_REG_RX_BUFFER] 2 I2C_XFER_START,
         .write16 0 TCPC_REG_ALERT TCPC_REG_ALERT_RX_STATUS] :=
  ⟨by decide,
    (C21_v2_short_count_rejected (rxEnv 2 0 0 true) 0 cached_tcpm_message.zero Tcpc.boot).1
      (by decide)⟩

/-- C22 (the code at the failing input): two banks of 4096 bytes, bank 0
PERSISTENT and bank 1 unprotected. The scan tests `i < max` with
`max = banks - 1`, so it never looks at the last bank: the response is offset 0,
size 8192, a range that holds the unprotected bank 1. With a third bank after it
(also unprotected) the same run is reported as size 4096. -/
theorem C22_last_bank_unprotected_reported :
    bank_protected [FLASH_PROTECT_PERSISTENT, 0] 0 = true ∧
      bank_protected [FLASH_PROTECT_PERSISTENT, 0] 1 = false ∧
      wp_range_loop [FLASH_PROTECT_PERSISTENT, 0] 2 0 (-1) 1 = (0, 1) ∧
      flash_command_wp_get_range
          { size := 8192, protect_block_size := 4096,
            protect_array := [FLASH_PROTECT_PERSISTENT, 0] } =
        (EC_RES_SUCCESS, { offset := 0, size := 8192 }) ∧
      flash_command_wp_get_range
          { size := 12288, protect_block_size := 4096,
            protect_array := [FLASH_PROTECT_PERSISTENT, 0, 0] } =
        (EC_RES_SUCCESS, { offset := 0, size := 4096 }) := by
  decide

theorem wp_range_loop_done (blocks : List Nat) :
    ∀ (n : Nat) (i min max : Int), min ≠ -1 → max ≤ i →
      wp_range_loop blocks n i min max = (min, max) := by
  intro n
  induction n with
  | zero =>
    intro i min max _ _
    rfl
  | succ n ih =>
    intro i min max hmin hmax
    have h1 : ¬ i < max := by omega
    rw [wp_range_loop, if_neg hmin, if_neg h1]
    exact ih (i + 1) min max hmin (by omega)

theorem wp_range_loop_none (blocks : List Nat) :
    ∀ (n : Nat) (i max : Int),
      (∀ k, i ≤ k → k < i + n → bank_protected blocks k = false) →
      wp_range_loop blocks n i (-1) max = (-1, max) := by
  intro n
  induction n with
  | zero =>
    intro i max _
    rfl
  | succ n ih =>
    intro i max h
    have h1 : bank_protected blocks i = false := h i (le_refl i) (by push_cast; omega)
    rw [wp_range_loop, if_pos rfl, h1]
    simp only [Bool.false_eq_true, if_false]
    apply ih
    intro k hk1 hk2
    exact h k (by omega) (by push_cast; omega)

theorem wp_range_loop_find_min (blocks : List Nat) (m : Int)
    (hm : bank_protected blocks m = true) :
    ∀ (n : Nat) (i max : Int),
      (∀ k, i ≤ k → k < m → bank_protected blocks k = false) → i ≤ m → m < i + n →
      ∃ n2 : Nat, wp_range_loop blocks n i (-1) max = wp_range_loop blocks n2 (m + 1) m max ∧
        m + 1 + n2 = i + n := by
  intro n
  induction n with
  | zero =>
    intro i max _ h1 h2
    exfalso
    simp only [Nat.cast_zero] at h2
    omega
  | succ n ih =>
    intro i max h h1 h2
    by_cases him : i = m
    · subst him
      refine ⟨n, ?_, by push_cast; omega⟩
      rw [wp_range_loop, if_pos rfl, hm]
      simp only [if_true]
    · have hi : bank_protected blocks i = false := h i (le_refl i) (by omega)
      obtain ⟨n2, h3, h4⟩ := ih (i + 1) max (fun k hk1 hk2 => h k (by omega) hk2) (by omega)
        (by push_cast at h2; omega)
      refine ⟨n2, ?_, by push_cast; omega⟩
      rw [wp_range_loop, if_pos rfl, hi]
      simp only [Bool.false_eq_true, if_false]
      exact h3

theorem wp_range_loop_find_max (blocks : List Nat) (j min max : Int) (hmin : min ≠ -1)
    (hj : bank_protected blocks j = false) (hjmax : j < max) :
    ∀ (n : Nat) (i : Int),
      (∀ k, i ≤ k → k < j → bank_protected blocks k = true) → i ≤ j → j < i + n →
      wp_range_loop blocks n i min max = (min, j - 1) := by
  intro n
  induction n with
  | zero =>
    intro i _ h1 h2
    exfalso
    simp only [Nat.cast_zero] at h2
    omega
  | succ n ih =>
    intro i h h1 h2
    have hlt : i < max := by omega
    by_cases hij : i = j
    · subst hij
      rw [wp_range_loop, if_neg hmin, if_pos hlt, hj]
      simp only [Bool.not_false, if_true]
      exact wp_range_loop_done blocks n (i + 1) min (i - 1) hmin (by omega)
    · have hi : bank_protected blocks i = true := h i (le_refl i) (by omega)
      rw [wp_range_loop, if_neg hmin, if_pos hlt, hi]
      simp only [Bool.not_true, Bool.false_eq_true, if_false]
      exact ih (i + 1) (fun k hk1 hk2 => h k (by omega) hk2) (by omega)
        (by push_cast at h2; omega)

theorem wp_range_loop_to_end (blocks : List Nat) (min max : Int) (hmin : min ≠ -1) :
    ∀ (n : Nat) (i : Int),
      (∀ k, i ≤ k → k < max → bank_protected blocks k = true) →
      wp_range_loop blocks n i min max = (min, max) := by
  intro n
  induction n with
  | zero =>
    intro i _
    rfl
  | succ n ih =>
    intro i h
    by_cases hlt : i < max
    · have hi : bank_protected blocks i = true := h i (le_refl i) hlt
      rw [wp_range_loop, if_neg hmin, if_pos hlt, hi]
      simp only [Bool.not_true, Bool.false_eq_true, if_false]
      exact ih (i + 1) (fun k hk1 hk2 => h k (by omega) hk2)
    · rw [wp_range_loop, if_neg hmin, if_neg hlt]
      exact ih (i + 1) (fun k hk1 hk2 => h k (by omega) hk2)

/-- No bank protected: `flash_command_wp_get_range` answers offset 0, size 0. -/
theorem wp_get_range_none (f : Flash)
    (h : ∀ k, 0 ≤ k → k < Int.tdiv f.size f.protect_block_size →
      bank_protected f.protect_array k = false) :
    flash_command_wp_get_range f = (EC_RES_SUCCESS, { offset := 0, size := 0 }) := by
  have hl := wp_range_loop_none f.protect_array (Int.tdiv f.size f.protect_block_size).toNat 0
    (Int.tdiv f.size f.protect_block_size - 1)
    (fun k hk1 hk2 => h k hk1 (by omega))
  simp only [flash_command_wp_get_range, hl, if_true]

/-- Where the code meets the run of the first protected banks: `m` is the first
protected bank and `j` the first unprotected bank after it, and `j` is not the
last bank. The answer is the run from `m` up to `j - 1`. -/
theorem wp_get_range_run (f : Flash) (m j : Int) (hm0 : 0 ≤ m)
    (hfirst : ∀ k, 0 ≤ k → k < m → bank_protected f.protect_array k = false)
    (hm : bank_protected f.protect_array m = true) (hmj : m < j)
    (hrun : ∀ k, m < k → k < j → bank_protected f.protect_array k = true)
    (hj : bank_protected f.protect_array j = false)
    (hlast : j < Int.tdiv f.size f.protect_block_size - 1) :
    flash_command_wp_get_range f =
      (EC_RES_SUCCESS,
        { offset := to_uint32 (m * f.protect_block_size),
          size := to_uint32 ((j - m) * f.protect_block_size) }) := by
  obtain ⟨n2, h1, h2⟩ := wp_range_loop_find_min f.protect_array m hm
    (Int.tdiv f.size f.protect_block_size).toNat 0
    (Int.tdiv f.size f.protect_block_size - 1) hfirst hm0 (by omega)
  have h3 := wp_range_loop_find_max f.protect_array j m
    (Int.tdiv f.size f.protect_block_size - 1) (by omega) hj hlast n2 (m + 1)
    (fun k hk1 hk2 => hrun k (by omega) hk2) (by omega) (by omega)
  have hne : ¬ m = -1 := by omega
  have hsz : j - 1 - m + 1 = j - m := by omega
  simp only [flash_command_wp_get_range, h1, h3, if_neg hne, hsz]

/-- Where the code leaves the run: `m` is the first protected bank and every
bank after it is protected except perhaps the last one, which the scan does not
test. The answer runs to the end of the flash, last bank included. -/
theorem wp_get_range_to_end (f : Flash) (m : Int) (hm0 : 0 ≤ m)
    (hfirst : ∀ k, 0 ≤ k → k < m → bank_protected f.protect_array k = false)
    (hm : bank_protected f.protect_array m = true)
    (hmb : m < Int.tdiv f.size f.protect_block_size)
    (hrun : ∀ k, m < k → k < Int.tdiv f.size f.protect_block_size - 1 →
      bank_protected f.protect_array k = true) :
    flash_command_wp_get_range f =
      (EC_RES_SUCCESS,
        { offset := to_uint32 (m * f.protect_block_size),
          size := to_uint32 ((Int.tdiv f.size f.protect_block_size - m) *
            f.protect_block_size) }) := by
  obtain ⟨n2, h1, _⟩ := wp_range_loop_find_min f.protect_array m hm
    (Int.tdiv f.size f.protect_block_size).toNat 0
    (Int.tdiv f.size f.protect_block_size - 1) hfirst hm0 (by omega)
  have h3 := wp_range_loop_to_end f.protect_array m
    (Int.tdiv f.size f.protect_block_size - 1) (by omega) n2 (m + 1)
    (fun k hk1 hk2 => hrun k (by omega) hk2)
  have hne : ¬ m = -1 := by omega
  have hsz : Int.tdiv f.size f.protect_block_size - 1 - m + 1 =
      Int.tdiv f.size f.protect_block_size - m := by omega
  simp only [flash_command_wp_get_range, h1, h3, if_neg hne, hsz]

end Tcpci
